import Mathlib

/-!
Build simulator ("combate"): shallow embedding of `src/combate/src/calculator.js`,
of the budget handlers of `src/combate/src/main.js`, and of the per-item
computation of the market dashboard `src/mercado/market.js`.

Numbers.  The source is embedded twice.  In the first embedding a JavaScript
number is an exact rational (`ℚ`) and every arithmetic operation of the source is
the corresponding operation of `ℚ`; `x.toFixed(d)` followed by `parseFloat` is the
decimal rounding `toFixed d x` (nearest multiple of `10^-d`, ties away from zero, as
ECMAScript defines it on the exact value of `x`).  This embedding leaves out the
binary rounding of IEEE doubles and is used for the properties of control flow,
guards, logs and bookkeeping.  In the second embedding (definitions whose name
ends in `64`, and the market dashboard) every operation is followed by the
rounding to the nearest binary64 value; it is used for the properties that pin
down a computed number.

`Math.random()` is embedded as an explicit sequence of draws `rand : ℕ → ℚ`
(each draw a value of `[0, 1)`), together with the number of draws consumed so
far; `simulateCombatTick` consumes three consecutive draws.

The module-level variables `skillsData` and `playerState` of `state.js` are
explicit arguments.  Log lines are embedded as a datatype that records the kind
of the line and the numbers that the source formats into it.
-/

namespace Combate

/-! ## `state.js` -/

/-- Constant `MAX_SKILL_LEVEL` of `state.js`. -/
def MAX_SKILL_LEVEL : Int := 10

/-- Constant `MIN_SKILL_LEVEL` of `state.js`. -/
def MIN_SKILL_LEVEL : Int := 0

/-- One per-level record of the skills catalog.  `cost` and `unlockAtLevel` may be
absent from the JSON object (`none` stands for `undefined`). -/
structure SkillLevelEntry where
  value : ℚ
  cost : Option ℚ
  unlockAtLevel : Option ℚ
deriving DecidableEq

/-- The object stored under `skillsData.skills[skillCode]`: a mapping from the
property name (the decimal string of a level) to the per-level record. -/
abbrev SkillTable := String → Option SkillLevelEntry

/-- The loaded JSON document `skillsData`; the `skills` property may be absent. -/
structure SkillsData where
  skills : Option (String → Option SkillTable)

/-- An equipped item or an active buff: `{code, name, stats}`; `stats` may be
absent and maps a stat name to its number when the property exists. -/
structure Item where
  code : String
  name : String
  stats : Option (String → Option ℚ)

/-- The object `playerState.equippedItems` (`none` stands for `null`). -/
structure EquippedItems where
  weapon : Option Item
  ammo : Option Item
  helmet : Option Item
  chest : Option Item
  pants : Option Item
  boots : Option Item
  gloves : Option Item

/-- The object `playerState.activeBuffs` (`none` stands for `null`). -/
structure ActiveBuffs where
  ammo : Option Item
  consumable : Option Item

/-- The object `playerState` of `state.js`. -/
structure PlayerState where
  playerLevel : Int
  skillPointsAvailable : ℚ
  skillPointsSpent : ℚ
  currentHealth : ℚ
  currentHunger : ℚ
  assignedSkillLevels : String → Int
  equippedItems : EquippedItems
  activeBuffs : ActiveBuffs

/-- The equipment part of `INITIAL_PLAYER_STATE`: every slot is `null`. -/
def noEquipment : EquippedItems :=
  { weapon := none, ammo := none, helmet := none, chest := none,
    pants := none, boots := none, gloves := none }

/-- The buff part of `INITIAL_PLAYER_STATE`: every slot is `null`. -/
def noBuffs : ActiveBuffs := { ammo := none, consumable := none }

/-- The constant `INITIAL_PLAYER_STATE` of `state.js`. -/
def INITIAL_PLAYER_STATE : PlayerState :=
  { playerLevel := 1, skillPointsAvailable := 0, skillPointsSpent := 0,
    currentHealth := 50, currentHunger := 10,
    assignedSkillLevels := fun _ => 0,
    equippedItems := noEquipment, activeBuffs := noBuffs }

/-! ## Number formatting -/

/-- The number denoted by `x.toFixed(digits)`: the integer `n` for which
`n / 10^digits` is closest to `|x|` (the larger `n` on a tie), with the sign of `x`. -/
def toFixed (digits : ℕ) (x : ℚ) : ℚ :=
  if x < 0 then -((⌊(-x) * 10 ^ digits + 1 / 2⌋ : ℤ) : ℚ) / 10 ^ digits
  else ((⌊x * 10 ^ digits + 1 / 2⌋ : ℤ) : ℚ) / 10 ^ digits

/-- The JavaScript expression `v || 0` on an optional number. -/
def orZero (v : Option ℚ) : ℚ :=
  match v with
  | some x => x
  | none => 0

/-- The JavaScript expression `item?.stats?.[key] || 0`. -/
def statOrZero (item : Option Item) (key : String) : ℚ :=
  match item with
  | none => 0
  | some it =>
    match it.stats with
    | none => 0
    | some stats => orZero (stats key)

/-! ## `calculator.js` -/

/-- The function `getSkillData(skillCode, level)`; `none` stands for `null` and for
`undefined`. -/
def getSkillData (skillsData : Option SkillsData) (skillCode : String) (level : Int) :
    Option SkillLevelEntry :=
  match skillsData with
  | none => none
  | some data =>
    match data.skills with
    | none => none
    | some skills =>
      match skills skillCode with
      | none => none
      | some table =>
        let validLevel := max MIN_SKILL_LEVEL (min MAX_SKILL_LEVEL level)
        table (toString validLevel)

/-- The object returned by `calculateStatDetails`. -/
structure StatDetails where
  skillValue : ℚ
  equipmentValue : ℚ
  equipmentItems : List Item
  ammoPercent : ℚ
  buffPercent : ℚ
  total : ℚ

/-- The function `calculateStatDetails(skillCode)`. -/
def calculateStatDetails (skillsData : Option SkillsData) (playerState : PlayerState)
    (skillCode : String) : StatDetails :=
  let currentSkillLevel := playerState.assignedSkillLevels skillCode
  let skillBaseInfo := getSkillData skillsData skillCode currentSkillLevel
  let skillValue : ℚ :=
    match skillBaseInfo with
    | some info => info.value
    | none => 0
  let equippedItems := playerState.equippedItems
  let activeBuffs := playerState.activeBuffs
  if skillCode = "attack" then
    let equipmentValue := statOrZero equippedItems.weapon "attack"
    let ammoPercent := statOrZero activeBuffs.ammo "percentAttack"
    let buffPercent := statOrZero activeBuffs.consumable "percentAttack"
    let total := (skillValue + equipmentValue) * (1 + (ammoPercent / 100) + (buffPercent / 100))
    { skillValue := skillValue, equipmentValue := equipmentValue,
      equipmentItems := equippedItems.weapon.toList,
      ammoPercent := ammoPercent, buffPercent := buffPercent, total := toFixed 1 total }
  else if skillCode = "precision" then
    let equipmentValue := statOrZero equippedItems.gloves "precision"
    { skillValue := skillValue, equipmentValue := equipmentValue,
      equipmentItems := equippedItems.gloves.toList,
      ammoPercent := 0, buffPercent := 0, total := toFixed 1 (skillValue + equipmentValue) }
  else if skillCode = "criticalChance" then
    let equipmentValue := statOrZero equippedItems.weapon "criticalChance"
    { skillValue := skillValue, equipmentValue := equipmentValue,
      equipmentItems := equippedItems.weapon.toList,
      ammoPercent := 0, buffPercent := 0, total := toFixed 1 (skillValue + equipmentValue) }
  else if skillCode = "criticalDamages" then
    let equipmentValue := statOrZero equippedItems.helmet "criticalDamages"
    { skillValue := skillValue, equipmentValue := equipmentValue,
      equipmentItems := equippedItems.helmet.toList,
      ammoPercent := 0, buffPercent := 0, total := toFixed 1 (skillValue + equipmentValue) }
  else if skillCode = "armor" then
    let chestArmor := statOrZero equippedItems.chest "armor"
    let pantsArmor := statOrZero equippedItems.pants "armor"
    let equipmentValue := chestArmor + pantsArmor
    { skillValue := skillValue, equipmentValue := equipmentValue,
      equipmentItems := equippedItems.chest.toList ++ equippedItems.pants.toList,
      ammoPercent := 0, buffPercent := 0, total := toFixed 1 (skillValue + equipmentValue) }
  else if skillCode = "dodge" then
    let equipmentValue := statOrZero equippedItems.boots "dodge"
    { skillValue := skillValue, equipmentValue := equipmentValue,
      equipmentItems := equippedItems.boots.toList,
      ammoPercent := 0, buffPercent := 0, total := toFixed 1 (skillValue + equipmentValue) }
  else
    { skillValue := skillValue, equipmentValue := 0, equipmentItems := [],
      ammoPercent := 0, buffPercent := 0, total := toFixed 1 skillValue }

/-- A line of a simulation log: the kind of the line and the numbers the source
formats into it (already rounded the way the line shows them). -/
inductive LogLine where
  /-- Line `ESQUIVA! Não se perdeu vida.` -/
  | dodge
  /-- Line `ARMADURA reduziu a perda de vida em …` -/
  | armor (damageReduction : ℚ)
  /-- Line `Potencial de dano base é …` -/
  | basePotential (baseDamage : ℚ)
  /-- Line `FALHOU! O dano foi reduzido a metade.` -/
  | miss
  /-- Line `ACERTOU! Potencial de dano total.` -/
  | hit
  /-- Line `GOLPE CRÍTICO! Dano multiplicado por … (+…)` -/
  | critical (critMultiplier criticalDamageBonus : ℚ)
  /-- Line `Golpe normal.` -/
  | normal
  /-- Line `--- Golpe n (Vida: …) ---` of `simulateFullCombat`. -/
  | golpe (ticksSurvived : ℕ) (healthAfterTick : ℚ)
  /-- Line `--- SIMULAÇÃO PARADA: Número máximo de golpes atingido. ---` -/
  | maxTicks
  /-- Line `--- Simulação iniciada com … (+… PV por ponto de fome) ---` -/
  | started (foodName : String) (healthPerFood : ℚ)
  /-- Line `VIDA CRÍTICA! PV a …. A tentar comer.` -/
  | criticalHealth (health : ℚ)
  /-- Line `Parou de comer: a vida está cheia ou sobrecarregada (… / …).` -/
  | stoppedEating (health maxHealth : ℚ)
  /-- Line `COMEU …! Curado em …. PV: … -> …. Fome restante: ….` -/
  | ate (foodName : String) (healthPerFood healthBefore healthAfter hunger : ℚ)
  /-- Line `--- COMBATE TERMINADO: Jogador derrotado. … ---` -/
  | defeated
  /-- Line `--- Golpe n | PV restantes: … | Fome: … ---` of `simulateFullCombatWithFood`. -/
  | golpeFood (ticksSurvived : ℕ) (health hunger : ℚ)
deriving DecidableEq

/-- The local variables of `simulateCombatTick` when it reaches its `return`
statement, before the two results are rounded. -/
structure TickLocals where
  finalDamageDealt : ℚ
  healthLost : ℚ
  baseDamage : ℚ
  log : List LogLine
  wasCritical : Bool
  wasHit : Bool
  wasDodge : Bool

/-- The object returned by `simulateCombatTick`. -/
structure TickResult where
  finalDamageDealt : ℚ
  healthLost : ℚ
  log : List LogLine
  wasCritical : Bool
  wasHit : Bool
  wasDodge : Bool
deriving DecidableEq

/-- The body of `simulateCombatTick` up to its `return`; `r1`, `r2`, `r3` are the
values of the three calls of `Math.random()`, in order. -/
def simulateCombatTickLocals (skillsData : Option SkillsData) (playerState : PlayerState)
    (r1 r2 r3 : ℚ) : TickLocals :=
  let attackStats := calculateStatDetails skillsData playerState "attack"
  let precisionStats := calculateStatDetails skillsData playerState "precision"
  let critChanceStats := calculateStatDetails skillsData playerState "criticalChance"
  let critDamageStats := calculateStatDetails skillsData playerState "criticalDamages"
  let armorStats := calculateStatDetails skillsData playerState "armor"
  let dodgeStats := calculateStatDetails skillsData playerState "dodge"
  let healthLost0 : ℚ := 10
  let wasDodge : Bool := decide (r1 * 100 < dodgeStats.total)
  let damageReduction := healthLost0 * (armorStats.total / 100)
  let healthLost : ℚ := if wasDodge then 0 else healthLost0 - damageReduction
  let log1 : List LogLine :=
    if wasDodge then [LogLine.dodge] else [LogLine.armor (toFixed 1 damageReduction)]
  let baseDamage0 := attackStats.total
  let log2 := log1 ++ [LogLine.basePotential (toFixed 1 baseDamage0)]
  let wasHit : Bool := decide (r2 * 100 < precisionStats.total)
  let baseDamage : ℚ := if !wasHit then baseDamage0 / 2 else baseDamage0
  let log3 := log2 ++ [if !wasHit then LogLine.miss else LogLine.hit]
  let wasCritical : Bool := decide (r3 * 100 < critChanceStats.total)
  let critMultiplier := 1 + (critDamageStats.total / 100)
  let criticalDamageBonus := baseDamage * (critDamageStats.total / 100)
  let finalDamageDealt : ℚ := if wasCritical then baseDamage * critMultiplier else baseDamage
  let log4 := log3 ++
    [if wasCritical then LogLine.critical (toFixed 2 critMultiplier) (toFixed 1 criticalDamageBonus)
     else LogLine.normal]
  { finalDamageDealt := finalDamageDealt, healthLost := healthLost, baseDamage := baseDamage,
    log := log4, wasCritical := wasCritical, wasHit := wasHit, wasDodge := wasDodge }

/-- The function `simulateCombatTick()`, as a function of the catalog, the build
state and the three random draws it makes. -/
def simulateCombatTick (skillsData : Option SkillsData) (playerState : PlayerState)
    (r1 r2 r3 : ℚ) : TickResult :=
  let l := simulateCombatTickLocals skillsData playerState r1 r2 r3
  { finalDamageDealt := toFixed 1 l.finalDamageDealt,
    healthLost := toFixed 1 l.healthLost,
    log := l.log, wasCritical := l.wasCritical, wasHit := l.wasHit, wasDodge := l.wasDodge }

/-- The local variables of `simulateFullCombat`, with the number of random draws
consumed so far. -/
structure FullCombatState where
  totalDamageDealt : ℚ
  ticksSurvived : ℕ
  fullLog : List LogLine
  tempCurrentHealth : ℚ
  drawsUsed : ℕ
deriving DecidableEq

/-- The object returned by `simulateFullCombat`. -/
structure FullCombatResult where
  totalDamageDealt : ℚ
  ticksSurvived : ℕ
  log : List LogLine
  finalHealth : ℚ
deriving DecidableEq

/-- One execution of the body of the `while` loop of `simulateFullCombat`. -/
def fullCombatBody (skillsData : Option SkillsData) (playerState : PlayerState) (rand : ℕ → ℚ)
    (s : FullCombatState) : FullCombatState :=
  let tickResult := simulateCombatTick skillsData playerState
    (rand s.drawsUsed) (rand (s.drawsUsed + 1)) (rand (s.drawsUsed + 2))
  let tempCurrentHealth := s.tempCurrentHealth - tickResult.healthLost
  let totalDamageDealt :=
    if tempCurrentHealth ≥ 0 ∨ (tempCurrentHealth < 0 ∧ s.ticksSurvived = 0) then
      s.totalDamageDealt + tickResult.finalDamageDealt
    else s.totalDamageDealt
  let ticksSurvived := s.ticksSurvived + 1
  let healthAfterTick := toFixed 1 (max 0 tempCurrentHealth)
  { totalDamageDealt := totalDamageDealt, ticksSurvived := ticksSurvived,
    fullLog := s.fullLog ++ [LogLine.golpe ticksSurvived healthAfterTick] ++ tickResult.log,
    tempCurrentHealth := tempCurrentHealth, drawsUsed := s.drawsUsed + 3 }

/-- Constant `MAX_TICKS` local to `simulateFullCombat`. -/
def simulateFullCombat.MAX_TICKS : ℕ := 1000

/-- The `while` loop of `simulateFullCombat`; `none` when the fuel runs out before
the loop condition becomes false. -/
def fullCombatLoop (skillsData : Option SkillsData) (playerState : PlayerState) (rand : ℕ → ℚ) :
    ℕ → FullCombatState → Option FullCombatState
  | 0, _ => none
  | fuel + 1, s =>
    if s.tempCurrentHealth > 0 ∧ s.ticksSurvived < simulateFullCombat.MAX_TICKS then
      fullCombatLoop skillsData playerState rand fuel
        (fullCombatBody skillsData playerState rand s)
    else some s

/-- The values of the local variables of `simulateFullCombat` when its loop ends
(fuel `MAX_TICKS + 1`: one unit per loop test). -/
def simulateFullCombatRun (skillsData : Option SkillsData) (playerState : PlayerState)
    (rand : ℕ → ℚ) : Option FullCombatState :=
  fullCombatLoop skillsData playerState rand (simulateFullCombat.MAX_TICKS + 1)
    { totalDamageDealt := 0, ticksSurvived := 0, fullLog := [],
      tempCurrentHealth := playerState.currentHealth, drawsUsed := 0 }

/-- The function `simulateFullCombat()`; `none` when the fuel of the loop runs out. -/
def simulateFullCombat (skillsData : Option SkillsData) (playerState : PlayerState)
    (rand : ℕ → ℚ) : Option FullCombatResult :=
  match simulateFullCombatRun skillsData playerState rand with
  | none => none
  | some s =>
    some { totalDamageDealt := toFixed 1 s.totalDamageDealt,
           ticksSurvived := s.ticksSurvived,
           log := if s.ticksSurvived ≥ simulateFullCombat.MAX_TICKS
                  then s.fullLog ++ [LogLine.maxTicks] else s.fullLog,
           finalHealth := max 0 s.tempCurrentHealth }

/-- The property `flatStats` of a catalog item; `healthRegen` may be absent. -/
structure FlatStats where
  healthRegen : Option ℚ

/-- The argument of `simulateFullCombatWithFood`: `{name, flatStats}`, where the
property `flatStats` may be absent. -/
structure FoodItem where
  name : String
  flatStats : Option FlatStats

/-- The local variables of `simulateFullCombatWithFood` that its loops update, with
the number of random draws consumed so far. -/
structure FoodCombatState where
  totalDamageDealt : ℚ
  ticksSurvived : ℕ
  fullLog : List LogLine
  tempCurrentHealth : ℚ
  tempCurrentHunger : ℚ
  drawsUsed : ℕ
deriving DecidableEq

/-- The object returned by `simulateFullCombatWithFood`. -/
structure FoodCombatResult where
  totalDamageDealt : ℚ
  ticksSurvived : ℕ
  log : List LogLine
  finalHealth : ℚ
  finalHunger : ℚ
deriving DecidableEq

/-- The ways a call can fail to return a result object: the `TypeError` that
JavaScript throws on reading a property of `undefined`, and the exhaustion of the
fuel of an embedded loop. -/
inductive SimError where
  | typeError
  | outOfFuel
deriving DecidableEq

/-- Constant `INCOMING_DAMAGE_PER_TICK` local to `simulateFullCombatWithFood`. -/
def INCOMING_DAMAGE_PER_TICK : ℚ := 10

/-- Constant `MAX_TICKS` local to `simulateFullCombatWithFood`. -/
def MAX_TICKS : ℕ := 2000

/-- The expression `getSkillData('health', playerState.assignedSkillLevels.health)?.value || 50`. -/
def maxHealthFromSkills (skillsData : Option SkillsData) (playerState : PlayerState) : ℚ :=
  match getSkillData skillsData "health" (playerState.assignedSkillLevels "health") with
  | none => 50
  | some info => if info.value = 0 then 50 else info.value

/-- The inner `while` loop of `simulateFullCombatWithFood` (the consumption cycle);
`none` when the fuel runs out before the loop is left. -/
def eatLoop (foodName : String) (healthPerFood maxHealth : ℚ) :
    ℕ → FoodCombatState → Option FoodCombatState
  | 0, _ => none
  | fuel + 1, s =>
    if s.tempCurrentHunger > 0 ∧ s.tempCurrentHealth ≤ INCOMING_DAMAGE_PER_TICK then
      if s.tempCurrentHealth ≥ maxHealth then
        some { s with
          fullLog := s.fullLog ++
            [LogLine.stoppedEating (toFixed 1 s.tempCurrentHealth) maxHealth] }
      else
        let tempCurrentHunger := s.tempCurrentHunger - 1
        let healthBeforeHeal := s.tempCurrentHealth
        let tempCurrentHealth := s.tempCurrentHealth + healthPerFood
        eatLoop foodName healthPerFood maxHealth fuel
          { s with
            tempCurrentHunger := tempCurrentHunger
            tempCurrentHealth := tempCurrentHealth
            fullLog := s.fullLog ++
              [LogLine.ate foodName healthPerFood (toFixed 1 healthBeforeHeal)
                (toFixed 1 tempCurrentHealth) tempCurrentHunger] }
    else some s

/-- Fuel given to the consumption cycle entered with hunger `hunger`: one unit per
point of hunger that can be spent, and one for the test that leaves the loop. -/
def eatFuel (hunger : ℚ) : ℕ := (⌈hunger⌉ : ℤ).toNat + 1

/-- Step 1 of the body of the outer loop of `simulateFullCombatWithFood`: the
panic check and the consumption cycle. -/
def panicEat (foodName : String) (healthPerFood maxHealth : ℚ) (s : FoodCombatState) :
    Option FoodCombatState :=
  if s.tempCurrentHealth ≤ INCOMING_DAMAGE_PER_TICK ∧ s.tempCurrentHunger > 0 ∧
      healthPerFood > 0 then
    eatLoop foodName healthPerFood maxHealth (eatFuel s.tempCurrentHunger)
      { s with fullLog := s.fullLog ++ [LogLine.criticalHealth (toFixed 1 s.tempCurrentHealth)] }
  else some s

/-- Steps 3 and 4 of the body of the outer loop of `simulateFullCombatWithFood`:
one combat tick, its bookkeeping and its log lines. -/
def foodTick (skillsData : Option SkillsData) (playerState : PlayerState) (rand : ℕ → ℚ)
    (s : FoodCombatState) : FoodCombatState :=
  let tickResult := simulateCombatTick skillsData playerState
    (rand s.drawsUsed) (rand (s.drawsUsed + 1)) (rand (s.drawsUsed + 2))
  let healthLostThisTick := tickResult.healthLost
  let tempCurrentHealth := s.tempCurrentHealth - healthLostThisTick
  let totalDamageDealt := s.totalDamageDealt + tickResult.finalDamageDealt
  let ticksSurvived := s.ticksSurvived + 1
  let healthAfterDamage := tempCurrentHealth
  let logEntry :=
    LogLine.golpeFood ticksSurvived (toFixed 1 (max 0 healthAfterDamage)) s.tempCurrentHunger
  { s with
    totalDamageDealt := totalDamageDealt
    ticksSurvived := ticksSurvived
    fullLog := s.fullLog ++ [logEntry] ++ tickResult.log
    tempCurrentHealth := tempCurrentHealth
    drawsUsed := s.drawsUsed + 3 }

/-- The outer `while` loop of `simulateFullCombatWithFood`; `none` when the fuel of
this loop or of a consumption cycle runs out before the loop is left. -/
def foodLoop (skillsData : Option SkillsData) (playerState : PlayerState) (rand : ℕ → ℚ)
    (foodName : String) (healthPerFood maxHealth : ℚ) :
    ℕ → FoodCombatState → Option FoodCombatState
  | 0, _ => none
  | fuel + 1, s =>
    if s.ticksSurvived < MAX_TICKS then
      match panicEat foodName healthPerFood maxHealth s with
      | none => none
      | some s1 =>
        if s1.tempCurrentHealth ≤ 0 then
          some { s1 with fullLog := s1.fullLog ++ [LogLine.defeated] }
        else
          foodLoop skillsData playerState rand foodName healthPerFood maxHealth fuel
            (foodTick skillsData playerState rand s1)
    else some s

/-- The values of the local variables of `simulateFullCombatWithFood` when its outer
loop ends, for a food item whose `flatStats` exists (fuel `MAX_TICKS + 1`: one unit
per loop test). -/
def simulateFullCombatWithFoodRun (skillsData : Option SkillsData) (playerState : PlayerState)
    (foodName : String) (flatStats : FlatStats) (rand : ℕ → ℚ) : Option FoodCombatState :=
  let healthPerFood := orZero flatStats.healthRegen
  foodLoop skillsData playerState rand foodName healthPerFood
    (maxHealthFromSkills skillsData playerState) (MAX_TICKS + 1)
    { totalDamageDealt := 0, ticksSurvived := 0,
      fullLog := [LogLine.started foodName healthPerFood],
      tempCurrentHealth := playerState.currentHealth,
      tempCurrentHunger := playerState.currentHunger, drawsUsed := 0 }

/-- The function `simulateFullCombatWithFood(foodItem)`; `foodItem = none` stands
for a call with `undefined`. -/
def simulateFullCombatWithFood (skillsData : Option SkillsData) (playerState : PlayerState)
    (foodItem : Option FoodItem) (rand : ℕ → ℚ) : Except SimError FoodCombatResult :=
  match foodItem with
  | none => Except.error SimError.typeError
  | some food =>
    match food.flatStats with
    | none => Except.error SimError.typeError
    | some flatStats =>
      match simulateFullCombatWithFoodRun skillsData playerState food.name flatStats rand with
      | none => Except.error SimError.outOfFuel
      | some s =>
        Except.ok
          { totalDamageDealt := toFixed 1 s.totalDamageDealt,
            ticksSurvived := s.ticksSurvived,
            log := if s.ticksSurvived ≥ MAX_TICKS then s.fullLog ++ [LogLine.maxTicks]
                   else s.fullLog,
            finalHealth := max 0 s.tempCurrentHealth,
            finalHunger := s.tempCurrentHunger }

/-- One execution of the body of the `for` loop of `calculateCumulativeSkillCost`,
for the loop index `i`: the cost of the entry is added when the entry exists and
its `cost` is truthy (present and not 0). -/
def cumulativeCostStep (skillsData : Option SkillsData) (skillCode : String)
    (totalCost : ℚ) (i : Int) : ℚ :=
  match getSkillData skillsData skillCode i with
  | none => totalCost
  | some levelData =>
    match levelData.cost with
    | none => totalCost
    | some cost => if cost ≠ 0 then totalCost + cost else totalCost

/-- The function `calculateCumulativeSkillCost(skillCode, level)`, for an integer
`level`: the `for` loop runs its body for `i = 1, …, level`. -/
def calculateCumulativeSkillCost (skillsData : Option SkillsData) (skillCode : String)
    (level : Int) : ℚ :=
  match skillsData with
  | none => 0
  | some data =>
    match data.skills with
    | none => 0
    | some skills =>
      match skills skillCode with
      | none => 0
      | some _ =>
        if level ≤ MIN_SKILL_LEVEL then 0
        else
          (List.range level.toNat).foldl
            (fun (totalCost : ℚ) (k : ℕ) =>
              cumulativeCostStep skillsData skillCode totalCost ((k : Int) + 1)) 0

/-- The cost that the level-`level` entry of a skill contributes: its `cost`, and 0
when the entry or its `cost` is missing. -/
def levelCost (skillsData : Option SkillsData) (skillCode : String) (level : Int) : ℚ :=
  match getSkillData skillsData skillCode level with
  | none => 0
  | some levelData => orZero levelData.cost

/-- Whether a log line is written by the panic-eat step: the critical-health line,
the line of a consumed food, or the line of the overheal guard. -/
def LogLine.isPanicEat : LogLine → Bool
  | LogLine.criticalHealth _ => true
  | LogLine.stoppedEating _ _ => true
  | LogLine.ate _ _ _ _ _ => true
  | _ => false

/-- Whether a log line is the summary line that a full-combat loop writes for each
tick it resolves (`--- Golpe n … ---`). -/
def LogLine.isTickHeader : LogLine → Bool
  | LogLine.golpe _ _ => true
  | LogLine.golpeFood _ _ _ => true
  | _ => false

/-- The result of the `k`-th call of `simulateCombatTick` in a run (counting from 0):
the call that consumes the draws `3k`, `3k + 1` and `3k + 2`. -/
def tickAt (skillsData : Option SkillsData) (playerState : PlayerState) (rand : ℕ → ℚ)
    (k : ℕ) : TickResult :=
  simulateCombatTick skillsData playerState (rand (3 * k)) (rand (3 * k + 1)) (rand (3 * k + 2))

/-! ## IEEE 754 binary64 arithmetic

A JavaScript number is an IEEE 754 binary64 value.  In this section a finite
number is the rational it denotes, and an arithmetic operation of the source is
the exact operation followed by `roundDouble`, the rounding to the nearest
binary64 value (ties to the even significand, gradual underflow below `2^-1022`).
Results of magnitude `2^1024` and above, which JavaScript replaces by an infinity,
`NaN` and the sign of zero are not represented: the embedding is exact as long as
every intermediate result is finite.

The definitions whose name ends in `64` embed the source over this arithmetic.
They are used for the claims that pin down a computed number; the claims about
control flow, guards and bookkeeping are settled on the embedding over exact
rationals above, which is the same code with the rounding left out. -/

/-- The number of binary digits of `n`, by repeated halving; `fuel` bounds the
number of halvings. -/
def bitLengthAux : ℕ → ℕ → ℕ
  | 0, _ => 0
  | fuel + 1, n => if n = 0 then 0 else bitLengthAux fuel (n / 2) + 1

/-- The number of binary digits of `n` (0 for `n = 0`). -/
def bitLength (n : ℕ) : ℕ := bitLengthAux n n

/-- The binary exponent of a positive rational `x`: the integer `e` with
`2^e ≤ x < 2^(e+1)`. -/
def floorLog2 (x : ℚ) : Int :=
  let e0 : Int := (bitLength x.num.natAbs : Int) - (bitLength x.den : Int)
  if (2 : ℚ) ^ e0 ≤ x then e0 else e0 - 1

/-- The integer nearest to a non-negative rational, the even one on a tie. -/
def roundHalfEven (q : ℚ) : Int :=
  let f : Int := ⌊q⌋
  if q - f < 1 / 2 then f
  else if 1 / 2 < q - f then f + 1
  else if f % 2 = 0 then f else f + 1

/-- The binary64 value nearest to a positive rational `x`: a multiple of the unit
in the last place `2^(e − 52)`, where `e` is the binary exponent of `x` and not
below `−1022`. -/
def roundDoublePos (x : ℚ) : ℚ :=
  let e : Int := max (floorLog2 x) (-1022)
  let ulp : ℚ := (2 : ℚ) ^ (e - 52)
  (roundHalfEven (x / ulp) : ℚ) * ulp

/-- The binary64 value nearest to `x` (round to nearest, ties to even). -/
def roundDouble (x : ℚ) : ℚ :=
  if x = 0 then 0
  else if x < 0 then -roundDoublePos (-x)
  else roundDoublePos x

/-- The JavaScript expression `x + y`. -/
def fadd (x y : ℚ) : ℚ := roundDouble (x + y)

/-- The JavaScript expression `x - y`. -/
def fsub (x y : ℚ) : ℚ := roundDouble (x - y)

/-- The JavaScript expression `x * y`. -/
def fmul (x y : ℚ) : ℚ := roundDouble (x * y)

/-- The JavaScript expression `x / y`, for `y` other than 0. -/
def fdiv (x y : ℚ) : ℚ := roundDouble (x / y)

/-- The JavaScript expression `parseFloat(x.toFixed(digits))`: the decimal string
that `toFixed` produces from the exact value of `x`, read back as a binary64
value. -/
def parseFloatToFixed (digits : ℕ) (x : ℚ) : ℚ := roundDouble (toFixed digits x)

/-- The function `calculateStatDetails(skillCode)` over binary64 arithmetic. -/
def calculateStatDetails64 (skillsData : Option SkillsData) (playerState : PlayerState)
    (skillCode : String) : StatDetails :=
  let currentSkillLevel := playerState.assignedSkillLevels skillCode
  let skillBaseInfo := getSkillData skillsData skillCode currentSkillLevel
  let skillValue : ℚ :=
    match skillBaseInfo with
    | some info => info.value
    | none => 0
  let equippedItems := playerState.equippedItems
  let activeBuffs := playerState.activeBuffs
  if skillCode = "attack" then
    let equipmentValue := statOrZero equippedItems.weapon "attack"
    let ammoPercent := statOrZero activeBuffs.ammo "percentAttack"
    let buffPercent := statOrZero activeBuffs.consumable "percentAttack"
    let total := fmul (fadd skillValue equipmentValue)
      (fadd (fadd 1 (fdiv ammoPercent 100)) (fdiv buffPercent 100))
    { skillValue := skillValue, equipmentValue := equipmentValue,
      equipmentItems := equippedItems.weapon.toList,
      ammoPercent := ammoPercent, buffPercent := buffPercent,
      total := parseFloatToFixed 1 total }
  else if skillCode = "precision" then
    let equipmentValue := statOrZero equippedItems.gloves "precision"
    { skillValue := skillValue, equipmentValue := equipmentValue,
      equipmentItems := equippedItems.gloves.toList,
      ammoPercent := 0, buffPercent := 0,
      total := parseFloatToFixed 1 (fadd skillValue equipmentValue) }
  else if skillCode = "criticalChance" then
    let equipmentValue := statOrZero equippedItems.weapon "criticalChance"
    { skillValue := skillValue, equipmentValue := equipmentValue,
      equipmentItems := equippedItems.weapon.toList,
      ammoPercent := 0, buffPercent := 0,
      total := parseFloatToFixed 1 (fadd skillValue equipmentValue) }
  else if skillCode = "criticalDamages" then
    let equipmentValue := statOrZero equippedItems.helmet "criticalDamages"
    { skillValue := skillValue, equipmentValue := equipmentValue,
      equipmentItems := equippedItems.helmet.toList,
      ammoPercent := 0, buffPercent := 0,
      total := parseFloatToFixed 1 (fadd skillValue equipmentValue) }
  else if skillCode = "armor" then
    let chestArmor := statOrZero equippedItems.chest "armor"
    let pantsArmor := statOrZero equippedItems.pants "armor"
    let equipmentValue := fadd chestArmor pantsArmor
    { skillValue := skillValue, equipmentValue := equipmentValue,
      equipmentItems := equippedItems.chest.toList ++ equippedItems.pants.toList,
      ammoPercent := 0, buffPercent := 0,
      total := parseFloatToFixed 1 (fadd skillValue equipmentValue) }
  else if skillCode = "dodge" then
    let equipmentValue := statOrZero equippedItems.boots "dodge"
    { skillValue := skillValue, equipmentValue := equipmentValue,
      equipmentItems := equippedItems.boots.toList,
      ammoPercent := 0, buffPercent := 0,
      total := parseFloatToFixed 1 (fadd skillValue equipmentValue) }
  else
    { skillValue := skillValue, equipmentValue := 0, equipmentItems := [],
      ammoPercent := 0, buffPercent := 0, total := parseFloatToFixed 1 skillValue }

/-- The body of `simulateCombatTick` up to its `return`, over binary64 arithmetic;
`r1`, `r2`, `r3` are the values of the three calls of `Math.random()`, in order.
The numbers of the log lines are the decimals that `toFixed` prints. -/
def simulateCombatTickLocals64 (skillsData : Option SkillsData) (playerState : PlayerState)
    (r1 r2 r3 : ℚ) : TickLocals :=
  let attackStats := calculateStatDetails64 skillsData playerState "attack"
  let precisionStats := calculateStatDetails64 skillsData playerState "precision"
  let critChanceStats := calculateStatDetails64 skillsData playerState "criticalChance"
  let critDamageStats := calculateStatDetails64 skillsData playerState "criticalDamages"
  let armorStats := calculateStatDetails64 skillsData playerState "armor"
  let dodgeStats := calculateStatDetails64 skillsData playerState "dodge"
  let healthLost0 : ℚ := 10
  let wasDodge : Bool := decide (fmul r1 100 < dodgeStats.total)
  let damageReduction := fmul healthLost0 (fdiv armorStats.total 100)
  let healthLost : ℚ := if wasDodge then 0 else fsub healthLost0 damageReduction
  let log1 : List LogLine :=
    if wasDodge then [LogLine.dodge] else [LogLine.armor (toFixed 1 damageReduction)]
  let baseDamage0 := attackStats.total
  let log2 := log1 ++ [LogLine.basePotential (toFixed 1 baseDamage0)]
  let wasHit : Bool := decide (fmul r2 100 < precisionStats.total)
  let baseDamage : ℚ := if !wasHit then fdiv baseDamage0 2 else baseDamage0
  let log3 := log2 ++ [if !wasHit then LogLine.miss else LogLine.hit]
  let wasCritical : Bool := decide (fmul r3 100 < critChanceStats.total)
  let critMultiplier := fadd 1 (fdiv critDamageStats.total 100)
  let criticalDamageBonus := fmul baseDamage (fdiv critDamageStats.total 100)
  let finalDamageDealt : ℚ := if wasCritical then fmul baseDamage critMultiplier else baseDamage
  let log4 := log3 ++
    [if wasCritical then LogLine.critical (toFixed 2 critMultiplier) (toFixed 1 criticalDamageBonus)
     else LogLine.normal]
  { finalDamageDealt := finalDamageDealt, healthLost := healthLost, baseDamage := baseDamage,
    log := log4, wasCritical := wasCritical, wasHit := wasHit, wasDodge := wasDodge }

/-- The function `simulateCombatTick()` over binary64 arithmetic, as a function of
the catalog, the build state and the three random draws it makes. -/
def simulateCombatTick64 (skillsData : Option SkillsData) (playerState : PlayerState)
    (r1 r2 r3 : ℚ) : TickResult :=
  let l := simulateCombatTickLocals64 skillsData playerState r1 r2 r3
  { finalDamageDealt := parseFloatToFixed 1 l.finalDamageDealt,
    healthLost := parseFloatToFixed 1 l.healthLost,
    log := l.log, wasCritical := l.wasCritical, wasHit := l.wasHit, wasDodge := l.wasDodge }

/-- One execution of the body of the `while` loop of `simulateFullCombat`, over
binary64 arithmetic. -/
def fullCombatBody64 (skillsData : Option SkillsData) (playerState : PlayerState)
    (rand : ℕ → ℚ) (s : FullCombatState) : FullCombatState :=
  let tickResult := simulateCombatTick64 skillsData playerState
    (rand s.drawsUsed) (rand (s.drawsUsed + 1)) (rand (s.drawsUsed + 2))
  let tempCurrentHealth := fsub s.tempCurrentHealth tickResult.healthLost
  let totalDamageDealt :=
    if tempCurrentHealth ≥ 0 ∨ (tempCurrentHealth < 0 ∧ s.ticksSurvived = 0) then
      fadd s.totalDamageDealt tickResult.finalDamageDealt
    else s.totalDamageDealt
  let ticksSurvived := s.ticksSurvived + 1
  let healthAfterTick := toFixed 1 (max 0 tempCurrentHealth)
  { totalDamageDealt := totalDamageDealt, ticksSurvived := ticksSurvived,
    fullLog := s.fullLog ++ [LogLine.golpe ticksSurvived healthAfterTick] ++ tickResult.log,
    tempCurrentHealth := tempCurrentHealth, drawsUsed := s.drawsUsed + 3 }

/-- The `while` loop of `simulateFullCombat` over binary64 arithmetic; `none` when
the fuel runs out before the loop condition becomes false. -/
def fullCombatLoop64 (skillsData : Option SkillsData) (playerState : PlayerState)
    (rand : ℕ → ℚ) : ℕ → FullCombatState → Option FullCombatState
  | 0, _ => none
  | fuel + 1, s =>
    if s.tempCurrentHealth > 0 ∧ s.ticksSurvived < simulateFullCombat.MAX_TICKS then
      fullCombatLoop64 skillsData playerState rand fuel
        (fullCombatBody64 skillsData playerState rand s)
    else some s

/-- The values of the local variables of `simulateFullCombat` when its loop ends,
over binary64 arithmetic (fuel `MAX_TICKS + 1`: one unit per loop test). -/
def simulateFullCombatRun64 (skillsData : Option SkillsData) (playerState : PlayerState)
    (rand : ℕ → ℚ) : Option FullCombatState :=
  fullCombatLoop64 skillsData playerState rand (simulateFullCombat.MAX_TICKS + 1)
    { totalDamageDealt := 0, ticksSurvived := 0, fullLog := [],
      tempCurrentHealth := playerState.currentHealth, drawsUsed := 0 }

/-- The function `simulateFullCombat()` over binary64 arithmetic; `none` when the
fuel of the loop runs out. -/
def simulateFullCombat64 (skillsData : Option SkillsData) (playerState : PlayerState)
    (rand : ℕ → ℚ) : Option FullCombatResult :=
  match simulateFullCombatRun64 skillsData playerState rand with
  | none => none
  | some s =>
    some { totalDamageDealt := parseFloatToFixed 1 s.totalDamageDealt,
           ticksSurvived := s.ticksSurvived,
           log := if s.ticksSurvived ≥ simulateFullCombat.MAX_TICKS
                  then s.fullLog ++ [LogLine.maxTicks] else s.fullLog,
           finalHealth := max 0 s.tempCurrentHealth }

/-- The result of the `k`-th call of `simulateCombatTick` in a run over binary64
arithmetic (counting from 0): the call that consumes the draws `3k`, `3k + 1` and
`3k + 2`. -/
def tickAt64 (skillsData : Option SkillsData) (playerState : PlayerState) (rand : ℕ → ℚ)
    (k : ℕ) : TickResult :=
  simulateCombatTick64 skillsData playerState (rand (3 * k)) (rand (3 * k + 1))
    (rand (3 * k + 2))

/-- The value of `tempCurrentHealth` after the first `n` ticks of a run of
`simulateFullCombat`: the `healthLost` of each tick is subtracted in turn, in
binary64 arithmetic. -/
def healthAfterTicks64 (skillsData : Option SkillsData) (playerState : PlayerState)
    (rand : ℕ → ℚ) : ℕ → ℚ
  | 0 => playerState.currentHealth
  | n + 1 =>
    fsub (healthAfterTicks64 skillsData playerState rand n)
      (tickAt64 skillsData playerState rand n).healthLost

/-- The damage counted among the first `n` ticks of a run of `simulateFullCombat`:
the `finalDamageDealt` of a tick is added, in binary64 arithmetic, when the health
after that tick is at least 0 or the tick is the very first one. -/
def countedDamage64 (skillsData : Option SkillsData) (playerState : PlayerState)
    (rand : ℕ → ℚ) : ℕ → ℚ
  | 0 => 0
  | n + 1 =>
    if 0 ≤ healthAfterTicks64 skillsData playerState rand (n + 1) ∨ n = 0 then
      fadd (countedDamage64 skillsData playerState rand n)
        (tickAt64 skillsData playerState rand n).finalDamageDealt
    else countedDamage64 skillsData playerState rand n

/-- Whether a log line is the line of a consumed food (`COMEU …!`). -/
def LogLine.isAte : LogLine → Bool
  | LogLine.ate _ _ _ _ _ => true
  | _ => false

/-- One iteration of the outer loop of `simulateFullCombatWithFood` that goes on to a
next iteration: the state at the head of the next iteration, and `none` when the
loop is left in this iteration (cap reached, defeat) or the fuel of the
consumption cycle runs out. -/
def foodLoopStep (skillsData : Option SkillsData) (playerState : PlayerState) (rand : ℕ → ℚ)
    (foodName : String) (healthPerFood maxHealth : ℚ) (s : FoodCombatState) :
    Option FoodCombatState :=
  if s.ticksSurvived < MAX_TICKS then
    match panicEat foodName healthPerFood maxHealth s with
    | none => none
    | some s1 =>
      if s1.tempCurrentHealth ≤ 0 then none
      else some (foodTick skillsData playerState rand s1)
  else none

/-- The state at the head of iteration `i` (counting from 0) of the outer loop of
`simulateFullCombatWithFood` entered in state `s`, when the loop gets that far. -/
def foodLoopHead (skillsData : Option SkillsData) (playerState : PlayerState) (rand : ℕ → ℚ)
    (foodName : String) (healthPerFood maxHealth : ℚ) :
    ℕ → FoodCombatState → Option FoodCombatState
  | 0, s => some s
  | i + 1, s =>
    match foodLoopStep skillsData playerState rand foodName healthPerFood maxHealth s with
    | none => none
    | some s1 => foodLoopHead skillsData playerState rand foodName healthPerFood maxHealth i s1

/-- The values of the local variables of `simulateFullCombatWithFood` when its outer
loop is entered, for a food item whose `flatStats` exists. -/
def foodCombatStart (playerState : PlayerState) (foodName : String) (flatStats : FlatStats) :
    FoodCombatState :=
  { totalDamageDealt := 0, ticksSurvived := 0,
    fullLog := [LogLine.started foodName (orZero flatStats.healthRegen)],
    tempCurrentHealth := playerState.currentHealth,
    tempCurrentHunger := playerState.currentHunger, drawsUsed := 0 }

/-! ## `main.js`: the handlers that change the skill-point budget -/

/-- Constant `SKILL_POINTS_PER_LEVEL` of `state.js`. -/
def SKILL_POINTS_PER_LEVEL : Int := 4

/-- Constant `MAX_PLAYER_LEVEL` of `state.js`. -/
def MAX_PLAYER_LEVEL : Int := 50

/-- Constant `MIN_PLAYER_LEVEL` of `state.js`. -/
def MIN_PLAYER_LEVEL : Int := 1

/-- The expression `getSkillData('hunger', playerState.assignedSkillLevels.hunger)?.value || 10`. -/
def maxHungerFromSkills (skillsData : Option SkillsData) (playerState : PlayerState) : ℚ :=
  match getSkillData skillsData "hunger" (playerState.assignedSkillLevels "hunger") with
  | none => 10
  | some info => if info.value = 0 then 10 else info.value

/-- The function `resetPlayerState()` of `state.js`: every property of `playerState`
is a property of `INITIAL_PLAYER_STATE` and is replaced by a copy of its initial
value. -/
def resetPlayerState (_playerState : PlayerState) : PlayerState :=
  INITIAL_PLAYER_STATE

/-- The function `handleSkillButtonClick(button)` of `main.js` as a transformer of
`playerState`; `skillCode` and `action` are `button.dataset.skill` and
`button.dataset.action`.  The call of `renderAllUI` is left out. -/
def handleSkillButtonClick (skillsData : Option SkillsData) (skillCode action : String)
    (playerState : PlayerState) : PlayerState :=
  let currentLevel := playerState.assignedSkillLevels skillCode
  let maxHealthBefore := maxHealthFromSkills skillsData playerState
  let maxHungerBefore := maxHungerFromSkills skillsData playerState
  let wasHealthMax : Bool := decide (playerState.currentHealth ≥ maxHealthBefore)
  let wasHungerMax : Bool := decide (playerState.currentHunger ≥ maxHungerBefore)
  let st1 : PlayerState :=
    if action = "plus" then
      let nextLevel := min (currentLevel + 1) MAX_SKILL_LEVEL
      match getSkillData skillsData skillCode nextLevel with
      | none => playerState
      | some nextSkillInfo =>
        match nextSkillInfo.cost, nextSkillInfo.unlockAtLevel with
        | some cost, some unlockAtLevel =>
          if playerState.skillPointsAvailable ≥ cost ∧
              (playerState.playerLevel : ℚ) ≥ unlockAtLevel then
            { playerState with
              assignedSkillLevels := fun code =>
                if code = skillCode then nextLevel else playerState.assignedSkillLevels code
              skillPointsAvailable := playerState.skillPointsAvailable - cost
              skillPointsSpent := playerState.skillPointsSpent + cost }
          else playerState
        | _, _ => playerState
    else if action = "minus" then
      if currentLevel > MIN_SKILL_LEVEL then
        let refundedCost : ℚ :=
          match getSkillData skillsData skillCode currentLevel with
          | none => 0
          | some info => orZero info.cost
        { playerState with
          assignedSkillLevels := fun code =>
            if code = skillCode then currentLevel - 1 else playerState.assignedSkillLevels code
          skillPointsAvailable := playerState.skillPointsAvailable + refundedCost
          skillPointsSpent := playerState.skillPointsSpent - refundedCost }
      else playerState
    else playerState
  if action = "plus" then
    let st2 : PlayerState :=
      if skillCode = "health" ∧ wasHealthMax = true then
        { st1 with currentHealth := maxHealthFromSkills skillsData st1 }
      else st1
    if skillCode = "hunger" ∧ wasHungerMax = true then
      { st2 with currentHunger := maxHungerFromSkills skillsData st2 }
    else st2
  else st1

/-- The function `handleLevelButtonClick(event)` of `main.js` as a transformer of
`playerState`; `buttonId` is `event.target.id`.  The call of `renderAllUI` is left
out. -/
def handleLevelButtonClick (buttonId : String) (playerState : PlayerState) : PlayerState :=
  let action := if buttonId = "level-plus-btn" then "plus" else "minus"
  let newLevel : Int :=
    if action = "plus" then min (playerState.playerLevel + 1) MAX_PLAYER_LEVEL
    else max (playerState.playerLevel - 1) MIN_PLAYER_LEVEL
  if newLevel ≠ playerState.playerLevel then
    let oldTotalPoints := playerState.playerLevel * SKILL_POINTS_PER_LEVEL
    let newTotalPoints := newLevel * SKILL_POINTS_PER_LEVEL
    let st1 : PlayerState :=
      { playerState with
        playerLevel := newLevel
        skillPointsAvailable :=
          playerState.skillPointsAvailable + ((newTotalPoints - oldTotalPoints : Int) : ℚ) }
    if st1.skillPointsSpent > (newTotalPoints : ℚ) then
      { st1 with
        assignedSkillLevels := fun _ => 0
        skillPointsSpent := 0
        skillPointsAvailable := (newTotalPoints : ℚ) }
    else st1
  else playerState

/-- The function `handleResetGame()` of `main.js` as a transformer of `playerState`;
the calls that only touch the page are left out. -/
def handleResetGame (skillsData : Option SkillsData) (playerState : PlayerState) :
    PlayerState :=
  let st0 := resetPlayerState playerState
  let maxHealth : ℚ :=
    match getSkillData skillsData "health" 0 with
    | none => 50
    | some info => if info.value = 0 then 50 else info.value
  let maxHunger : ℚ :=
    match getSkillData skillsData "hunger" 0 with
    | none => 10
    | some info => if info.value = 0 then 10 else info.value
  { st0 with
    skillPointsAvailable := (SKILL_POINTS_PER_LEVEL : ℚ)
    skillPointsSpent := 0
    currentHealth := maxHealth
    currentHunger := maxHunger }

/-- The part of `initialize()` of `main.js` that sets the module variables, as a
transformer of `skillsData` and `playerState` (the name of the function is a
reserved word here); `data` is the result of `fetchJsonData` (`none` for `null`,
on which the function returns at once). -/
def initializeApp (data : Option SkillsData) (skillsData : Option SkillsData)
    (playerState : PlayerState) : Option SkillsData × PlayerState :=
  match data with
  | none => (skillsData, playerState)
  | some loaded =>
    let maxHealth := maxHealthFromSkills (some loaded) playerState
    let maxHunger := maxHungerFromSkills (some loaded) playerState
    (some loaded,
      { playerState with
        currentHealth := maxHealth
        currentHunger := maxHunger
        skillPointsAvailable :=
          ((playerState.playerLevel * SKILL_POINTS_PER_LEVEL : Int) : ℚ) -
            playerState.skillPointsSpent })

/-- The skill-point budget invariant: the available points are not negative, the
available and spent points add up to four points per player level, and the
player level is between 1 and 50. -/
def budgetInvariant (playerState : PlayerState) : Prop :=
  0 ≤ playerState.skillPointsAvailable ∧
  playerState.skillPointsAvailable + playerState.skillPointsSpent =
    ((playerState.playerLevel * SKILL_POINTS_PER_LEVEL : Int) : ℚ) ∧
  1 ≤ playerState.playerLevel ∧ playerState.playerLevel ≤ 50

instance (playerState : PlayerState) : Decidable (budgetInvariant playerState) := by
  unfold budgetInvariant; infer_instance

/-- A catalog with non-negative costs: every cost that `getSkillData` can return is
at least 0. -/
def nonNegativeCosts (skillsData : Option SkillsData) : Prop :=
  ∀ (code : String) (level : Int) (entry : SkillLevelEntry) (cost : ℚ),
    getSkillData skillsData code level = some entry → entry.cost = some cost → 0 ≤ cost

/-- The keys of `assignedSkillLevels` in `INITIAL_PLAYER_STATE`. -/
def skillCodes : List String :=
  ["attack", "precision", "criticalChance", "criticalDamages", "armor",
   "dodge", "health", "lootChance", "hunger"]

/-- The sum over the skills of `calculateCumulativeSkillCost(skill, assigned level)`. -/
def totalCumulativeCost (skillsData : Option SkillsData) (playerState : PlayerState) : ℚ :=
  (skillCodes.map (fun code =>
    calculateCumulativeSkillCost skillsData code (playerState.assignedSkillLevels code))).sum

end Combate

/-! ## Market dashboard ("mercado"): `src/mercado/market.js`

The module variables `marketData`, `configData` and `bonusPercent` are explicit
arguments.  A cell of the table that holds the text `N/A` is `none`.  The three
string conversions that the source writes with regular expressions (the `default`
branch of `converterParaChaveAPI`, `toCamelCase`, and the capitalisation of an
unmapped ingredient key) are parameters.  Numbers are binary64 values: every
arithmetic operation is followed by `Combate.roundDouble`. -/

namespace Mercado

/-- The function `converterParaChaveAPI(nome)`; `toKey` is its `default` branch. -/
def converterParaChaveAPI (toKey : String → String) (nome : String) : String :=
  if nome = "Misterious Plant" then "coca"
  else if nome = "Pill" then "cocain"
  else if nome = "Case" then "case1"
  else toKey nome

/-- The `switch` of `processDataAndRender` that maps an ingredient key of the
configuration API back to an item name; `capitalize` is its `default` branch. -/
def ingredientItemName (capitalize : String → String) (ingredientKey : String) : String :=
  if ingredientKey = "livestock" then "Livestock"
  else if ingredientKey = "coca" then "Misterious Plant"
  else if ingredientKey = "fish" then "Fish"
  else if ingredientKey = "lead" then "Lead"
  else if ingredientKey = "limestone" then "Limestone"
  else if ingredientKey = "grain" then "Grain"
  else if ingredientKey = "iron" then "Iron"
  else if ingredientKey = "petroleum" then "Petroleum"
  else capitalize ingredientKey

/-- An entry of `configData`: `productionPoints` and `productionNeeds` (the pairs of
an ingredient key and the quantity needed), each of which may be absent. -/
structure ConfigItem where
  productionPoints : Option ℚ
  productionNeeds : Option (List (String × ℚ))

/-- The `for` loop of `processDataAndRender` over the entries of `productionNeeds`:
the ingredient cost (`none` for `NaN`, set when an ingredient has no price, which
ends the loop) and the total quantity accumulated so far, both in binary64
arithmetic. -/
def ingredientLoop (marketData : String → Option ℚ) (toKey capitalize : String → String) :
    List (String × ℚ) → ℚ → ℚ → Option ℚ × ℚ
  | [], custoDosIngredientes, totalQuantidadeIngredientes =>
    (some custoDosIngredientes, totalQuantidadeIngredientes)
  | (ingredientKey, quantityNeeded) :: rest, custoDosIngredientes,
      totalQuantidadeIngredientes =>
    let total := Combate.fadd totalQuantidadeIngredientes quantityNeeded
    let ingredientApiPriceKey :=
      converterParaChaveAPI toKey (ingredientItemName capitalize ingredientKey)
    match marketData ingredientApiPriceKey with
    | some ingredientPrice =>
      ingredientLoop marketData toKey capitalize rest
        (Combate.fadd custoDosIngredientes (Combate.fmul ingredientPrice quantityNeeded)) total
    | none => (none, total)

/-- The values that `processDataAndRender` computes for one item of `knownItems`. -/
structure MarketRow where
  precoMercado : Option ℚ
  lucroBruto : Option ℚ
  trabalho : Option ℚ
  numIngredientes : Option ℚ
  custoIngredientes : Option ℚ
  lucroPorTrabalhoBase : Option ℚ
  lucroComBonus : Option ℚ
  lucroPorTrabalhoComBonus : Option ℚ
deriving DecidableEq

/-- The body of the `forEach` of `processDataAndRender` for the item `itemName`, up
to the creation of the table row, in binary64 arithmetic (see the section on
IEEE 754 arithmetic above); `precoMercado` is the decimal that the final
`toFixed(2)` prints. -/
def processItem (marketData : String → Option ℚ) (configData : String → Option ConfigItem)
    (bonusPercent : ℚ) (toKey toCamelCase capitalize : String → String)
    (itemName : String) : MarketRow :=
  let apiPriceKey := converterParaChaveAPI toKey itemName
  let apiConfigKey := toCamelCase itemName
  let price := marketData apiPriceKey
  let configItem := configData apiConfigKey
  let productionPoints : Option ℚ :=
    match configItem with
    | some item => item.productionPoints
    | none => none
  let productionNeeds : Option (List (String × ℚ)) :=
    match configItem with
    | some item => item.productionNeeds
    | none => none
  match price, productionPoints with
  | some price, some productionPoints =>
    let precoMercado := Combate.parseFloatToFixed 2 price
    let (custoDosIngredientes, totalQuantidadeIngredientes) :=
      match productionNeeds with
      | some needs => ingredientLoop marketData toKey capitalize needs 0 0
      | none => (some 0, 0)
    match custoDosIngredientes with
    | some custo =>
      let custoIngredientes := Combate.parseFloatToFixed 2 custo
      let lucroBruto := Combate.parseFloatToFixed 2 (Combate.fsub precoMercado custo)
      let trabalho := productionPoints
      let numIngredientes : Option ℚ :=
        if productionNeeds.isSome then some totalQuantidadeIngredientes else none
      if trabalho > 0 then
        let lucroBrutoNum := lucroBruto
        let lucroComBonusNum :=
          Combate.fmul lucroBrutoNum (Combate.fadd 1 (Combate.fdiv bonusPercent 100))
        { precoMercado := some (Combate.toFixed 2 precoMercado), lucroBruto := some lucroBruto,
          trabalho := some trabalho, numIngredientes := numIngredientes,
          custoIngredientes := some custoIngredientes,
          lucroPorTrabalhoBase :=
            some (Combate.parseFloatToFixed 6 (Combate.fdiv lucroBruto trabalho)),
          lucroComBonus := some (Combate.parseFloatToFixed 2 lucroComBonusNum),
          lucroPorTrabalhoComBonus :=
            some (Combate.parseFloatToFixed 6 (Combate.fdiv lucroComBonusNum trabalho)) }
      else
        { precoMercado := some (Combate.toFixed 2 precoMercado), lucroBruto := some lucroBruto,
          trabalho := some trabalho, numIngredientes := numIngredientes,
          custoIngredientes := some custoIngredientes,
          lucroPorTrabalhoBase := none, lucroComBonus := none,
          lucroPorTrabalhoComBonus := none }
    | none =>
      { precoMercado := some (Combate.toFixed 2 precoMercado), lucroBruto := none,
        trabalho := none, numIngredientes := none, custoIngredientes := none,
        lucroPorTrabalhoBase := none, lucroComBonus := none,
        lucroPorTrabalhoComBonus := none }
  | _, _ =>
    { precoMercado := none, lucroBruto := none, trabalho := none,
      numIngredientes := none, custoIngredientes := none,
      lucroPorTrabalhoBase := none, lucroComBonus := none,
      lucroPorTrabalhoComBonus := none }

/-- The array `knownItems` of `processDataAndRender`. -/
def knownItems : List String :=
  ["Livestock", "Coca", "Cocain", "Cooked Fish", "Heavy Ammo", "Concrete", "Fish", "Bread",
   "Ammo", "Limestone", "Grain", "Iron", "Steel", "Lead", "Light Ammo", "Oil", "Petroleum",
   "Steak"]

/-- The rows that `processDataAndRender` computes, one per known item, in order. -/
def processData (marketData : String → Option ℚ) (configData : String → Option ConfigItem)
    (bonusPercent : ℚ) (toKey toCamelCase capitalize : String → String) : List MarketRow :=
  knownItems.map (processItem marketData configData bonusPercent toKey toCamelCase capitalize)

/-- Prices of the example: bread sells at 12.5, grain at 1.25. -/
def samplePrices : String → Option ℚ := fun key =>
  if key = "bread" then some (25 / 2) else if key = "grain" then some (5 / 4) else none

/-- Configuration of the example: bread takes 4 production points and 3 grain. -/
def sampleConfig : String → Option ConfigItem := fun key =>
  if key = "bread" then
    some { productionPoints := some 4, productionNeeds := some [("grain", 3)] }
  else none

/-- The key conversions of the example: `Bread` and `Grain` in lower case. -/
def sampleKey : String → String := fun nome =>
  if nome = "Bread" then "bread" else if nome = "Grain" then "grain" else nome

/-- The capitalisation of the example: the identity, the ingredient key `grain`
being mapped by the `switch` itself. -/
def sampleCapitalize : String → String := fun key => key

/-- Prices of the tie example: bread sells at 2.25. -/
def tiePrices : String → Option ℚ := fun key =>
  if key = "bread" then some (9 / 4) else none

/-- Configuration of the tie example: bread takes 8 production points and no
ingredient. -/
def tieConfig : String → Option ConfigItem := fun key =>
  if key = "bread" then some { productionPoints := some 8, productionNeeds := none } else none

end Mercado

namespace Combate

/-! ## Concrete inputs used to exercise the theorems -/

/-- An item whose `stats` object has the single property `stat`, with value `v`. -/
def itemWith (code stat : String) (v : ℚ) : Item :=
  { code := code, name := code, stats := some (fun k => if k = stat then some v else none) }

/-- A weapon item with an `attack` and a `criticalChance` stat. -/
def weaponWith (attack criticalChance : ℚ) : Item :=
  { code := "sword", name := "Sword",
    stats := some (fun k =>
      if k = "attack" then some attack
      else if k = "criticalChance" then some criticalChance else none) }

/-- Initial build wearing boots with `dodge = 100`. -/
def dodgeBuild : PlayerState :=
  { INITIAL_PLAYER_STATE with
    equippedItems := { noEquipment with boots := some (itemWith "boots" "dodge" 100) } }

/-- Initial build wearing a chest piece with `armor = 10` and pants with `armor = 5`. -/
def armorBuild : PlayerState :=
  { INITIAL_PLAYER_STATE with
    equippedItems := { noEquipment with
      chest := some (itemWith "chest" "armor" 10)
      pants := some (itemWith "pants" "armor" 5) } }

/-- Initial build with a weapon of `attack = 10` and gloves of `precision = 100`:
its totals are armor 0, dodge 0, precision 100, criticalChance 0, attack 10. -/
def plainBuild : PlayerState :=
  { INITIAL_PLAYER_STATE with
    equippedItems := { noEquipment with
      weapon := some (itemWith "sword" "attack" 10)
      gloves := some (itemWith "gloves" "precision" 100) } }

/-- Build with a weapon of `attack = 10`, `criticalChance = 50`, and a helmet of
`criticalDamages = 100`. -/
def critBuild : PlayerState :=
  { INITIAL_PLAYER_STATE with
    equippedItems := { noEquipment with
      weapon := some (weaponWith 10 50)
      helmet := some (itemWith "helmet" "criticalDamages" 100) } }

/-- A catalog with the skills `attack` and `health`, each with the levels 0 to 10;
level `n` of `attack` has value `10 * n` and cost `n`. -/
def sampleCatalog : Option SkillsData :=
  some { skills := some (fun code =>
    if code = "attack" then
      some (fun key => (List.range 11).findSome? (fun n =>
        if key = toString (n : Int) then
          some { value := 10 * n, cost := some n, unlockAtLevel := some n }
        else none))
    else if code = "health" then
      some (fun key => (List.range 11).findSome? (fun n =>
        if key = toString (n : Int) then
          some { value := 50 + 10 * n, cost := some n, unlockAtLevel := some n }
        else none))
    else none) }

/-- Build of the attack example: attack skill at level 2 (value 20 in
`sampleCatalog`), weapon with `attack = 10`, ammo buff with `percentAttack = 50`,
consumable buff with `percentAttack = 10`. -/
def attackBuild : PlayerState :=
  { INITIAL_PLAYER_STATE with
    assignedSkillLevels := fun code => if code = "attack" then 2 else 0
    equippedItems := { noEquipment with weapon := some (itemWith "sword" "attack" 10) }
    activeBuffs :=
      { ammo := some (itemWith "ammo" "percentAttack" 50),
        consumable := some (itemWith "potion" "percentAttack" 10) } }

/-- The build `plainBuild` with 15 health points: two ticks of 10 bring it below 0. -/
def lowHealthBuild : PlayerState := { plainBuild with currentHealth := 15 }

/-- The build `plainBuild` with 20 health points: two ticks of 10 bring it to exactly 0. -/
def evenHealthBuild : PlayerState := { plainBuild with currentHealth := 20 }

/-- A food item whose `healthRegen` is 0. -/
def noRegenFood : FoodItem := { name := "Water", flatStats := some { healthRegen := some 0 } }

/-- A food item whose `healthRegen` is 20. -/
def breadFood : FoodItem := { name := "Bread", flatStats := some { healthRegen := some 20 } }

/-- Loop state with 5 health points and 10 hunger points, before any tick. -/
def hungryState : FoodCombatState :=
  { totalDamageDealt := 0, ticksSurvived := 0, fullLog := [],
    tempCurrentHealth := 5, tempCurrentHunger := 10, drawsUsed := 0 }

/-- The initial build with no health left. -/
def deadBuild : PlayerState := { INITIAL_PLAYER_STATE with currentHealth := 0 }

/-- The build `plainBuild` with 5 health points and 1 hunger point. -/
def weakBuild : PlayerState := { plainBuild with currentHealth := 5, currentHunger := 1 }

/-- A food item whose `healthRegen` is 100. -/
def feastFood : FoodItem := { name := "Feast", flatStats := some { healthRegen := some 100 } }

/-- The build `plainBuild` with 5 health points and no hunger left. -/
def starvedBuild : PlayerState := { plainBuild with currentHealth := 5, currentHunger := 0 }

/-- The initial build (health 50) wearing boots with `dodge = 50`. -/
def halfDodgeBuild : PlayerState :=
  { INITIAL_PLAYER_STATE with
    equippedItems := { noEquipment with boots := some (itemWith "boots" "dodge" 50) } }

/-- A sequence of draws that is 0 for the first 1995 ticks (every attack dodged by
a dodge total of 50) and 99/100 afterwards (no attack dodged). -/
def lateHitDraws : ℕ → ℚ := fun n => if n < 3 * 1995 then 0 else 99 / 100

/-- The build `plainBuild` with, in addition, a chest piece with `armor = 50`. -/
def armoredPlainBuild : PlayerState :=
  { plainBuild with
    equippedItems := { plainBuild.equippedItems with
      chest := some (itemWith "chest" "armor" 50) } }

/-- A build at player level 50 with the attack skill at level 10 of `sampleCatalog`:
55 points spent, 145 available. -/
def maxedBuild : PlayerState :=
  { INITIAL_PLAYER_STATE with
    playerLevel := 50
    skillPointsAvailable := 145
    skillPointsSpent := 55
    assignedSkillLevels := fun code => if code = "attack" then 10 else 0 }

/-- The build `plainBuild` with, in addition, a chest piece with the given `armor`. -/
def chestArmorBuild (armor : ℚ) : PlayerState :=
  { plainBuild with
    equippedItems := { plainBuild.equippedItems with
      chest := some (itemWith "chest" "armor" armor) } }

/-- The initial build with a weapon of the given `attack` and `criticalChance = 100`,
a helmet of the given `criticalDamages` and gloves of `precision = 100`: every tick
hits and is critical. -/
def criticalBuild (attack criticalDamages : ℚ) : PlayerState :=
  { INITIAL_PLAYER_STATE with
    equippedItems := { noEquipment with
      weapon := some (weaponWith attack 100)
      helmet := some (itemWith "helmet" "criticalDamages" criticalDamages)
      gloves := some (itemWith "gloves" "precision" 100) } }

/-- The initial build with a weapon of the given `attack` and an active ammo buff
of the given `percentAttack`. -/
def ammoBuild (attack percentAttack : ℚ) : PlayerState :=
  { INITIAL_PLAYER_STATE with
    equippedItems := { noEquipment with weapon := some (itemWith "sword" "attack" attack) }
    activeBuffs :=
      { ammo := some (itemWith "ammo" "percentAttack" percentAttack), consumable := none } }

/-- The initial build wearing a chest piece and pants whose `armor` stats are the
binary64 values of the decimals 2.04 and 0.01. -/
def smallArmorBuild : PlayerState :=
  { INITIAL_PLAYER_STATE with
    equippedItems := { noEquipment with
      chest := some (itemWith "chest" "armor" (roundDouble (51 / 25)))
      pants := some (itemWith "pants" "armor" (roundDouble (1 / 100))) } }

/-- The build `plainBuild` (health 50) with, in addition, a chest piece with
`armor = 96`: an undodged tick loses 0.4. -/
def heavyArmorBuild : PlayerState :=
  { plainBuild with
    equippedItems := { plainBuild.equippedItems with
      chest := some (itemWith "chest" "armor" 96) } }

/-! ## Theorems -/

/-- Rounding 0 gives 0 at every number of digits. -/
theorem toFixed_zero (d : ℕ) : toFixed d 0 = 0 := by
  norm_num [toFixed]

/-- The number 10 is its own rounding to one decimal place. -/
theorem toFixed_one_ten : toFixed 1 10 = 10 := by
  norm_num [toFixed]


/-! ### Termination of the loops -/

/-- With more fuel than the ceiling of the hunger, the consumption cycle is left:
it returns a state with the same tick count, damage total and draw count, no more
hunger, and in which the loop condition fails or the overheal guard holds. -/
theorem eatLoop_returns (foodName : String) (healthPerFood maxHealth : ℚ) :
    ∀ (fuel : ℕ) (s : FoodCombatState), (⌈s.tempCurrentHunger⌉ : ℤ).toNat < fuel →
      ∃ s', eatLoop foodName healthPerFood maxHealth fuel s = some s' ∧
        s'.ticksSurvived = s.ticksSurvived ∧
        s'.totalDamageDealt = s.totalDamageDealt ∧
        s'.drawsUsed = s.drawsUsed ∧
        s'.tempCurrentHunger ≤ s.tempCurrentHunger ∧
        (¬ (s'.tempCurrentHunger > 0 ∧ s'.tempCurrentHealth ≤ INCOMING_DAMAGE_PER_TICK) ∨
          s'.tempCurrentHealth ≥ maxHealth) := by
  intro fuel
  induction fuel with
  | zero => intro s h; omega
  | succ fuel ih =>
    intro s hfuel
    unfold eatLoop
    by_cases hg : s.tempCurrentHunger > 0 ∧ s.tempCurrentHealth ≤ INCOMING_DAMAGE_PER_TICK
    · by_cases hm : s.tempCurrentHealth ≥ maxHealth
      · simp only [hg, hm, and_self, if_true]
        exact ⟨_, rfl, rfl, rfl, rfl, le_refl _, Or.inr hm⟩
      · simp only [hg, hm, and_self, if_true, if_false]
        have hceil : (⌈s.tempCurrentHunger - 1⌉ : ℤ).toNat < fuel := by
          have h1 : (0 : ℤ) < ⌈s.tempCurrentHunger⌉ := Int.ceil_pos.mpr hg.1
          rw [Int.ceil_sub_one]
          omega
        obtain ⟨s', hs', ht, hd, hu, hh, hex⟩ := ih
          { s with
            tempCurrentHunger := s.tempCurrentHunger - 1
            tempCurrentHealth := s.tempCurrentHealth + healthPerFood
            fullLog := s.fullLog ++
              [LogLine.ate foodName healthPerFood (toFixed 1 s.tempCurrentHealth)
                (toFixed 1 (s.tempCurrentHealth + healthPerFood)) (s.tempCurrentHunger - 1)] }
          hceil
        refine ⟨s', hs', ht, hd, hu, ?_, hex⟩
        simp only at hh
        linarith
    · simp only [hg, if_false]
      exact ⟨s, rfl, rfl, rfl, rfl, le_refl _, Or.inl hg⟩

/-- The panic-eat step always returns a state; it changes neither the tick count,
the damage total nor the draw count, and does not raise the hunger. -/
theorem panicEat_returns (foodName : String) (healthPerFood maxHealth : ℚ)
    (s : FoodCombatState) :
    ∃ s', panicEat foodName healthPerFood maxHealth s = some s' ∧
      s'.ticksSurvived = s.ticksSurvived ∧
      s'.totalDamageDealt = s.totalDamageDealt ∧
      s'.drawsUsed = s.drawsUsed ∧
      s'.tempCurrentHunger ≤ s.tempCurrentHunger := by
  unfold panicEat
  split
  · obtain ⟨s', hs', ht, hd, hu, hh, _⟩ := eatLoop_returns foodName healthPerFood maxHealth
      (eatFuel s.tempCurrentHunger)
      { s with fullLog := s.fullLog ++ [LogLine.criticalHealth (toFixed 1 s.tempCurrentHealth)] }
      (by simp [eatFuel])
    exact ⟨s', hs', ht, hd, hu, hh⟩
  · exact ⟨s, rfl, rfl, rfl, rfl, le_refl _⟩

/-- With more fuel than the ticks left before the cap, the outer loop of
`simulateFullCombatWithFood` is left, with health at most 0 or the cap reached,
and never beyond the cap. -/
theorem foodLoop_returns (sd : Option SkillsData) (ps : PlayerState) (rand : ℕ → ℚ)
    (foodName : String) (healthPerFood maxHealth : ℚ) :
    ∀ (fuel : ℕ) (s : FoodCombatState), MAX_TICKS - s.ticksSurvived < fuel →
      ∃ s', foodLoop sd ps rand foodName healthPerFood maxHealth fuel s = some s' ∧
        (s'.tempCurrentHealth ≤ 0 ∨ MAX_TICKS ≤ s'.ticksSurvived) ∧
        (s.ticksSurvived ≤ MAX_TICKS → s'.ticksSurvived ≤ MAX_TICKS) := by
  intro fuel
  induction fuel with
  | zero => intro s h; omega
  | succ fuel ih =>
    intro s hfuel
    unfold foodLoop
    by_cases hc : s.ticksSurvived < MAX_TICKS
    · obtain ⟨s1, hs1, ht1, -, -, -⟩ := panicEat_returns foodName healthPerFood maxHealth s
      simp only [hc, if_true, hs1]
      by_cases hdead : s1.tempCurrentHealth ≤ 0
      · simp only [hdead, if_true]
        exact ⟨_, rfl, Or.inl hdead, fun _ => by simp only [ht1]; omega⟩
      · simp only [hdead, if_false]
        have hticks : (foodTick sd ps rand s1).ticksSurvived = s.ticksSurvived + 1 := by
          simp [foodTick, ht1]
        obtain ⟨s', hs', hex, hle⟩ := ih (foodTick sd ps rand s1) (by rw [hticks]; omega)
        exact ⟨s', hs', hex, fun _ => hle (by rw [hticks]; omega)⟩
    · simp only [hc, if_false]
      exact ⟨s, rfl, Or.inr (by omega), id⟩

/-- With more fuel than the ticks left before the cap, the loop of
`simulateFullCombat` is left, with health at most 0 or the cap reached, and never
beyond the cap. -/
theorem fullCombatLoop_returns (sd : Option SkillsData) (ps : PlayerState) (rand : ℕ → ℚ) :
    ∀ (fuel : ℕ) (s : FullCombatState), simulateFullCombat.MAX_TICKS - s.ticksSurvived < fuel →
      ∃ s', fullCombatLoop sd ps rand fuel s = some s' ∧
        (s'.tempCurrentHealth ≤ 0 ∨ simulateFullCombat.MAX_TICKS ≤ s'.ticksSurvived) ∧
        (s.ticksSurvived ≤ simulateFullCombat.MAX_TICKS →
          s'.ticksSurvived ≤ simulateFullCombat.MAX_TICKS) := by
  intro fuel
  induction fuel with
  | zero => intro s h; omega
  | succ fuel ih =>
    intro s hfuel
    unfold fullCombatLoop
    by_cases hg : s.tempCurrentHealth > 0 ∧ s.ticksSurvived < simulateFullCombat.MAX_TICKS
    · simp only [hg, and_self, if_true]
      have hticks : (fullCombatBody sd ps rand s).ticksSurvived = s.ticksSurvived + 1 := rfl
      obtain ⟨s', hs', hex, hle⟩ := ih (fullCombatBody sd ps rand s) (by rw [hticks]; omega)
      exact ⟨s', hs', hex, fun _ => hle (by rw [hticks]; omega)⟩
    · simp only [hg, if_false]
      refine ⟨s, rfl, ?_, id⟩
      rcases not_and_or.mp hg with h | h
      · exact Or.inl (not_lt.mp h)
      · exact Or.inr (not_lt.mp h)

/-- Entered with health at most 0, the loop of `simulateFullCombat` returns its
initial state. -/
theorem fullCombatLoop_of_dead (sd : Option SkillsData) (ps : PlayerState) (rand : ℕ → ℚ)
    (fuel : ℕ) (s s' : FullCombatState)
    (h : fullCombatLoop sd ps rand fuel s = some s') (hdead : s.tempCurrentHealth ≤ 0) :
    s' = s := by
  cases fuel with
  | zero => simp [fullCombatLoop] at h
  | succ fuel =>
    unfold fullCombatLoop at h
    have hg : ¬ (s.tempCurrentHealth > 0 ∧ s.ticksSurvived < simulateFullCombat.MAX_TICKS) :=
      fun hg => absurd hg.1 (not_lt.mpr hdead)
    simp only [hg, if_false, Option.some.injEq] at h
    exact h.symm

/-- Without a positive `healthPerFood` the panic-eat step leaves the state as it is. -/
theorem panicEat_of_no_regen (foodName : String) (healthPerFood maxHealth : ℚ)
    (s : FoodCombatState) (h : healthPerFood ≤ 0) :
    panicEat foodName healthPerFood maxHealth s = some s := by
  unfold panicEat
  have hg : ¬ (s.tempCurrentHealth ≤ INCOMING_DAMAGE_PER_TICK ∧ s.tempCurrentHunger > 0 ∧
      healthPerFood > 0) := fun hg => absurd hg.2.2 (not_lt.mpr h)
  simp only [hg, if_false]

/-- Coupling of the two loops without a positive `healthPerFood`: from states that
agree on health, tick count and draw count, if the loop of `simulateFullCombat`
ends below its cap, the loop of `simulateFullCombatWithFood` ends with the same
tick count and health and an unchanged hunger; the damage totals agree too when
they agreed initially and the final health is not negative or at most one tick
was resolved in all. -/
theorem foodLoop_eq_fullCombatLoop (sd : Option SkillsData) (ps : PlayerState) (rand : ℕ → ℚ)
    (foodName : String) (healthPerFood maxHealth : ℚ) (hregen : healthPerFood ≤ 0) :
    ∀ (fN : ℕ) (sN sN' : FullCombatState),
      fullCombatLoop sd ps rand fN sN = some sN' →
      sN'.ticksSurvived < simulateFullCombat.MAX_TICKS →
      ∀ (fF : ℕ) (sF : FoodCombatState), fN ≤ fF →
        sF.tempCurrentHealth = sN.tempCurrentHealth →
        sF.ticksSurvived = sN.ticksSurvived →
        sF.drawsUsed = sN.drawsUsed →
        ((0 ≤ sN'.tempCurrentHealth ∨ sN'.ticksSurvived ≤ 1) →
          sF.totalDamageDealt = sN.totalDamageDealt) →
        ∃ sF', foodLoop sd ps rand foodName healthPerFood maxHealth fF sF = some sF' ∧
          sF'.ticksSurvived = sN'.ticksSurvived ∧
          sF'.tempCurrentHealth = sN'.tempCurrentHealth ∧
          sF'.tempCurrentHunger = sF.tempCurrentHunger ∧
          ((0 ≤ sN'.tempCurrentHealth ∨ sN'.ticksSurvived ≤ 1) →
            sF'.totalDamageDealt = sN'.totalDamageDealt) := by
  intro fN
  induction fN with
  | zero => intro sN sN' h; simp [fullCombatLoop] at h
  | succ n ih =>
    intro sN sN' hloop hcap fF sF hfuel hh ht hd htot
    obtain ⟨m, rfl⟩ : ∃ m, fF = m + 1 := ⟨fF - 1, by omega⟩
    unfold fullCombatLoop at hloop
    unfold foodLoop
    rw [panicEat_of_no_regen foodName healthPerFood maxHealth sF hregen]
    by_cases hg : sN.tempCurrentHealth > 0 ∧ sN.ticksSurvived < simulateFullCombat.MAX_TICKS
    · simp only [hg, and_self, if_true] at hloop
      have hlt : sF.ticksSurvived < MAX_TICKS := by
        have := hg.2
        simp only [simulateFullCombat.MAX_TICKS] at this
        simp only [MAX_TICKS, ht]; omega
      have halive : ¬ sF.tempCurrentHealth ≤ 0 := by rw [hh]; exact not_le.mpr hg.1
      simp only [hlt, if_true, halive, if_false]
      have hh1 : (foodTick sd ps rand sF).tempCurrentHealth =
          (fullCombatBody sd ps rand sN).tempCurrentHealth := by
        simp only [foodTick, fullCombatBody, hh, hd]
      obtain ⟨sF', hs', ht', hh', hu', htot'⟩ := ih (fullCombatBody sd ps rand sN) sN' hloop hcap
        m (foodTick sd ps rand sF) (by omega) hh1
        (by simp only [foodTick, fullCombatBody, ht])
        (by simp only [foodTick, fullCombatBody, hd])
        (by
          intro hP
          have hcount : (fullCombatBody sd ps rand sN).tempCurrentHealth ≥ 0 ∨
              ((fullCombatBody sd ps rand sN).tempCurrentHealth < 0 ∧ sN.ticksSurvived = 0) := by
            by_cases hneg : (fullCombatBody sd ps rand sN).tempCurrentHealth ≥ 0
            · exact Or.inl hneg
            · have hlt0 := not_le.mp hneg
              have heq := fullCombatLoop_of_dead sd ps rand n _ sN' hloop (le_of_lt hlt0)
              refine Or.inr ⟨hlt0, ?_⟩
              rcases hP with h0 | h1
              · rw [heq] at h0; exact absurd h0 hneg
              · rw [heq] at h1
                have : (fullCombatBody sd ps rand sN).ticksSurvived = sN.ticksSurvived + 1 := rfl
                omega
          have hcount' := hcount
          simp only [fullCombatBody] at hcount'
          simp only [foodTick, fullCombatBody, hd, htot hP, hcount', if_true])
      exact ⟨sF', hs', ht', hh', by rw [hu']; rfl, htot'⟩
    · simp only [hg, if_false, Option.some.injEq] at hloop
      subst hloop
      have hlt : sF.ticksSurvived < MAX_TICKS := by
        simp only [simulateFullCombat.MAX_TICKS] at hcap
        simp only [MAX_TICKS, ht]; omega
      have hdead : sF.tempCurrentHealth ≤ 0 := by
        rw [hh]
        rcases not_and_or.mp hg with h | h
        · exact not_lt.mp h
        · exact absurd hcap h
      simp only [hlt, if_true, hdead]
      exact ⟨_, rfl, ht, hh, rfl, htot⟩

/-- Claim C1: for every catalog, build state, food item (with a `flatStats` object)
and random sequence, `simulateFullCombatWithFood` returns a result, with
`ticksSurvived ≤ 2000` and `finalHealth = 0` or `ticksSurvived = 2000`; the
consumption cycle is left from every state, and each of its iterations that eats
continues from a state with strictly less hunger. -/
theorem simulateFullCombatWithFood_terminates (sd : Option SkillsData) (ps : PlayerState)
    (foodName : String) (flatStats : FlatStats) (rand : ℕ → ℚ) :
    (∃ r, simulateFullCombatWithFood sd ps
          (some { name := foodName, flatStats := some flatStats }) rand = Except.ok r ∧
        r.ticksSurvived ≤ 2000 ∧ (r.finalHealth = 0 ∨ r.ticksSurvived = 2000)) ∧
    (∀ (healthPerFood maxHealth : ℚ) (s : FoodCombatState),
      ∃ s', eatLoop foodName healthPerFood maxHealth (eatFuel s.tempCurrentHunger) s = some s' ∧
        (¬ (s'.tempCurrentHunger > 0 ∧ s'.tempCurrentHealth ≤ 10) ∨
          s'.tempCurrentHealth ≥ maxHealth)) ∧
    (∀ (healthPerFood maxHealth : ℚ) (fuel : ℕ) (s : FoodCombatState),
      s.tempCurrentHunger > 0 → s.tempCurrentHealth ≤ 10 → s.tempCurrentHealth < maxHealth →
      ∃ s1, s1.tempCurrentHunger < s.tempCurrentHunger ∧
        eatLoop foodName healthPerFood maxHealth (fuel + 1) s =
          eatLoop foodName healthPerFood maxHealth fuel s1) := by
  refine ⟨?_, ?_, ?_⟩
  · obtain ⟨s', hs', hex, hle⟩ := foodLoop_returns sd ps rand foodName
      (orZero flatStats.healthRegen) (maxHealthFromSkills sd ps) (MAX_TICKS + 1)
      { totalDamageDealt := 0, ticksSurvived := 0,
        fullLog := [LogLine.started foodName (orZero flatStats.healthRegen)],
        tempCurrentHealth := ps.currentHealth,
        tempCurrentHunger := ps.currentHunger, drawsUsed := 0 }
      (by simp)
    have hle' : s'.ticksSurvived ≤ 2000 := hle (by simp)
    have hF : simulateFullCombatWithFood sd ps
        (some { name := foodName, flatStats := some flatStats }) rand =
        Except.ok
          { totalDamageDealt := toFixed 1 s'.totalDamageDealt,
            ticksSurvived := s'.ticksSurvived,
            log := if s'.ticksSurvived ≥ MAX_TICKS then s'.fullLog ++ [LogLine.maxTicks]
                   else s'.fullLog,
            finalHealth := max 0 s'.tempCurrentHealth,
            finalHunger := s'.tempCurrentHunger } := by
      simp only [simulateFullCombatWithFood, simulateFullCombatWithFoodRun, hs']
    refine ⟨_, hF, hle', ?_⟩
    rcases hex with hdead | hcap
    · exact Or.inl (max_eq_left hdead)
    · simp only [MAX_TICKS] at hcap
      exact Or.inr (le_antisymm hle' hcap)
  · intro healthPerFood maxHealth s
    obtain ⟨s', hs', -, -, -, -, hex⟩ := eatLoop_returns foodName healthPerFood maxHealth
      (eatFuel s.tempCurrentHunger) s (by simp [eatFuel])
    exact ⟨s', hs', hex⟩
  · intro healthPerFood maxHealth fuel s hhunger hhealth hmax
    refine ⟨{ s with
        tempCurrentHunger := s.tempCurrentHunger - 1
        tempCurrentHealth := s.tempCurrentHealth + healthPerFood
        fullLog := s.fullLog ++
          [LogLine.ate foodName healthPerFood (toFixed 1 s.tempCurrentHealth)
            (toFixed 1 (s.tempCurrentHealth + healthPerFood)) (s.tempCurrentHunger - 1)] },
      by simp, ?_⟩
    conv_lhs => unfold eatLoop
    have hg : s.tempCurrentHunger > 0 ∧ s.tempCurrentHealth ≤ INCOMING_DAMAGE_PER_TICK :=
      ⟨hhunger, hhealth⟩
    simp only [hg, and_self, if_true, ge_iff_le, not_le.mpr hmax, if_false]

/-- Witness of C1: the first iteration of the consumption cycle from `hungryState`
(health 5, hunger 10, maximum health 50) continues with less hunger; and the run
of `lowHealthBuild` (health 15, hunger 10) with `breadFood` (20 health per point of
hunger) on the constant draw 0 ends after 22 ticks with health 0 and hunger 0. -/
theorem simulateFullCombatWithFood_terminates_witness :
    hungryState.tempCurrentHunger > 0 ∧ hungryState.tempCurrentHealth ≤ 10 ∧
    hungryState.tempCurrentHealth < 50 ∧
    (∃ s1, s1.tempCurrentHunger < hungryState.tempCurrentHunger ∧
      eatLoop "Bread" 20 50 (3 + 1) hungryState = eatLoop "Bread" 20 50 3 s1) ∧
    (∃ r, simulateFullCombatWithFood none lowHealthBuild
          (some { name := "Bread", flatStats := some { healthRegen := some 20 } })
          (fun _ => 0) = Except.ok r ∧
        r.ticksSurvived ≤ 2000 ∧ (r.finalHealth = 0 ∨ r.ticksSurvived = 2000)) ∧
    (simulateFullCombatWithFood none lowHealthBuild (some breadFood) (fun _ => 0)).toOption.map
      (fun r => (r.totalDamageDealt, r.ticksSurvived, r.finalHealth, r.finalHunger)) =
      some (220, 22, 0, 0) :=
  have h1 : hungryState.tempCurrentHunger > 0 := by decide!
  have h2 : hungryState.tempCurrentHealth ≤ 10 := by decide!
  have h3 : hungryState.tempCurrentHealth < 50 := by decide!
  have h := simulateFullCombatWithFood_terminates none lowHealthBuild "Bread"
    { healthRegen := some 20 } (fun _ => 0)
  ⟨h1, h2, h3, h.2.2 20 50 3 hungryState h1 h2 h3, h.1, by decide!⟩

/-- Counterexample to C2 as stated: with `healthRegen = 0` and the constant draw 0,
on `lowHealthBuild` the two variants report total damages 20 and 10, and on
`dodgeBuild` they report 2000 and 1000 ticks; called without a food item, the
with-food variant returns no result at all. -/
theorem simulateFullCombatWithFood_differs_from_simulateFullCombat :
    (simulateFullCombatWithFood none lowHealthBuild none (fun _ => 0)).toOption.map
        (fun r => r.ticksSurvived) = none ∧
    (simulateFullCombatWithFood none lowHealthBuild (some noRegenFood) (fun _ => 0)).toOption.map
        (fun r => (r.totalDamageDealt, r.ticksSurvived)) = some (20, 2) ∧
    (simulateFullCombat none lowHealthBuild (fun _ => 0)).map
        (fun r => (r.totalDamageDealt, r.ticksSurvived)) = some (10, 2) ∧
    (simulateFullCombatWithFood none dodgeBuild (some noRegenFood) (fun _ => 0)).toOption.map
        (fun r => (r.ticksSurvived, r.finalHealth)) = some (2000, 50) ∧
    (simulateFullCombat none dodgeBuild (fun _ => 0)).map
        (fun r => (r.ticksSurvived, r.finalHealth)) = some (1000, 50) := by
  decide!

/-- Claim C2, amended: with a food item whose `healthRegen` is 0 or absent, when
`simulateFullCombat` resolves `n` ticks, fewer than its cap of 1000, and ends with
health `h`, `simulateFullCombatWithFood` on the same state and random sequence
returns the same `ticksSurvived` and `finalHealth`, and the same
`totalDamageDealt` when `h ≥ 0` or `n ≤ 1`. -/
theorem simulateFullCombatWithFood_eq_simulateFullCombat (sd : Option SkillsData)
    (ps : PlayerState) (foodName : String) (flatStats : FlatStats) (rand : ℕ → ℚ)
    (n : ℕ) (h : ℚ)
    (hregen : orZero flatStats.healthRegen = 0)
    (hrun : (simulateFullCombatRun sd ps rand).map
      (fun s => (s.ticksSurvived, s.tempCurrentHealth)) = some (n, h))
    (hcap : n < simulateFullCombat.MAX_TICKS) :
    ∃ rF rN, simulateFullCombatWithFood sd ps
          (some { name := foodName, flatStats := some flatStats }) rand = Except.ok rF ∧
        simulateFullCombat sd ps rand = some rN ∧
        rN.ticksSurvived = n ∧
        rF.ticksSurvived = rN.ticksSurvived ∧
        rF.finalHealth = rN.finalHealth ∧
        (0 ≤ h ∨ n ≤ 1 → rF.totalDamageDealt = rN.totalDamageDealt) := by
  cases hN : simulateFullCombatRun sd ps rand with
  | none => simp [hN] at hrun
  | some sN =>
    simp only [hN, Option.map_some', Option.some.injEq, Prod.mk.injEq] at hrun
    obtain ⟨hn, hh⟩ := hrun
    subst hn hh
    obtain ⟨sF', hs', ht', hh', -, htot'⟩ := foodLoop_eq_fullCombatLoop sd ps rand foodName
      (orZero flatStats.healthRegen) (maxHealthFromSkills sd ps) (le_of_eq hregen)
      (simulateFullCombat.MAX_TICKS + 1) _ sN hN hcap (MAX_TICKS + 1)
      { totalDamageDealt := 0, ticksSurvived := 0,
        fullLog := [LogLine.started foodName (orZero flatStats.healthRegen)],
        tempCurrentHealth := ps.currentHealth,
        tempCurrentHunger := ps.currentHunger, drawsUsed := 0 }
      (by simp [MAX_TICKS, simulateFullCombat.MAX_TICKS]) rfl rfl rfl (fun _ => rfl)
    have hF : simulateFullCombatWithFood sd ps
        (some { name := foodName, flatStats := some flatStats }) rand =
        Except.ok
          { totalDamageDealt := toFixed 1 sF'.totalDamageDealt,
            ticksSurvived := sF'.ticksSurvived,
            log := if sF'.ticksSurvived ≥ MAX_TICKS then sF'.fullLog ++ [LogLine.maxTicks]
                   else sF'.fullLog,
            finalHealth := max 0 sF'.tempCurrentHealth,
            finalHunger := sF'.tempCurrentHunger } := by
      simp only [simulateFullCombatWithFood, simulateFullCombatWithFoodRun, hs']
    have hR : simulateFullCombat sd ps rand =
        some
          { totalDamageDealt := toFixed 1 sN.totalDamageDealt,
            ticksSurvived := sN.ticksSurvived,
            log := if sN.ticksSurvived ≥ simulateFullCombat.MAX_TICKS
                   then sN.fullLog ++ [LogLine.maxTicks] else sN.fullLog,
            finalHealth := max 0 sN.tempCurrentHealth } := by
      simp only [simulateFullCombat, hN]
    refine ⟨_, _, hF, hR, rfl, ht', ?_, ?_⟩
    · simp only [hh']
    · intro hP
      simp only [htot' hP]

/-- Witness of the amended C2 on `evenHealthBuild` (health 20, 10 lost per tick):
both variants resolve 2 ticks, end with health 0 and report the same damage. -/
theorem simulateFullCombatWithFood_eq_simulateFullCombat_witness :
    ∃ rF rN, simulateFullCombatWithFood none evenHealthBuild
          (some { name := "Water", flatStats := some { healthRegen := some 0 } })
          (fun _ => 0) = Except.ok rF ∧
        simulateFullCombat none evenHealthBuild (fun _ => 0) = some rN ∧
        rN.ticksSurvived = 2 ∧
        rF.ticksSurvived = rN.ticksSurvived ∧
        rF.finalHealth = rN.finalHealth ∧
        rF.totalDamageDealt = rN.totalDamageDealt :=
  have h := simulateFullCombatWithFood_eq_simulateFullCombat none evenHealthBuild "Water"
    { healthRegen := some 0 } (fun _ => 0) 2 0 (by decide!) (by decide!) (by decide!)
  match h with
  | ⟨rF, rN, h1, h2, h3, h4, h5, h6⟩ =>
    ⟨rF, rN, h1, h2, h3, h4, h5, h6 (Or.inl (le_refl 0))⟩

/-- Claim C3: `wasDodge` holds exactly when the first draw, scaled to `[0,100)`, is
strictly below the dodge total; a dodged tick loses no health and logs no armor
line; with a dodge total of 100 every draw in `[0,1)` is a dodge with
`healthLost = 0`. -/
theorem simulateCombatTick_dodge (sd : Option SkillsData) (ps : PlayerState) (r1 r2 r3 : ℚ) :
    ((simulateCombatTick sd ps r1 r2 r3).wasDodge = true ↔
      r1 * 100 < (calculateStatDetails sd ps "dodge").total) ∧
    ((simulateCombatTick sd ps r1 r2 r3).wasDodge = true →
      (simulateCombatTick sd ps r1 r2 r3).healthLost = 0 ∧
      ∀ d, LogLine.armor d ∉ (simulateCombatTick sd ps r1 r2 r3).log) ∧
    ((calculateStatDetails sd ps "dodge").total = 100 → 0 ≤ r1 → r1 < 1 →
      (simulateCombatTick sd ps r1 r2 r3).healthLost = 0 ∧
      (simulateCombatTick sd ps r1 r2 r3).wasDodge = true) := by
  refine ⟨?_, ?_, ?_⟩
  · simp [simulateCombatTick, simulateCombatTickLocals]
  · intro h
    simp only [simulateCombatTick, simulateCombatTickLocals] at h ⊢
    simp only [h]
    refine ⟨by simp [toFixed_zero], ?_⟩
    intro d
    simp only [List.mem_append, List.mem_singleton, not_or]
    refine ⟨⟨⟨by simp, by simp⟩, ?_⟩, ?_⟩ <;> split <;> simp
  · intro h100 h0 h1
    have hd : r1 * 100 < (calculateStatDetails sd ps "dodge").total := by
      rw [h100]; linarith
    simp [simulateCombatTick, simulateCombatTickLocals, hd, toFixed_zero]

/-- Witness of C3 on `dodgeBuild`, whose dodge total is 100. -/
theorem simulateCombatTick_dodge_witness :
    (calculateStatDetails none dodgeBuild "dodge").total = 100 ∧
    (simulateCombatTick none dodgeBuild (1 / 2) 0 0).healthLost = 0 ∧
    (simulateCombatTick none dodgeBuild (1 / 2) 0 0).wasDodge = true ∧
    ∀ d, LogLine.armor d ∉ (simulateCombatTick none dodgeBuild (1 / 2) 0 0).log :=
  have h := simulateCombatTick_dodge none dodgeBuild (1 / 2) 0 0
  have h100 : (calculateStatDetails none dodgeBuild "dodge").total = 100 := by decide!
  have hd := h.2.2 h100 (by norm_num) (by norm_num)
  ⟨h100, hd.1, hd.2, (h.2.1 hd.2).2⟩

/-- Claim C5: `wasHit` holds exactly when the second draw, scaled to `[0,100)`, is
strictly below the precision total; the base damage is half the attack total on
a miss and the attack total on a hit; with a precision total of 0 every draw is
a miss with halved base damage. -/
theorem simulateCombatTick_hit (sd : Option SkillsData) (ps : PlayerState) (r1 r2 r3 : ℚ) :
    ((simulateCombatTick sd ps r1 r2 r3).wasHit = true ↔
      r2 * 100 < (calculateStatDetails sd ps "precision").total) ∧
    ((calculateStatDetails sd ps "precision").total ≤ r2 * 100 →
      (simulateCombatTickLocals sd ps r1 r2 r3).baseDamage =
        (calculateStatDetails sd ps "attack").total / 2) ∧
    (r2 * 100 < (calculateStatDetails sd ps "precision").total →
      (simulateCombatTickLocals sd ps r1 r2 r3).baseDamage =
        (calculateStatDetails sd ps "attack").total) ∧
    ((calculateStatDetails sd ps "precision").total = 0 → 0 ≤ r2 →
      (simulateCombatTick sd ps r1 r2 r3).wasHit = false ∧
      (simulateCombatTickLocals sd ps r1 r2 r3).baseDamage =
        (calculateStatDetails sd ps "attack").total / 2) := by
  refine ⟨?_, ?_, ?_, ?_⟩
  · simp [simulateCombatTick, simulateCombatTickLocals]
  · intro h
    simp [simulateCombatTickLocals, not_lt.mpr h]
  · intro h
    simp [simulateCombatTickLocals, h]
  · intro h0 hr
    have hm : ¬ r2 * 100 < (calculateStatDetails sd ps "precision").total := by
      rw [h0]; exact not_lt.mpr (by linarith)
    simp [simulateCombatTick, simulateCombatTickLocals, hm]

/-- Witness of C5 on `critBuild` (no gloves, precision total 0), where the tick
misses and the base damage is halved, and on `plainBuild`, where it hits. -/
theorem simulateCombatTick_hit_witness :
    (calculateStatDetails none critBuild "precision").total = 0 ∧
    (simulateCombatTick none critBuild 0 0 0).wasHit = false ∧
    (simulateCombatTickLocals none critBuild 0 0 0).baseDamage =
      (calculateStatDetails none critBuild "attack").total / 2 ∧
    (simulateCombatTickLocals none plainBuild 0 (1 / 2) 0).baseDamage =
      (calculateStatDetails none plainBuild "attack").total :=
  have h0 : (calculateStatDetails none critBuild "precision").total = 0 := by decide!
  have h := (simulateCombatTick_hit none critBuild 0 0 0).2.2.2 h0 (le_refl 0)
  ⟨h0, h.1, h.2, (simulateCombatTick_hit none plainBuild 0 (1 / 2) 0).2.2.1 (by decide!)⟩

/-- Claim C7: for a build whose totals are armor 0, dodge 0, precision 100,
criticalChance 0 and attack 10, every triple of draws in `[0,1)` gives
`healthLost = 10`, `wasHit`, `finalDamageDealt = 10`, no critical and no dodge. -/
theorem simulateCombatTick_deterministic (sd : Option SkillsData) (ps : PlayerState)
    (r1 r2 r3 : ℚ)
    (harmor : (calculateStatDetails sd ps "armor").total = 0)
    (hdodge : (calculateStatDetails sd ps "dodge").total = 0)
    (hprecision : (calculateStatDetails sd ps "precision").total = 100)
    (hcrit : (calculateStatDetails sd ps "criticalChance").total = 0)
    (hattack : (calculateStatDetails sd ps "attack").total = 10)
    (h1 : 0 ≤ r1 ∧ r1 < 1) (h2 : 0 ≤ r2 ∧ r2 < 1) (h3 : 0 ≤ r3 ∧ r3 < 1) :
    (simulateCombatTick sd ps r1 r2 r3).healthLost = 10 ∧
    (simulateCombatTick sd ps r1 r2 r3).wasHit = true ∧
    (simulateCombatTick sd ps r1 r2 r3).finalDamageDealt = 10 ∧
    (simulateCombatTick sd ps r1 r2 r3).wasCritical = false ∧
    (simulateCombatTick sd ps r1 r2 r3).wasDodge = false := by
  have e1 : ¬ r1 * 100 < 0 := not_lt.mpr (by linarith [h1.1])
  have e2 : r2 * 100 < 100 := by linarith [h2.2]
  have e3 : ¬ r3 * 100 < 0 := not_lt.mpr (by linarith [h3.1])
  simp [simulateCombatTick, simulateCombatTickLocals, harmor, hdodge, hprecision, hcrit,
    hattack, e1, e2, e3, toFixed_one_ten]

/-- Witness of C7 on `plainBuild` with the draws 1/4, 1/2, 3/4. -/
theorem simulateCombatTick_deterministic_witness :
    (simulateCombatTick none plainBuild (1 / 4) (1 / 2) (3 / 4)).healthLost = 10 ∧
    (simulateCombatTick none plainBuild (1 / 4) (1 / 2) (3 / 4)).wasHit = true ∧
    (simulateCombatTick none plainBuild (1 / 4) (1 / 2) (3 / 4)).finalDamageDealt = 10 ∧
    (simulateCombatTick none plainBuild (1 / 4) (1 / 2) (3 / 4)).wasCritical = false ∧
    (simulateCombatTick none plainBuild (1 / 4) (1 / 2) (3 / 4)).wasDodge = false :=
  simulateCombatTick_deterministic none plainBuild (1 / 4) (1 / 2) (3 / 4)
    (by decide!) (by decide!) (by decide!) (by decide!) (by decide!)
    (by norm_num) (by norm_num) (by norm_num)

/-- Claim C10: `getSkillData(code, L)` equals `getSkillData(code, clamp(L, 0, 10))`
for every catalog, code and integer level: a level below 0 yields the level-0
entry and a level above 10 the level-10 entry. -/
theorem getSkillData_clamp (sd : Option SkillsData) (code : String) (L : Int) :
    getSkillData sd code L = getSkillData sd code (max 0 (min 10 L)) ∧
    (L < 0 → getSkillData sd code L = getSkillData sd code 0) ∧
    (10 < L → getSkillData sd code L = getSkillData sd code 10) := by
  have key : ∀ a b : Int, max 0 (min 10 a) = max 0 (min 10 b) →
      getSkillData sd code a = getSkillData sd code b := by
    intro a b hab
    unfold getSkillData
    simp only [MIN_SKILL_LEVEL, MAX_SKILL_LEVEL, hab]
  refine ⟨key _ _ ?_, fun h => key _ _ ?_, fun h => key _ _ ?_⟩
  · omega
  · omega
  · omega

/-- Witness of C10 on `sampleCatalog`: levels −3 and 12 of `attack` give the
entries of levels 0 and 10, which exist and differ. -/
theorem getSkillData_clamp_witness :
    getSkillData sampleCatalog "attack" (-3) = getSkillData sampleCatalog "attack" 0 ∧
    getSkillData sampleCatalog "attack" 12 = getSkillData sampleCatalog "attack" 10 ∧
    getSkillData sampleCatalog "attack" 0 =
      some { value := 0, cost := some 0, unlockAtLevel := some 0 } ∧
    getSkillData sampleCatalog "attack" 10 =
      some { value := 100, cost := some 10, unlockAtLevel := some 10 } :=
  ⟨(getSkillData_clamp sampleCatalog "attack" (-3)).2.1 (by decide),
   (getSkillData_clamp sampleCatalog "attack" 12).2.2 (by decide),
   by decide!, by decide!⟩

/-! ### Cumulative skill cost -/

/-- The body of the cost loop adds the contribution `levelCost` of the level. -/
theorem cumulativeCostStep_eq (sd : Option SkillsData) (code : String) (total : ℚ) (i : Int) :
    cumulativeCostStep sd code total i = total + levelCost sd code i := by
  unfold cumulativeCostStep levelCost
  cases getSkillData sd code i with
  | none => simp
  | some levelData =>
    cases hc : levelData.cost with
    | none => simp [orZero, hc]
    | some cost =>
      by_cases h0 : cost = 0
      · simp [orZero, hc, h0]
      · simp [orZero, hc, h0]

/-- For a known skill code and a level of at least 1, the cumulative cost is the
fold of the loop body over the indices `1, …, level`. -/
theorem calculateCumulativeSkillCost_of_known (data : SkillsData)
    (skills : String → Option SkillTable) (table : SkillTable) (code : String) (level : Int)
    (hskills : data.skills = some skills) (hcode : skills code = some table)
    (hlevel : 1 ≤ level) :
    calculateCumulativeSkillCost (some data) code level =
      (List.range level.toNat).foldl
        (fun (totalCost : ℚ) (k : ℕ) =>
          cumulativeCostStep (some data) code totalCost ((k : Int) + 1)) 0 := by
  have h : ¬ level ≤ MIN_SKILL_LEVEL := by
    simp only [MIN_SKILL_LEVEL]; omega
  simp only [calculateCumulativeSkillCost, hskills, hcode, h, if_false]

/-- Claim C11: for every catalog, skill code and level `N ≥ 1` (in particular for
`N` in `[1,10]`), the cumulative cost at `N` is the cumulative cost at `N − 1` plus
the cost of the level-`N` entry, a missing entry or an entry without a cost
contributing 0. -/
theorem calculateCumulativeSkillCost_step (sd : Option SkillsData) (code : String) (N : Int)
    (hN : 1 ≤ N) :
    calculateCumulativeSkillCost sd code N =
      calculateCumulativeSkillCost sd code (N - 1) + levelCost sd code N ∧
    (getSkillData sd code N = none →
      calculateCumulativeSkillCost sd code N = calculateCumulativeSkillCost sd code (N - 1)) ∧
    (∀ entry, getSkillData sd code N = some entry → entry.cost = none →
      calculateCumulativeSkillCost sd code N = calculateCumulativeSkillCost sd code (N - 1)) ∧
    (∀ entry cost, getSkillData sd code N = some entry → entry.cost = some cost →
      calculateCumulativeSkillCost sd code N =
        calculateCumulativeSkillCost sd code (N - 1) + cost) := by
  have main : calculateCumulativeSkillCost sd code N =
      calculateCumulativeSkillCost sd code (N - 1) + levelCost sd code N := by
    cases sd with
    | none => simp [calculateCumulativeSkillCost, levelCost, getSkillData]
    | some data =>
      cases hskills : data.skills with
      | none => simp [calculateCumulativeSkillCost, levelCost, getSkillData, hskills]
      | some skills =>
        cases hcode : skills code with
        | none => simp [calculateCumulativeSkillCost, levelCost, getSkillData, hskills, hcode]
        | some table =>
          obtain ⟨n, rfl⟩ : ∃ n : ℕ, N = (n : Int) + 1 := ⟨(N - 1).toNat, by omega⟩
          have hnat : ((n : Int) + 1).toNat = n + 1 := by omega
          rw [calculateCumulativeSkillCost_of_known data skills table code _ hskills hcode hN,
            hnat, List.range_succ]
          rw [List.foldl_append]
          simp only [List.foldl_cons, List.foldl_nil, cumulativeCostStep_eq, add_sub_cancel_right]
          congr 1
          cases n with
          | zero =>
            simp [calculateCumulativeSkillCost, hskills, hcode, MIN_SKILL_LEVEL]
          | succ m =>
            rw [calculateCumulativeSkillCost_of_known data skills table code _ hskills hcode
              (by omega)]
            have : (((m + 1 : ℕ) : Int)).toNat = m + 1 := by omega
            rw [this]
            simp only [cumulativeCostStep_eq]
  refine ⟨main, ?_, ?_, ?_⟩
  · intro h
    rw [main]; simp [levelCost, h]
  · intro entry h hc
    rw [main]; simp [levelCost, h, hc, orZero]
  · intro entry cost h hc
    rw [main]; simp [levelCost, h, hc, orZero]

/-- Witness of C11 on `sampleCatalog`: level 3 of `attack` costs 3, and the
cumulative costs at levels 2 and 3 are 3 and 6. -/
theorem calculateCumulativeSkillCost_step_witness :
    calculateCumulativeSkillCost sampleCatalog "attack" 3 =
      calculateCumulativeSkillCost sampleCatalog "attack" (3 - 1) +
        levelCost sampleCatalog "attack" 3 ∧
    levelCost sampleCatalog "attack" 3 = 3 ∧
    calculateCumulativeSkillCost sampleCatalog "attack" 2 = 3 ∧
    calculateCumulativeSkillCost sampleCatalog "attack" 3 = 6 :=
  ⟨(calculateCumulativeSkillCost_step sampleCatalog "attack" 3 (by decide)).1,
    by decide!, by decide!, by decide!⟩

/-- Claim C12: `calculateCumulativeSkillCost` is 0 whenever the level is at most 0,
the skill code is not in the catalog, or the catalog is not loaded (`skillsData`
is `null` or has no `skills` table); in particular it is 0 at level 0. -/
theorem calculateCumulativeSkillCost_zero (sd : Option SkillsData) (code : String)
    (level : Int) :
    (level ≤ 0 → calculateCumulativeSkillCost sd code level = 0) ∧
    calculateCumulativeSkillCost sd code 0 = 0 ∧
    calculateCumulativeSkillCost none code level = 0 ∧
    (∀ data, sd = some data → data.skills = none →
      calculateCumulativeSkillCost sd code level = 0) ∧
    (∀ data skills, sd = some data → data.skills = some skills → skills code = none →
      calculateCumulativeSkillCost sd code level = 0) := by
  have hle : ∀ l : Int, l ≤ 0 → calculateCumulativeSkillCost sd code l = 0 := by
    intro l hl
    cases sd with
    | none => rfl
    | some data =>
      cases hskills : data.skills with
      | none => simp [calculateCumulativeSkillCost, hskills]
      | some skills =>
        cases hcode : skills code with
        | none => simp [calculateCumulativeSkillCost, hskills, hcode]
        | some table => simp [calculateCumulativeSkillCost, hskills, hcode, MIN_SKILL_LEVEL, hl]
  refine ⟨hle level, hle 0 (le_refl 0), rfl, ?_, ?_⟩
  · intro data hsd hskills
    subst hsd
    simp [calculateCumulativeSkillCost, hskills]
  · intro data skills hsd hskills hcode
    subst hsd
    simp [calculateCumulativeSkillCost, hskills, hcode]

/-- Witness of C12 on `sampleCatalog`: level −2 of the known skill `attack` and
level 5 of the unknown code `stealth` both cost 0, while level 5 of `attack`
costs 15. -/
theorem calculateCumulativeSkillCost_zero_witness :
    calculateCumulativeSkillCost sampleCatalog "attack" (-2) = 0 ∧
    calculateCumulativeSkillCost sampleCatalog "stealth" 5 = 0 ∧
    calculateCumulativeSkillCost sampleCatalog "attack" 5 = 15 :=
  ⟨(calculateCumulativeSkillCost_zero sampleCatalog "attack" (-2)).1 (by decide),
    by decide!, by decide!⟩

/-- Claim C13: `getSkillData` returns `null`, at every level, when `skillsData` is
`null`, when it has no `skills` table, and when the skill code is not in the
table. -/
theorem getSkillData_null (code : String) (level : Int) :
    getSkillData none code level = none ∧
    (∀ data, data.skills = none → getSkillData (some data) code level = none) ∧
    (∀ data skills, data.skills = some skills → skills code = none →
      getSkillData (some data) code level = none) := by
  refine ⟨rfl, ?_, ?_⟩
  · intro data hskills
    simp [getSkillData, hskills]
  · intro data skills hskills hcode
    simp [getSkillData, hskills, hcode]

/-- Witness of C13: a document without a `skills` table, and the code `stealth`,
which `sampleCatalog` does not have, give `null`; the code `attack` does not. -/
theorem getSkillData_null_witness :
    getSkillData (some { skills := none }) "attack" 3 = none ∧
    getSkillData sampleCatalog "stealth" 3 = none ∧
    getSkillData sampleCatalog "attack" 3 =
      some { value := 30, cost := some 3, unlockAtLevel := some 3 } :=
  ⟨(getSkillData_null "attack" 3).2.1 { skills := none } rfl, by decide!, by decide!⟩

/-! ### The panic-eat step -/

/-- The consumption cycle as a sequence of events: when it returns, it has eaten
some number `k` of times, each time lowering the hunger by 1 and raising the
health by `healthPerFood`, and every one of these events started with health
strictly below `maxHealth`, at most 10, and with hunger left. -/
theorem eatLoop_events (foodName : String) (healthPerFood maxHealth : ℚ) :
    ∀ (fuel : ℕ) (s s' : FoodCombatState),
      eatLoop foodName healthPerFood maxHealth fuel s = some s' →
      ∃ k : ℕ, s'.tempCurrentHunger = s.tempCurrentHunger - k ∧
        s'.tempCurrentHealth = s.tempCurrentHealth + k * healthPerFood ∧
        ∀ j : ℕ, j < k →
          s.tempCurrentHealth + j * healthPerFood < maxHealth ∧
          s.tempCurrentHealth + j * healthPerFood ≤ 10 ∧
          0 < s.tempCurrentHunger - j := by
  intro fuel
  induction fuel with
  | zero => intro s s' h; simp [eatLoop] at h
  | succ fuel ih =>
    intro s s' h
    unfold eatLoop at h
    by_cases hg : s.tempCurrentHunger > 0 ∧ s.tempCurrentHealth ≤ INCOMING_DAMAGE_PER_TICK
    · by_cases hm : s.tempCurrentHealth ≥ maxHealth
      · simp only [hg, hm, and_self, if_true, Option.some.injEq] at h
        subst h
        exact ⟨0, by simp, by simp, fun j hj => absurd hj (Nat.not_lt_zero j)⟩
      · simp only [hg, hm, and_self, if_true, if_false] at h
        obtain ⟨k, hk1, hk2, hk3⟩ := ih _ s' h
        simp only at hk1 hk2 hk3
        refine ⟨k + 1, ?_, ?_, ?_⟩
        · rw [hk1]; push_cast; ring
        · rw [hk2]; push_cast; ring
        · intro j hj
          cases j with
          | zero =>
            have h10 := hg.2
            simp only [INCOMING_DAMAGE_PER_TICK] at h10
            simpa using ⟨not_le.mp hm, h10, hg.1⟩
          | succ i =>
            obtain ⟨h1, h2, h3⟩ := hk3 i (by omega)
            push_cast
            refine ⟨?_, ?_, ?_⟩
            · have : s.tempCurrentHealth + (↑i + 1) * healthPerFood =
                  s.tempCurrentHealth + healthPerFood + ↑i * healthPerFood := by ring
              rw [this]; exact h1
            · have : s.tempCurrentHealth + (↑i + 1) * healthPerFood =
                  s.tempCurrentHealth + healthPerFood + ↑i * healthPerFood := by ring
              rw [this]; exact h2
            · have : s.tempCurrentHunger - (↑i + 1) = s.tempCurrentHunger - 1 - ↑i := by ring
              rw [this]; exact h3
    · simp only [hg, if_false, Option.some.injEq] at h
      subst h
      exact ⟨0, by simp, by simp, fun j hj => absurd hj (Nat.not_lt_zero j)⟩

/-- The panic-eat step as a sequence of events: it always returns, after some number
`k` of food consumptions, each of which started with health strictly below
`maxHealth`, at most 10, and with hunger left; and it eats only with a positive
`healthPerFood`. -/
theorem panicEat_events (foodName : String) (healthPerFood maxHealth : ℚ)
    (s : FoodCombatState) :
    ∃ (s' : FoodCombatState) (k : ℕ),
      panicEat foodName healthPerFood maxHealth s = some s' ∧
      s'.tempCurrentHunger = s.tempCurrentHunger - k ∧
      s'.tempCurrentHealth = s.tempCurrentHealth + k * healthPerFood ∧
      (0 < k → 0 < healthPerFood) ∧
      ∀ j : ℕ, j < k →
        s.tempCurrentHealth + j * healthPerFood < maxHealth ∧
        s.tempCurrentHealth + j * healthPerFood ≤ 10 ∧
        0 < s.tempCurrentHunger - j := by
  obtain ⟨s', hs', -⟩ := panicEat_returns foodName healthPerFood maxHealth s
  by_cases hg : s.tempCurrentHealth ≤ INCOMING_DAMAGE_PER_TICK ∧ s.tempCurrentHunger > 0 ∧
      healthPerFood > 0
  · have hs'' := hs'
    unfold panicEat at hs''
    simp only [hg, and_self, if_true] at hs''
    obtain ⟨k, h1, h2, h3⟩ := eatLoop_events foodName healthPerFood maxHealth _ _ s' hs''
    exact ⟨s', k, hs', h1, h2, fun _ => hg.2.2, h3⟩
  · have hs'' := hs'
    unfold panicEat at hs''
    simp only [hg, if_false, Option.some.injEq] at hs''
    subst hs''
    exact ⟨s, 0, hs', by simp, by simp, fun h => absurd h (lt_irrefl 0),
      fun j hj => absurd hj (Nat.not_lt_zero j)⟩

/-- The result object that `simulateFullCombatWithFood` builds from the values of
its local variables at the end of the outer loop. -/
theorem simulateFullCombatWithFood_of_run (sd : Option SkillsData) (ps : PlayerState)
    (foodName : String) (flatStats : FlatStats) (rand : ℕ → ℚ) (s : FoodCombatState)
    (h : simulateFullCombatWithFoodRun sd ps foodName flatStats rand = some s) :
    simulateFullCombatWithFood sd ps
        (some { name := foodName, flatStats := some flatStats }) rand =
      Except.ok
        { totalDamageDealt := toFixed 1 s.totalDamageDealt,
          ticksSurvived := s.ticksSurvived,
          log := if s.ticksSurvived ≥ MAX_TICKS then s.fullLog ++ [LogLine.maxTicks]
                 else s.fullLog,
          finalHealth := max 0 s.tempCurrentHealth,
          finalHunger := s.tempCurrentHunger } := by
  simp only [simulateFullCombatWithFood, h]

/-- Claim C14: in the outer loop of `simulateFullCombatWithFood`, a state whose
health after the panic-eat step is at most 0 ends the loop with the defeat line
and without resolving a tick, and a tick is resolved only from a health above 0;
in particular, a run started with health at most 0 and with hunger at most 0 or
`healthRegen` at most 0 returns `ticksSurvived = 0`, `totalDamageDealt = 0` and
`finalHealth = 0`. -/
theorem simulateFullCombatWithFood_defeat (sd : Option SkillsData) (ps : PlayerState)
    (foodName : String) (flatStats : FlatStats) (rand : ℕ → ℚ) :
    (∀ (healthPerFood maxHealth : ℚ) (fuel : ℕ) (s s1 : FoodCombatState),
      s.ticksSurvived < MAX_TICKS →
      panicEat foodName healthPerFood maxHealth s = some s1 →
      s1.tempCurrentHealth ≤ 0 →
      foodLoop sd ps rand foodName healthPerFood maxHealth (fuel + 1) s =
        some { s1 with fullLog := s1.fullLog ++ [LogLine.defeated] }) ∧
    (∀ (healthPerFood maxHealth : ℚ) (fuel : ℕ) (s s1 : FoodCombatState),
      s.ticksSurvived < MAX_TICKS →
      panicEat foodName healthPerFood maxHealth s = some s1 →
      0 < s1.tempCurrentHealth →
      foodLoop sd ps rand foodName healthPerFood maxHealth (fuel + 1) s =
        foodLoop sd ps rand foodName healthPerFood maxHealth fuel
          (foodTick sd ps rand s1)) ∧
    (ps.currentHealth ≤ 0 → (ps.currentHunger ≤ 0 ∨ orZero flatStats.healthRegen ≤ 0) →
      ∃ r, simulateFullCombatWithFood sd ps
            (some { name := foodName, flatStats := some flatStats }) rand = Except.ok r ∧
        r.ticksSurvived = 0 ∧ r.totalDamageDealt = 0 ∧ r.finalHealth = 0 ∧
        r.finalHunger = ps.currentHunger ∧
        r.log = [LogLine.started foodName (orZero flatStats.healthRegen), LogLine.defeated]) := by
  refine ⟨?_, ?_, ?_⟩
  · intro healthPerFood maxHealth fuel s s1 hcap heat hdead
    conv_lhs => unfold foodLoop
    simp only [hcap, if_true, heat, hdead]
  · intro healthPerFood maxHealth fuel s s1 hcap heat halive
    conv_lhs => unfold foodLoop
    simp only [hcap, if_true, heat, not_le.mpr halive, if_false]
  · intro hdead hno
    have hskip : ¬ (ps.currentHealth ≤ INCOMING_DAMAGE_PER_TICK ∧ ps.currentHunger > 0 ∧
        orZero flatStats.healthRegen > 0) := by
      rintro ⟨-, h1, h2⟩
      rcases hno with h | h
      · exact absurd h1 (not_lt.mpr h)
      · exact absurd h2 (not_lt.mpr h)
    have hrun : simulateFullCombatWithFoodRun sd ps foodName flatStats rand =
        some { totalDamageDealt := 0, ticksSurvived := 0,
               fullLog := [LogLine.started foodName (orZero flatStats.healthRegen),
                 LogLine.defeated],
               tempCurrentHealth := ps.currentHealth,
               tempCurrentHunger := ps.currentHunger, drawsUsed := 0 } := by
      unfold simulateFullCombatWithFoodRun
      simp only []
      unfold foodLoop
      simp only [panicEat, hskip, if_false, hdead, if_true, MAX_TICKS, Nat.ofNat_pos,
        List.singleton_append]
    refine ⟨_, simulateFullCombatWithFood_of_run sd ps foodName flatStats rand _ hrun,
      rfl, ?_, ?_, rfl, ?_⟩
    · exact toFixed_zero 1
    · exact max_eq_left hdead
    · simp [MAX_TICKS]

/-- Witness of C14 on `deadBuild` (health 0) with `noRegenFood`: no tick is
resolved and the log is the start line followed by the defeat line. -/
theorem simulateFullCombatWithFood_defeat_witness :
    deadBuild.currentHealth ≤ 0 ∧
    ∃ r, simulateFullCombatWithFood none deadBuild
          (some { name := "Water", flatStats := some { healthRegen := some 0 } })
          (fun _ => 0) = Except.ok r ∧
      r.ticksSurvived = 0 ∧ r.totalDamageDealt = 0 ∧ r.finalHealth = 0 ∧
      r.finalHunger = deadBuild.currentHunger ∧
      r.log = [LogLine.started "Water" (orZero (some 0)), LogLine.defeated] :=
  have h0 : deadBuild.currentHealth ≤ 0 := by decide!
  ⟨h0, (simulateFullCombatWithFood_defeat none deadBuild "Water" { healthRegen := some 0 }
    (fun _ => 0)).2.2 h0 (Or.inr (by decide!))⟩

/-- Claim C15: in the consumption cycle, a state with health at or above `maxHealth`
is left without eating, with hunger and health unchanged (through the overheal
line when the loop condition holds); and every food consumption of the cycle, and
of the panic-eat step, starts from a health strictly below `maxHealth`. -/
theorem eatLoop_overheal_guard (foodName : String) (healthPerFood maxHealth : ℚ) :
    (∀ (fuel : ℕ) (s : FoodCombatState), s.tempCurrentHealth ≥ maxHealth →
      ∃ s', eatLoop foodName healthPerFood maxHealth (fuel + 1) s = some s' ∧
        s'.tempCurrentHunger = s.tempCurrentHunger ∧
        s'.tempCurrentHealth = s.tempCurrentHealth) ∧
    (∀ (fuel : ℕ) (s : FoodCombatState), s.tempCurrentHunger > 0 →
      s.tempCurrentHealth ≤ 10 → s.tempCurrentHealth ≥ maxHealth →
      eatLoop foodName healthPerFood maxHealth (fuel + 1) s =
        some { s with
          fullLog := s.fullLog ++
            [LogLine.stoppedEating (toFixed 1 s.tempCurrentHealth) maxHealth] }) ∧
    (∀ (s : FoodCombatState), ∃ (s' : FoodCombatState) (k : ℕ),
      eatLoop foodName healthPerFood maxHealth (eatFuel s.tempCurrentHunger) s = some s' ∧
      s'.tempCurrentHunger = s.tempCurrentHunger - k ∧
      s'.tempCurrentHealth = s.tempCurrentHealth + k * healthPerFood ∧
      ∀ j : ℕ, j < k → s.tempCurrentHealth + j * healthPerFood < maxHealth) ∧
    (∀ (s s' : FoodCombatState), panicEat foodName healthPerFood maxHealth s = some s' →
      s'.tempCurrentHunger ≠ s.tempCurrentHunger → s.tempCurrentHealth < maxHealth) := by
  refine ⟨?_, ?_, ?_, ?_⟩
  · intro fuel s hmax
    unfold eatLoop
    by_cases hg : s.tempCurrentHunger > 0 ∧ s.tempCurrentHealth ≤ INCOMING_DAMAGE_PER_TICK
    · simp only [hg, and_self, if_true, hmax]
      exact ⟨_, rfl, rfl, rfl⟩
    · simp only [hg, if_false]
      exact ⟨_, rfl, rfl, rfl⟩
  · intro fuel s hhunger hhealth hmax
    conv_lhs => unfold eatLoop
    have hg : s.tempCurrentHunger > 0 ∧ s.tempCurrentHealth ≤ INCOMING_DAMAGE_PER_TICK :=
      ⟨hhunger, hhealth⟩
    simp only [hg, and_self, if_true, hmax]
  · intro s
    obtain ⟨s', hs', -⟩ := eatLoop_returns foodName healthPerFood maxHealth
      (eatFuel s.tempCurrentHunger) s (by simp [eatFuel])
    obtain ⟨k, h1, h2, h3⟩ := eatLoop_events foodName healthPerFood maxHealth _ s s' hs'
    exact ⟨s', k, hs', h1, h2, fun j hj => (h3 j hj).1⟩
  · intro s s' heat hne
    obtain ⟨s'', k, hs'', h1, -, -, h3⟩ := panicEat_events foodName healthPerFood maxHealth s
    rw [heat, Option.some.injEq] at hs''
    subst hs''
    cases k with
    | zero => simp at h1; exact absurd h1 hne
    | succ k => simpa using (h3 0 (Nat.succ_pos k)).1

/-- Witness of C15: from `hungryState` (health 5, hunger 10) with 20 health per
food and a maximum of 50, the cycle eats once, from a health below the maximum;
with a maximum of 5 it leaves the state through the overheal line. -/
theorem eatLoop_overheal_guard_witness :
    (panicEat "Bread" 20 50 hungryState).map
      (fun s => (s.tempCurrentHunger, s.tempCurrentHealth)) = some (9, 25) ∧
    hungryState.tempCurrentHealth < 50 ∧
    eatLoop "Bread" 20 5 (3 + 1) hungryState =
      some { hungryState with
        fullLog := hungryState.fullLog ++
          [LogLine.stoppedEating (toFixed 1 hungryState.tempCurrentHealth) 5] } :=
  have h := eatLoop_overheal_guard "Bread" 20
  have hp : (panicEat "Bread" 20 50 hungryState).map
      (fun s => (s.tempCurrentHunger, s.tempCurrentHealth)) = some (9, 25) := by decide!
  have hlt : hungryState.tempCurrentHealth < 50 :=
    match hs : panicEat "Bread" 20 50 hungryState with
    | none => absurd hp (by rw [hs]; simp)
    | some s' => (h 50).2.2.2 hungryState s' hs (by
        rw [hs] at hp
        simp only [Option.map_some', Option.some.injEq, Prod.mk.injEq] at hp
        rw [hp.1]; decide!)
  ⟨hp, hlt, (h 5).2.1 3 hungryState (by decide!) (by decide!) (by decide!)⟩

/-- Counterexample to C16 as stated: without a catalog the maximum health of
`weakBuild` is 50; with `feastFood` (100 health per food) the panic-eat step takes
the health from 5 to 105, and the run logs the consumption `5 -> 105`. -/
theorem simulateFullCombatWithFood_overheals :
    maxHealthFromSkills none weakBuild = 50 ∧
    (panicEat "Feast" 100 50 hungryState).map (fun s => s.tempCurrentHealth) = some 105 ∧
    (simulateFullCombatWithFood none weakBuild (some feastFood) (fun _ => 0)).toOption.map
      (fun r => decide (LogLine.ate "Feast" 100 5 105 0 ∈ r.log)) = some true := by
  decide!

/-- Claim C16, amended: every food consumption of the panic-eat step starts from a
health strictly below `maxHealth` and at most 10, so immediately after each eat
the health is strictly below `maxHealth + healthPerFood` and at most
`10 + healthPerFood`. -/
theorem panicEat_health_after_eat (foodName : String) (healthPerFood maxHealth : ℚ)
    (s : FoodCombatState) :
    ∃ (s' : FoodCombatState) (k : ℕ),
      panicEat foodName healthPerFood maxHealth s = some s' ∧
      s'.tempCurrentHunger = s.tempCurrentHunger - k ∧
      s'.tempCurrentHealth = s.tempCurrentHealth + k * healthPerFood ∧
      ∀ j : ℕ, j < k →
        s.tempCurrentHealth + (j + 1) * healthPerFood < maxHealth + healthPerFood ∧
        s.tempCurrentHealth + (j + 1) * healthPerFood ≤ 10 + healthPerFood := by
  obtain ⟨s', k, hs', h1, h2, -, h3⟩ := panicEat_events foodName healthPerFood maxHealth s
  refine ⟨s', k, hs', h1, h2, fun j hj => ?_⟩
  obtain ⟨ha, hb, -⟩ := h3 j hj
  constructor <;> linarith

/-- Witness of the amended C16 on `hungryState` with 100 health per food and a
maximum of 50: the step eats (`k > 0`), and after the first consumption the health
is `5 + 100`, below `50 + 100`. -/
theorem panicEat_health_after_eat_witness :
    ∃ (s' : FoodCombatState) (k : ℕ),
      panicEat "Feast" 100 50 hungryState = some s' ∧ 0 < k ∧
      hungryState.tempCurrentHealth + ((0 : ℕ) + 1) * 100 < 50 + 100 ∧
      hungryState.tempCurrentHealth + ((0 : ℕ) + 1) * 100 ≤ 10 + 100 :=
  match panicEat_health_after_eat "Feast" 100 50 hungryState with
  | ⟨s', k, hs', h1, _, h3⟩ =>
    have hk : 0 < k := by
      have hp : (panicEat "Feast" 100 50 hungryState).map
          (fun s => decide (s.tempCurrentHunger = hungryState.tempCurrentHunger)) =
          some false := by decide!
      rw [hs'] at hp
      simp only [Option.map_some', Option.some.injEq, decide_eq_false_iff_not] at hp
      rcases Nat.eq_zero_or_pos k with h0 | h0
      · subst h0; simp at h1; exact absurd h1 hp
      · exact h0
    ⟨s', k, hs', hk, h3 0 hk⟩

/-! ### Runs without a positive `healthRegen` -/

/-- No log line of a combat tick is a line of the panic-eat step. -/
theorem simulateCombatTick_log_not_panicEat (sd : Option SkillsData) (ps : PlayerState)
    (r1 r2 r3 : ℚ) :
    ∀ l ∈ (simulateCombatTick sd ps r1 r2 r3).log, l.isPanicEat = false := by
  intro l hl
  simp only [simulateCombatTick, simulateCombatTickLocals, List.mem_append,
    List.mem_singleton] at hl
  rcases hl with ((hl | hl) | hl) | hl
  · split at hl
    · simp only [List.mem_singleton] at hl; subst hl; rfl
    · simp only [List.mem_singleton] at hl; subst hl; rfl
  · subst hl; rfl
  · subst hl; split <;> rfl
  · subst hl; split <;> rfl

/-- Without a positive `healthPerFood` the outer loop leaves the hunger as it is and
adds no line of the panic-eat step to the log. -/
theorem foodLoop_of_no_regen (sd : Option SkillsData) (ps : PlayerState) (rand : ℕ → ℚ)
    (foodName : String) (healthPerFood maxHealth : ℚ) (hregen : healthPerFood ≤ 0) :
    ∀ (fuel : ℕ) (s s' : FoodCombatState),
      foodLoop sd ps rand foodName healthPerFood maxHealth fuel s = some s' →
      s'.tempCurrentHunger = s.tempCurrentHunger ∧
      ((∀ l ∈ s.fullLog, l.isPanicEat = false) → ∀ l ∈ s'.fullLog, l.isPanicEat = false) := by
  intro fuel
  induction fuel with
  | zero => intro s s' h; simp [foodLoop] at h
  | succ fuel ih =>
    intro s s' h
    unfold foodLoop at h
    rw [panicEat_of_no_regen foodName healthPerFood maxHealth s hregen] at h
    by_cases hc : s.ticksSurvived < MAX_TICKS
    · by_cases hdead : s.tempCurrentHealth ≤ 0
      · simp only [hc, if_true, hdead, Option.some.injEq] at h
        subst h
        refine ⟨rfl, fun hlog l hl => ?_⟩
        simp only [List.mem_append, List.mem_singleton] at hl
        rcases hl with hl | hl
        · exact hlog l hl
        · subst hl; rfl
      · simp only [hc, if_true, hdead, if_false] at h
        obtain ⟨hh, hl⟩ := ih _ s' h
        refine ⟨hh, fun hlog => hl ?_⟩
        intro l hmem
        simp only [foodTick, List.mem_append, List.mem_singleton] at hmem
        rcases hmem with (hmem | hmem) | hmem
        · exact hlog l hmem
        · subst hmem; rfl
        · exact simulateCombatTick_log_not_panicEat sd ps _ _ _ l hmem
    · simp only [hc, if_false, Option.some.injEq] at h
      subst h
      exact ⟨rfl, id⟩

/-- Counterexample to C17 as stated: called without a food item, or with a food
item that has no `flatStats` object, `simulateFullCombatWithFood` throws a
`TypeError` instead of returning a result. -/
theorem simulateFullCombatWithFood_throws_without_food :
    simulateFullCombatWithFood none INITIAL_PLAYER_STATE none (fun _ => 0) =
      Except.error SimError.typeError ∧
    simulateFullCombatWithFood none INITIAL_PLAYER_STATE
      (some { name := "Stone", flatStats := none }) (fun _ => 0) =
      Except.error SimError.typeError :=
  ⟨rfl, rfl⟩

/-- Claim C17, amended: called with a food item whose `flatStats` has no positive
`healthRegen` (absent, 0 or negative), `simulateFullCombatWithFood` returns a
result, the panic-eat step leaves every state as it is, no line of the panic-eat
step is logged, and `finalHunger` is the initial hunger. -/
theorem simulateFullCombatWithFood_no_regen (sd : Option SkillsData) (ps : PlayerState)
    (foodName : String) (flatStats : FlatStats) (rand : ℕ → ℚ)
    (hregen : orZero flatStats.healthRegen ≤ 0) :
    (∃ r, simulateFullCombatWithFood sd ps
          (some { name := foodName, flatStats := some flatStats }) rand = Except.ok r ∧
        r.finalHunger = ps.currentHunger ∧
        ∀ l ∈ r.log, l.isPanicEat = false) ∧
    (∀ (maxHealth : ℚ) (s : FoodCombatState),
      panicEat foodName (orZero flatStats.healthRegen) maxHealth s = some s) := by
  refine ⟨?_, fun maxHealth s => panicEat_of_no_regen foodName _ maxHealth s hregen⟩
  obtain ⟨s', hs', -, -⟩ := foodLoop_returns sd ps rand foodName
    (orZero flatStats.healthRegen) (maxHealthFromSkills sd ps) (MAX_TICKS + 1)
    { totalDamageDealt := 0, ticksSurvived := 0,
      fullLog := [LogLine.started foodName (orZero flatStats.healthRegen)],
      tempCurrentHealth := ps.currentHealth,
      tempCurrentHunger := ps.currentHunger, drawsUsed := 0 }
    (by simp)
  obtain ⟨hh, hl⟩ := foodLoop_of_no_regen sd ps rand foodName _ _ hregen _ _ s' hs'
  have hlog : ∀ l ∈ s'.fullLog, l.isPanicEat = false := by
    apply hl
    intro l hmem
    simp only [List.mem_singleton] at hmem
    subst hmem; rfl
  refine ⟨_, simulateFullCombatWithFood_of_run sd ps foodName flatStats rand s' hs', hh, ?_⟩
  intro l hmem
  simp only at hmem
  split at hmem
  · simp only [List.mem_append, List.mem_singleton] at hmem
    rcases hmem with hmem | hmem
    · exact hlog l hmem
    · subst hmem; rfl
  · exact hlog l hmem

/-- Witness of the amended C17 on `lowHealthBuild` with `noRegenFood`: the run
returns after 2 ticks with the initial hunger of 10. -/
theorem simulateFullCombatWithFood_no_regen_witness :
    orZero (some (0 : ℚ)) ≤ 0 ∧
    (∃ r, simulateFullCombatWithFood none lowHealthBuild
          (some { name := "Water", flatStats := some { healthRegen := some 0 } })
          (fun _ => 0) = Except.ok r ∧
        r.finalHunger = lowHealthBuild.currentHunger ∧
        ∀ l ∈ r.log, l.isPanicEat = false) ∧
    (simulateFullCombatWithFood none lowHealthBuild (some noRegenFood) (fun _ => 0)).toOption.map
      (fun r => (r.ticksSurvived, r.finalHunger)) = some (2, 10) :=
  have h0 : orZero (some (0 : ℚ)) ≤ 0 := by decide!
  ⟨h0, (simulateFullCombatWithFood_no_regen none lowHealthBuild "Water"
    { healthRegen := some 0 } (fun _ => 0) h0).1, by decide!⟩

/-! ### Ticks resolved and damage totals -/

/-- No log line of a combat tick is a tick summary line. -/
theorem simulateCombatTick_log_not_tickHeader (sd : Option SkillsData) (ps : PlayerState)
    (r1 r2 r3 : ℚ) :
    ∀ l ∈ (simulateCombatTick sd ps r1 r2 r3).log, l.isTickHeader = false := by
  intro l hl
  simp only [simulateCombatTick, simulateCombatTickLocals, List.mem_append,
    List.mem_singleton] at hl
  rcases hl with ((hl | hl) | hl) | hl
  · split at hl
    · simp only [List.mem_singleton] at hl; subst hl; rfl
    · simp only [List.mem_singleton] at hl; subst hl; rfl
  · subst hl; rfl
  · subst hl; split <;> rfl
  · subst hl; split <;> rfl

/-- The log of a combat tick contains no tick summary line. -/
theorem simulateCombatTick_log_countP (sd : Option SkillsData) (ps : PlayerState)
    (r1 r2 r3 : ℚ) :
    (simulateCombatTick sd ps r1 r2 r3).log.countP LogLine.isTickHeader = 0 := by
  rw [List.countP_eq_zero]
  intro l hl
  simp [simulateCombatTick_log_not_tickHeader sd ps r1 r2 r3 l hl]

/-- The consumption cycle only appends lines of the panic-eat step to the log. -/
theorem eatLoop_log (foodName : String) (healthPerFood maxHealth : ℚ) :
    ∀ (fuel : ℕ) (s s' : FoodCombatState),
      eatLoop foodName healthPerFood maxHealth fuel s = some s' →
      ∃ lines, s'.fullLog = s.fullLog ++ lines ∧ ∀ l ∈ lines, l.isPanicEat = true := by
  intro fuel
  induction fuel with
  | zero => intro s s' h; simp [eatLoop] at h
  | succ fuel ih =>
    intro s s' h
    unfold eatLoop at h
    by_cases hg : s.tempCurrentHunger > 0 ∧ s.tempCurrentHealth ≤ INCOMING_DAMAGE_PER_TICK
    · by_cases hm : s.tempCurrentHealth ≥ maxHealth
      · simp only [hg, hm, and_self, if_true, Option.some.injEq] at h
        subst h
        exact ⟨_, rfl, fun l hl => by simp only [List.mem_singleton] at hl; subst hl; rfl⟩
      · simp only [hg, hm, and_self, if_true, if_false] at h
        obtain ⟨lines, h1, h2⟩ := ih _ s' h
        simp only [List.append_assoc] at h1
        refine ⟨_, h1, fun l hl => ?_⟩
        simp only [List.singleton_append, List.mem_cons] at hl
        rcases hl with hl | hl
        · subst hl; rfl
        · exact h2 l hl
    · simp only [hg, if_false, Option.some.injEq] at h
      subst h
      exact ⟨[], by simp, fun l hl => by simp at hl⟩

/-- The panic-eat step only appends lines of the panic-eat step to the log. -/
theorem panicEat_log (foodName : String) (healthPerFood maxHealth : ℚ)
    (s s' : FoodCombatState) (h : panicEat foodName healthPerFood maxHealth s = some s') :
    ∃ lines, s'.fullLog = s.fullLog ++ lines ∧ ∀ l ∈ lines, l.isPanicEat = true := by
  unfold panicEat at h
  split at h
  · obtain ⟨lines, h1, h2⟩ := eatLoop_log foodName healthPerFood maxHealth _ _ s' h
    simp only [List.append_assoc] at h1
    refine ⟨_, h1, fun l hl => ?_⟩
    simp only [List.singleton_append, List.mem_cons] at hl
    rcases hl with hl | hl
    · subst hl; rfl
    · exact h2 l hl
  · simp only [Option.some.injEq] at h
    subst h
    exact ⟨[], by simp, fun l hl => by simp at hl⟩

/-- A line of the panic-eat step is not a tick summary line. -/
theorem LogLine.not_tickHeader_of_panicEat (l : LogLine) (h : l.isPanicEat = true) :
    l.isTickHeader = false := by
  cases l <;> simp_all [LogLine.isPanicEat, LogLine.isTickHeader]

/-- Invariant of the outer loop of `simulateFullCombatWithFood`: three draws are
consumed per tick counted, the damage total is the sum of the `finalDamageDealt`
of the ticks resolved so far, and the log has one summary line per tick. -/
theorem foodLoop_totals (sd : Option SkillsData) (ps : PlayerState) (rand : ℕ → ℚ)
    (foodName : String) (healthPerFood maxHealth : ℚ) :
    ∀ (fuel : ℕ) (s s' : FoodCombatState),
      foodLoop sd ps rand foodName healthPerFood maxHealth fuel s = some s' →
      s.drawsUsed = 3 * s.ticksSurvived →
      s.totalDamageDealt =
        ∑ k in Finset.range s.ticksSurvived, (tickAt sd ps rand k).finalDamageDealt →
      s.fullLog.countP LogLine.isTickHeader = s.ticksSurvived →
      s'.drawsUsed = 3 * s'.ticksSurvived ∧
      s'.totalDamageDealt =
        ∑ k in Finset.range s'.ticksSurvived, (tickAt sd ps rand k).finalDamageDealt ∧
      s'.fullLog.countP LogLine.isTickHeader = s'.ticksSurvived := by
  intro fuel
  induction fuel with
  | zero => intro s s' h; simp [foodLoop] at h
  | succ fuel ih =>
    intro s s' h hd ht hl
    unfold foodLoop at h
    by_cases hc : s.ticksSurvived < MAX_TICKS
    · obtain ⟨s1, hs1, ht1, hT1, hd1, -⟩ := panicEat_returns foodName healthPerFood maxHealth s
      obtain ⟨lines, hlog1, hlines⟩ := panicEat_log foodName healthPerFood maxHealth s s1 hs1
      have hcount1 : s1.fullLog.countP LogLine.isTickHeader = s1.ticksSurvived := by
        rw [hlog1, List.countP_append, hl, ht1]
        have : lines.countP LogLine.isTickHeader = 0 := by
          rw [List.countP_eq_zero]
          intro l hmem
          simp [LogLine.not_tickHeader_of_panicEat l (hlines l hmem)]
        omega
      simp only [hc, if_true, hs1] at h
      by_cases hdead : s1.tempCurrentHealth ≤ 0
      · simp only [hdead, if_true, Option.some.injEq] at h
        subst h
        refine ⟨by simp only [hd1, ht1, hd], by simp only [hT1, ht1, ht], ?_⟩
        simp only [List.countP_append, hcount1]
        simp [List.countP_cons, LogLine.isTickHeader]
      · simp only [hdead, if_false] at h
        refine ih _ s' h ?_ ?_ ?_
        · simp only [foodTick, hd1, ht1, hd]; ring
        · have htick : simulateCombatTick sd ps (rand s1.drawsUsed) (rand (s1.drawsUsed + 1))
              (rand (s1.drawsUsed + 2)) = tickAt sd ps rand s.ticksSurvived := by
            simp only [tickAt, hd1, hd]
          simp only [foodTick, htick, ht1, hT1, ht, Finset.sum_range_succ]
        · simp only [foodTick, List.countP_append, hcount1, simulateCombatTick_log_countP]
          simp [List.countP_cons, LogLine.isTickHeader]
    · simp only [hc, if_false, Option.some.injEq] at h
      subst h
      exact ⟨hd, ht, hl⟩

/-- Claim C18: `simulateFullCombatWithFood` returns as `ticksSurvived` the number of
ticks it resolved (three draws consumed and one summary line logged per tick) and
as `totalDamageDealt` the sum of the `finalDamageDealt` of all these ticks, the
last one included, rounded to one decimal place. -/
theorem simulateFullCombatWithFood_totals (sd : Option SkillsData) (ps : PlayerState)
    (foodName : String) (flatStats : FlatStats) (rand : ℕ → ℚ) :
    ∃ r s, simulateFullCombatWithFoodRun sd ps foodName flatStats rand = some s ∧
      simulateFullCombatWithFood sd ps
        (some { name := foodName, flatStats := some flatStats }) rand = Except.ok r ∧
      r.ticksSurvived = s.ticksSurvived ∧
      s.drawsUsed = 3 * r.ticksSurvived ∧
      r.log.countP LogLine.isTickHeader = r.ticksSurvived ∧
      r.totalDamageDealt =
        toFixed 1 (∑ k in Finset.range r.ticksSurvived,
          (tickAt sd ps rand k).finalDamageDealt) := by
  obtain ⟨s', hs', -, -⟩ := foodLoop_returns sd ps rand foodName
    (orZero flatStats.healthRegen) (maxHealthFromSkills sd ps) (MAX_TICKS + 1)
    { totalDamageDealt := 0, ticksSurvived := 0,
      fullLog := [LogLine.started foodName (orZero flatStats.healthRegen)],
      tempCurrentHealth := ps.currentHealth,
      tempCurrentHunger := ps.currentHunger, drawsUsed := 0 }
    (by simp)
  obtain ⟨hd, ht, hl⟩ := foodLoop_totals sd ps rand foodName _ _ _ _ s' hs' rfl
    (by simp) (by simp [LogLine.isTickHeader])
  refine ⟨_, s', hs', simulateFullCombatWithFood_of_run sd ps foodName flatStats rand s' hs',
    rfl, hd, ?_, by simp only [ht]⟩
  simp only
  split
  · simp only [List.countP_append, hl]
    simp [List.countP_cons, LogLine.isTickHeader]
  · exact hl

/-! ### The end of the combat -/

/-- Counterexample to C21 as stated, on `starvedBuild` (health 5, hunger 0) with
`breadFood`: the panic-eat step leaves the health at 5, below the incoming damage
of 10, and yet a tick is resolved: the run returns `ticksSurvived = 1` with 10
damage dealt. -/
theorem simulateFullCombatWithFood_fights_at_low_health :
    (panicEat "Bread" 20 50 (foodCombatStart starvedBuild "Bread" { healthRegen := some 20 })).map
      (fun s => s.tempCurrentHealth) = some 5 ∧
    (5 : ℚ) ≤ INCOMING_DAMAGE_PER_TICK ∧
    (simulateFullCombatWithFood none starvedBuild (some breadFood) (fun _ => 0)).toOption.map
      (fun r => (r.ticksSurvived, r.totalDamageDealt, r.finalHealth, r.finalHunger)) =
      some (1, 10, 0, 0) := by
  decide!

/-- Claim C22: with a positive `healthPerFood`, the panic-eat step returns a state in
which the health is above 10, or the hunger is at most 0, or the health is at
least `maxHealth`. -/
theorem panicEat_exit (foodName : String) (healthPerFood maxHealth : ℚ)
    (s : FoodCombatState) (hregen : 0 < healthPerFood) :
    ∃ s', panicEat foodName healthPerFood maxHealth s = some s' ∧
      (10 < s'.tempCurrentHealth ∨ s'.tempCurrentHunger ≤ 0 ∨
        maxHealth ≤ s'.tempCurrentHealth) := by
  unfold panicEat
  by_cases hg : s.tempCurrentHealth ≤ INCOMING_DAMAGE_PER_TICK ∧ s.tempCurrentHunger > 0 ∧
      healthPerFood > 0
  · simp only [hg, and_self, if_true]
    obtain ⟨s', hs', -, -, -, -, hex⟩ := eatLoop_returns foodName healthPerFood maxHealth
      (eatFuel s.tempCurrentHunger)
      { s with fullLog := s.fullLog ++ [LogLine.criticalHealth (toFixed 1 s.tempCurrentHealth)] }
      (by simp [eatFuel])
    refine ⟨s', hs', ?_⟩
    rcases hex with hex | hex
    · rcases not_and_or.mp hex with h | h
      · exact Or.inr (Or.inl (not_lt.mp h))
      · simp only [INCOMING_DAMAGE_PER_TICK] at h
        exact Or.inl (not_le.mp h)
    · exact Or.inr (Or.inr hex)
  · simp only [hg, if_false]
    refine ⟨s, rfl, ?_⟩
    rcases not_and_or.mp hg with h | h
    · simp only [INCOMING_DAMAGE_PER_TICK] at h
      exact Or.inl (not_le.mp h)
    · rcases not_and_or.mp h with h' | h'
      · exact Or.inr (Or.inl (not_lt.mp h'))
      · exact absurd hregen h'

/-- Witness of C22 on `hungryState` (health 5, hunger 10): with 20 health per food
and a maximum of 50 the step ends with health 25, above 10. -/
theorem panicEat_exit_witness :
    (0 : ℚ) < 20 ∧
    (∃ s', panicEat "Bread" 20 50 hungryState = some s' ∧
      (10 < s'.tempCurrentHealth ∨ s'.tempCurrentHunger ≤ 0 ∨ 50 ≤ s'.tempCurrentHealth)) ∧
    (panicEat "Bread" 20 50 hungryState).map
      (fun s => (s.tempCurrentHealth, s.tempCurrentHunger)) = some (25, 9) :=
  ⟨by norm_num, panicEat_exit "Bread" 20 50 hungryState (by norm_num), by decide!⟩

/-- No log line of a combat tick is the defeat line or the forced-stop line. -/
theorem simulateCombatTick_log_not_final (sd : Option SkillsData) (ps : PlayerState)
    (r1 r2 r3 : ℚ) :
    LogLine.defeated ∉ (simulateCombatTick sd ps r1 r2 r3).log ∧
    LogLine.maxTicks ∉ (simulateCombatTick sd ps r1 r2 r3).log := by
  constructor <;>
  · intro hl
    simp only [simulateCombatTick, simulateCombatTickLocals, List.mem_append,
      List.mem_singleton] at hl
    rcases hl with ((hl | hl) | hl) | hl
    · split at hl <;> simp at hl
    · simp at hl
    · split at hl <;> simp at hl
    · split at hl <;> simp at hl

/-- The panic-eat step adds neither the defeat line nor the forced-stop line. -/
theorem panicEat_log_not_final (foodName : String) (healthPerFood maxHealth : ℚ)
    (s s' : FoodCombatState) (h : panicEat foodName healthPerFood maxHealth s = some s') :
    (LogLine.defeated ∈ s'.fullLog ↔ LogLine.defeated ∈ s.fullLog) ∧
    (LogLine.maxTicks ∈ s'.fullLog ↔ LogLine.maxTicks ∈ s.fullLog) := by
  obtain ⟨lines, hlog, hlines⟩ := panicEat_log foodName healthPerFood maxHealth s s' h
  rw [hlog]
  constructor
  · simp only [List.mem_append, or_iff_left_iff_imp]
    intro hmem
    have := hlines _ hmem
    simp [LogLine.isPanicEat] at this
  · simp only [List.mem_append, or_iff_left_iff_imp]
    intro hmem
    have := hlines _ hmem
    simp [LogLine.isPanicEat] at this

/-- The outer loop of `simulateFullCombatWithFood` logs the defeat line exactly when
it is left below the tick cap, then with health at most 0, and never logs the
forced-stop line itself. -/
theorem foodLoop_final_lines (sd : Option SkillsData) (ps : PlayerState) (rand : ℕ → ℚ)
    (foodName : String) (healthPerFood maxHealth : ℚ) :
    ∀ (fuel : ℕ) (s s' : FoodCombatState),
      foodLoop sd ps rand foodName healthPerFood maxHealth fuel s = some s' →
      LogLine.defeated ∉ s.fullLog → LogLine.maxTicks ∉ s.fullLog →
      (LogLine.defeated ∈ s'.fullLog ↔ s'.ticksSurvived < MAX_TICKS) ∧
      (s'.ticksSurvived < MAX_TICKS → s'.tempCurrentHealth ≤ 0) ∧
      LogLine.maxTicks ∉ s'.fullLog := by
  intro fuel
  induction fuel with
  | zero => intro s s' h; simp [foodLoop] at h
  | succ fuel ih =>
    intro s s' h hd hm
    unfold foodLoop at h
    by_cases hc : s.ticksSurvived < MAX_TICKS
    · obtain ⟨s1, hs1, ht1, -, -, -⟩ := panicEat_returns foodName healthPerFood maxHealth s
      obtain ⟨hd1, hm1⟩ := panicEat_log_not_final foodName healthPerFood maxHealth s s1 hs1
      simp only [hc, if_true, hs1] at h
      by_cases hdead : s1.tempCurrentHealth ≤ 0
      · simp only [hdead, if_true, Option.some.injEq] at h
        subst h
        refine ⟨?_, fun _ => hdead, ?_⟩
        · simp only [List.mem_append, List.mem_singleton, or_true, true_iff, ht1]
          exact hc
        · simp only [List.mem_append, List.mem_singleton, not_or]
          exact ⟨fun hmem => hm (hm1.mp hmem), by simp⟩
      · simp only [hdead, if_false] at h
        obtain ⟨htd, htm⟩ := simulateCombatTick_log_not_final sd ps (rand s1.drawsUsed)
          (rand (s1.drawsUsed + 1)) (rand (s1.drawsUsed + 2))
        refine ih _ s' h ?_ ?_
        · simp only [foodTick, List.mem_append, List.mem_singleton, not_or]
          exact ⟨⟨fun hmem => hd (hd1.mp hmem), by simp⟩, htd⟩
        · simp only [foodTick, List.mem_append, List.mem_singleton, not_or]
          exact ⟨⟨fun hmem => hm (hm1.mp hmem), by simp⟩, htm⟩
    · simp only [hc, if_false, Option.some.injEq] at h
      subst h
      exact ⟨⟨fun hmem => absurd hmem hd, fun hlt => absurd hlt hc⟩,
        fun hlt => absurd hlt hc, hm⟩

/-- The two final lines of the log of `simulateFullCombatWithFood`: the defeat line
is logged exactly when fewer than 2000 ticks were resolved (the loop was then
left with health at most 0), and the forced-stop line exactly when 2000 ticks
were resolved, whatever the health then is. -/
theorem simulateFullCombatWithFood_final_lines (sd : Option SkillsData) (ps : PlayerState)
    (foodName : String) (flatStats : FlatStats) (rand : ℕ → ℚ) :
    ∃ r, simulateFullCombatWithFood sd ps
          (some { name := foodName, flatStats := some flatStats }) rand = Except.ok r ∧
      (LogLine.defeated ∈ r.log ↔ r.ticksSurvived < 2000) ∧
      (LogLine.maxTicks ∈ r.log ↔ r.ticksSurvived = 2000) ∧
      (r.ticksSurvived < 2000 → r.finalHealth = 0) := by
  obtain ⟨s', hs', -, hle⟩ := foodLoop_returns sd ps rand foodName
    (orZero flatStats.healthRegen) (maxHealthFromSkills sd ps) (MAX_TICKS + 1)
    { totalDamageDealt := 0, ticksSurvived := 0,
      fullLog := [LogLine.started foodName (orZero flatStats.healthRegen)],
      tempCurrentHealth := ps.currentHealth,
      tempCurrentHunger := ps.currentHunger, drawsUsed := 0 }
    (by simp)
  have hcap : s'.ticksSurvived ≤ 2000 := hle (by simp)
  obtain ⟨hdef, hdead, hmax⟩ := foodLoop_final_lines sd ps rand foodName _ _ _ _ s' hs'
    (by simp) (by simp)
  simp only [MAX_TICKS] at hdef hdead
  refine ⟨_, simulateFullCombatWithFood_of_run sd ps foodName flatStats rand s' hs', ?_, ?_, ?_⟩
  · show LogLine.defeated ∈ (if s'.ticksSurvived ≥ MAX_TICKS
        then s'.fullLog ++ [LogLine.maxTicks] else s'.fullLog) ↔ s'.ticksSurvived < 2000
    split
    · simp only [List.mem_append, List.mem_singleton]
      constructor
      · rintro (hmem | hmem)
        · exact hdef.mp hmem
        · exact absurd hmem (by simp)
      · intro hlt; exact Or.inl (hdef.mpr hlt)
    · exact hdef
  · show LogLine.maxTicks ∈ (if s'.ticksSurvived ≥ MAX_TICKS
        then s'.fullLog ++ [LogLine.maxTicks] else s'.fullLog) ↔ s'.ticksSurvived = 2000
    by_cases hge : s'.ticksSurvived ≥ MAX_TICKS
    · simp only [hge, if_true, List.mem_append, List.mem_singleton, or_true, true_iff]
      simp only [MAX_TICKS] at hge
      omega
    · simp only [hge, if_false]
      simp only [MAX_TICKS] at hge
      constructor
      · intro hmem; exact absurd hmem hmax
      · intro heq; omega
  · intro hlt
    exact max_eq_left (hdead hlt)

/-- Evaluation for C23 on `halfDodgeBuild` (health 50, dodge 50) with `noRegenFood`
and the draws `lateHitDraws`: the first 1995 attacks are dodged and the last five
take the health to 0 on tick 2000; the run ends with health 0, its log has the
forced-stop line and no defeat line. -/
theorem simulateFullCombatWithFood_defeat_at_cap :
    ∃ r, simulateFullCombatWithFood none halfDodgeBuild
          (some { name := "Water", flatStats := some { healthRegen := some 0 } })
          lateHitDraws = Except.ok r ∧
      r.ticksSurvived = 2000 ∧ r.finalHealth = 0 ∧
      LogLine.defeated ∉ r.log ∧ LogLine.maxTicks ∈ r.log := by
  obtain ⟨r, hr, hdef, hmax, -⟩ := simulateFullCombatWithFood_final_lines none halfDodgeBuild
    "Water" { healthRegen := some 0 } lateHitDraws
  have heval : (simulateFullCombatWithFood none halfDodgeBuild
      (some { name := "Water", flatStats := some { healthRegen := some 0 } })
      lateHitDraws).toOption.map (fun r => (r.ticksSurvived, r.finalHealth)) =
      some (2000, 0) := by decide!
  rw [hr] at heval
  simp only [Except.toOption, Option.map_some', Option.some.injEq, Prod.mk.injEq] at heval
  refine ⟨r, hr, heval.1, heval.2, ?_, hmax.mpr heval.1⟩
  intro hmem
  have := hdef.mp hmem
  omega

/-- Claim C24: in `simulateCombatTick`, `healthLost` and `wasDodge` are the same in
two calls that agree on the dodge total, the armor total and the first draw, and
`finalDamageDealt`, `wasHit` and `wasCritical` are the same in two calls that
agree on the attack, precision, criticalChance and criticalDamages totals and on
the second and third draws, whatever the other inputs are. -/
theorem simulateCombatTick_noninterference (sd sd' : Option SkillsData) (ps ps' : PlayerState)
    (r1 r2 r3 r1' r2' r3' : ℚ) :
    ((calculateStatDetails sd ps "dodge").total = (calculateStatDetails sd' ps' "dodge").total →
      (calculateStatDetails sd ps "armor").total = (calculateStatDetails sd' ps' "armor").total →
      r1 = r1' →
      (simulateCombatTick sd ps r1 r2 r3).healthLost =
        (simulateCombatTick sd' ps' r1' r2' r3').healthLost ∧
      (simulateCombatTick sd ps r1 r2 r3).wasDodge =
        (simulateCombatTick sd' ps' r1' r2' r3').wasDodge) ∧
    ((calculateStatDetails sd ps "attack").total = (calculateStatDetails sd' ps' "attack").total →
      (calculateStatDetails sd ps "precision").total =
        (calculateStatDetails sd' ps' "precision").total →
      (calculateStatDetails sd ps "criticalChance").total =
        (calculateStatDetails sd' ps' "criticalChance").total →
      (calculateStatDetails sd ps "criticalDamages").total =
        (calculateStatDetails sd' ps' "criticalDamages").total →
      r2 = r2' → r3 = r3' →
      (simulateCombatTick sd ps r1 r2 r3).finalDamageDealt =
        (simulateCombatTick sd' ps' r1' r2' r3').finalDamageDealt ∧
      (simulateCombatTick sd ps r1 r2 r3).wasHit =
        (simulateCombatTick sd' ps' r1' r2' r3').wasHit ∧
      (simulateCombatTick sd ps r1 r2 r3).wasCritical =
        (simulateCombatTick sd' ps' r1' r2' r3').wasCritical) := by
  constructor
  · intro hd ha h1
    simp only [simulateCombatTick, simulateCombatTickLocals, hd, ha, h1, and_self]
  · intro hat hp hcc hcd h2 h3
    simp only [simulateCombatTick, simulateCombatTickLocals, hat, hp, hcc, hcd, h2, h3, and_self]

/-- Witness of C24: `plainBuild` and `critBuild` agree on the dodge and armor totals
and differ in the outgoing stats, so with the same first draw their ticks lose
the same health while they deal different damage; `plainBuild` and
`armoredPlainBuild` agree on the four outgoing totals and differ in armor, so
with the same second and third draws they deal the same damage while they lose
different health. -/
theorem simulateCombatTick_noninterference_witness :
    ((simulateCombatTick none plainBuild (1 / 2) 0 0).healthLost =
        (simulateCombatTick none critBuild (1 / 2) (3 / 4) (3 / 4)).healthLost ∧
      (simulateCombatTick none plainBuild (1 / 2) 0 0).wasDodge =
        (simulateCombatTick none critBuild (1 / 2) (3 / 4) (3 / 4)).wasDodge) ∧
    (simulateCombatTick none plainBuild (1 / 2) 0 0).finalDamageDealt ≠
      (simulateCombatTick none critBuild (1 / 2) (3 / 4) (3 / 4)).finalDamageDealt ∧
    ((simulateCombatTick none plainBuild 0 (1 / 2) (1 / 2)).finalDamageDealt =
        (simulateCombatTick none armoredPlainBuild (3 / 4) (1 / 2) (1 / 2)).finalDamageDealt ∧
      (simulateCombatTick none plainBuild 0 (1 / 2) (1 / 2)).wasHit =
        (simulateCombatTick none armoredPlainBuild (3 / 4) (1 / 2) (1 / 2)).wasHit ∧
      (simulateCombatTick none plainBuild 0 (1 / 2) (1 / 2)).wasCritical =
        (simulateCombatTick none armoredPlainBuild (3 / 4) (1 / 2) (1 / 2)).wasCritical) ∧
    (simulateCombatTick none plainBuild 0 (1 / 2) (1 / 2)).healthLost ≠
      (simulateCombatTick none armoredPlainBuild (3 / 4) (1 / 2) (1 / 2)).healthLost :=
  ⟨(simulateCombatTick_noninterference none none plainBuild critBuild
      (1 / 2) 0 0 (1 / 2) (3 / 4) (3 / 4)).1 (by decide!) (by decide!) rfl,
    by decide!,
    (simulateCombatTick_noninterference none none plainBuild armoredPlainBuild
      0 (1 / 2) (1 / 2) (3 / 4) (1 / 2) (1 / 2)).2
      (by decide!) (by decide!) (by decide!) (by decide!) rfl rfl,
    by decide!⟩

/-! ### Hunger and health balance of a run -/

/-- The consumption cycle as a balance: it logs some number `k` of consumed foods,
the hunger goes down by `k` and the health up by `k` times `healthPerFood`. -/
theorem eatLoop_balance (foodName : String) (healthPerFood maxHealth : ℚ) :
    ∀ (fuel : ℕ) (s s' : FoodCombatState),
      eatLoop foodName healthPerFood maxHealth fuel s = some s' →
      ∃ k : ℕ, s'.fullLog.countP LogLine.isAte = s.fullLog.countP LogLine.isAte + k ∧
        s'.tempCurrentHunger = s.tempCurrentHunger - k ∧
        s'.tempCurrentHealth = s.tempCurrentHealth + k * healthPerFood := by
  intro fuel
  induction fuel with
  | zero => intro s s' h; simp [eatLoop] at h
  | succ fuel ih =>
    intro s s' h
    unfold eatLoop at h
    by_cases hg : s.tempCurrentHunger > 0 ∧ s.tempCurrentHealth ≤ INCOMING_DAMAGE_PER_TICK
    · by_cases hm : s.tempCurrentHealth ≥ maxHealth
      · simp only [hg, hm, and_self, if_true, Option.some.injEq] at h
        subst h
        exact ⟨0, by simp [List.countP_append, List.countP_cons, LogLine.isAte], by simp,
          by simp⟩
      · simp only [hg, hm, and_self, if_true, if_false] at h
        obtain ⟨k, hk0, hk1, hk2⟩ := ih _ s' h
        simp only [List.countP_append] at hk0
        have hone : List.countP LogLine.isAte
            [LogLine.ate foodName healthPerFood (toFixed 1 s.tempCurrentHealth)
              (toFixed 1 (s.tempCurrentHealth + healthPerFood)) (s.tempCurrentHunger - 1)] = 1 := by
          simp [List.countP_cons, LogLine.isAte]
        rw [hone] at hk0
        refine ⟨k + 1, by omega, ?_, ?_⟩
        · rw [hk1]; push_cast; ring
        · rw [hk2]; push_cast; ring
    · simp only [hg, if_false, Option.some.injEq] at h
      subst h
      exact ⟨0, by simp, by simp, by simp⟩

/-- The panic-eat step as a balance: it logs some number `k` of consumed foods, the
hunger goes down by `k` and the health up by `k` times `healthPerFood`. -/
theorem panicEat_balance (foodName : String) (healthPerFood maxHealth : ℚ)
    (s s' : FoodCombatState) (h : panicEat foodName healthPerFood maxHealth s = some s') :
    ∃ k : ℕ, s'.fullLog.countP LogLine.isAte = s.fullLog.countP LogLine.isAte + k ∧
      s'.tempCurrentHunger = s.tempCurrentHunger - k ∧
      s'.tempCurrentHealth = s.tempCurrentHealth + k * healthPerFood := by
  unfold panicEat at h
  split at h
  · obtain ⟨k, hk0, hk1, hk2⟩ := eatLoop_balance foodName healthPerFood maxHealth _ _ s' h
    refine ⟨k, ?_, hk1, hk2⟩
    rw [hk0]
    simp [List.countP_append, List.countP_cons, LogLine.isAte]
  · simp only [Option.some.injEq] at h
    subst h
    exact ⟨0, by simp, by simp, by simp⟩

/-- The log of a combat tick has no line of a consumed food. -/
theorem simulateCombatTick_log_countP_isAte (sd : Option SkillsData) (ps : PlayerState)
    (r1 r2 r3 : ℚ) :
    (simulateCombatTick sd ps r1 r2 r3).log.countP LogLine.isAte = 0 := by
  rw [List.countP_eq_zero]
  intro l hl
  have h := simulateCombatTick_log_not_panicEat sd ps r1 r2 r3 l hl
  cases l <;> simp_all [LogLine.isPanicEat, LogLine.isAte]

/-- Balance of the outer loop of `simulateFullCombatWithFood`: the hunger plus the
number of consumed foods logged, and the health plus the health lost in the
ticks resolved minus the health gained from the consumed foods, are the same
when the loop is left as when it is entered. -/
theorem foodLoop_balance (sd : Option SkillsData) (ps : PlayerState) (rand : ℕ → ℚ)
    (foodName : String) (healthPerFood maxHealth : ℚ) :
    ∀ (fuel : ℕ) (s s' : FoodCombatState),
      foodLoop sd ps rand foodName healthPerFood maxHealth fuel s = some s' →
      s.drawsUsed = 3 * s.ticksSurvived →
      s'.tempCurrentHunger + s'.fullLog.countP LogLine.isAte =
        s.tempCurrentHunger + s.fullLog.countP LogLine.isAte ∧
      s'.tempCurrentHealth +
          ∑ j in Finset.range s'.ticksSurvived, (tickAt sd ps rand j).healthLost -
          s'.fullLog.countP LogLine.isAte * healthPerFood =
        s.tempCurrentHealth +
          ∑ j in Finset.range s.ticksSurvived, (tickAt sd ps rand j).healthLost -
          s.fullLog.countP LogLine.isAte * healthPerFood := by
  intro fuel
  induction fuel with
  | zero => intro s s' h; simp [foodLoop] at h
  | succ fuel ih =>
    intro s s' h hd
    unfold foodLoop at h
    by_cases hc : s.ticksSurvived < MAX_TICKS
    · obtain ⟨s1, hs1, ht1, -, hd1, -⟩ := panicEat_returns foodName healthPerFood maxHealth s
      obtain ⟨k, hk0, hk1, hk2⟩ := panicEat_balance foodName healthPerFood maxHealth s s1 hs1
      simp only [hc, if_true, hs1] at h
      have e1 : s1.tempCurrentHunger + s1.fullLog.countP LogLine.isAte =
          s.tempCurrentHunger + s.fullLog.countP LogLine.isAte := by
        rw [hk0, hk1]; push_cast; ring
      have e2 : s1.tempCurrentHealth +
            ∑ j in Finset.range s1.ticksSurvived, (tickAt sd ps rand j).healthLost -
            s1.fullLog.countP LogLine.isAte * healthPerFood =
          s.tempCurrentHealth +
            ∑ j in Finset.range s.ticksSurvived, (tickAt sd ps rand j).healthLost -
            s.fullLog.countP LogLine.isAte * healthPerFood := by
        rw [hk0, hk2, ht1]; push_cast; ring
      by_cases hdead : s1.tempCurrentHealth ≤ 0
      · simp only [hdead, if_true, Option.some.injEq] at h
        subst h
        have hcount : (s1.fullLog ++ [LogLine.defeated]).countP LogLine.isAte =
            s1.fullLog.countP LogLine.isAte := by
          simp [List.countP_append, List.countP_cons, LogLine.isAte]
        simp only [hcount]
        exact ⟨e1, e2⟩
      · simp only [hdead, if_false] at h
        have htick : simulateCombatTick sd ps (rand s1.drawsUsed) (rand (s1.drawsUsed + 1))
            (rand (s1.drawsUsed + 2)) = tickAt sd ps rand s1.ticksSurvived := by
          simp only [tickAt, hd1, ht1, hd]
        obtain ⟨i1, i2⟩ := ih _ s' h (by simp only [foodTick, hd1, ht1, hd]; ring)
        have hcount : (foodTick sd ps rand s1).fullLog.countP LogLine.isAte =
            s1.fullLog.countP LogLine.isAte := by
          simp [foodTick, List.countP_append, List.countP_cons, LogLine.isAte,
            simulateCombatTick_log_countP_isAte]
        have hhunger : (foodTick sd ps rand s1).tempCurrentHunger = s1.tempCurrentHunger := rfl
        have hticks : (foodTick sd ps rand s1).ticksSurvived = s1.ticksSurvived + 1 := rfl
        have hhealth : (foodTick sd ps rand s1).tempCurrentHealth =
            s1.tempCurrentHealth - (tickAt sd ps rand s1.ticksSurvived).healthLost := by
          simp only [foodTick, htick]
        rw [hcount, hhunger] at i1
        rw [hcount, hticks, hhealth, Finset.sum_range_succ] at i2
        refine ⟨i1.trans e1, ?_⟩
        rw [i2, ← e2]; ring
    · simp only [hc, if_false, Option.some.injEq] at h
      subst h
      exact ⟨rfl, rfl⟩

/-- Claim C25: a run of `simulateFullCombatWithFood` that logs `k` consumed foods
returns `finalHunger` equal to the initial hunger minus `k`, and `finalHealth`
equal to the maximum of 0 and the initial health plus `k` times `healthRegen`
minus the `healthLost` of all the ticks resolved. -/
theorem simulateFullCombatWithFood_balance (sd : Option SkillsData) (ps : PlayerState)
    (foodName : String) (flatStats : FlatStats) (rand : ℕ → ℚ) :
    ∃ r, simulateFullCombatWithFood sd ps
          (some { name := foodName, flatStats := some flatStats }) rand = Except.ok r ∧
      r.finalHunger = ps.currentHunger - r.log.countP LogLine.isAte ∧
      r.finalHealth =
        max 0 (ps.currentHealth + r.log.countP LogLine.isAte * orZero flatStats.healthRegen -
          ∑ j in Finset.range r.ticksSurvived, (tickAt sd ps rand j).healthLost) := by
  obtain ⟨s', hs', -, -⟩ := foodLoop_returns sd ps rand foodName
    (orZero flatStats.healthRegen) (maxHealthFromSkills sd ps) (MAX_TICKS + 1)
    { totalDamageDealt := 0, ticksSurvived := 0,
      fullLog := [LogLine.started foodName (orZero flatStats.healthRegen)],
      tempCurrentHealth := ps.currentHealth,
      tempCurrentHunger := ps.currentHunger, drawsUsed := 0 }
    (by simp)
  obtain ⟨b1, b2⟩ := foodLoop_balance sd ps rand foodName _ _ _ _ s' hs' rfl
  simp only [List.countP_cons, LogLine.isAte, List.countP_nil, Finset.range_zero,
    Finset.sum_empty] at b1 b2
  have hcount : (if s'.ticksSurvived ≥ MAX_TICKS then s'.fullLog ++ [LogLine.maxTicks]
      else s'.fullLog).countP LogLine.isAte = s'.fullLog.countP LogLine.isAte := by
    split
    · simp [List.countP_append, List.countP_cons, LogLine.isAte]
    · rfl
  refine ⟨_, simulateFullCombatWithFood_of_run sd ps foodName flatStats rand s' hs', ?_, ?_⟩
  · show s'.tempCurrentHunger = ps.currentHunger - _
    rw [hcount]
    simp at b1
    linarith
  · show max 0 s'.tempCurrentHealth = max 0 _
    rw [hcount]
    congr 1
    simp at b2
    linarith

/-- Evaluation of C25 on `lowHealthBuild` (health 15, hunger 10) with `breadFood`
(20 health per food) and the constant draw 0: 10 foods are logged, 22 ticks of 10
are lost, and the run ends with hunger `10 − 10` and health `max 0 (15 + 200 − 220)`. -/
theorem simulateFullCombatWithFood_balance_witness :
    (∃ r, simulateFullCombatWithFood none lowHealthBuild
          (some { name := "Bread", flatStats := some { healthRegen := some 20 } })
          (fun _ => 0) = Except.ok r ∧
      r.finalHunger = lowHealthBuild.currentHunger - r.log.countP LogLine.isAte ∧
      r.finalHealth =
        max 0 (lowHealthBuild.currentHealth +
          r.log.countP LogLine.isAte * orZero (some (20 : ℚ)) -
          ∑ j in Finset.range r.ticksSurvived,
            (tickAt none lowHealthBuild (fun _ => 0) j).healthLost)) ∧
    (simulateFullCombatWithFood none lowHealthBuild (some breadFood) (fun _ => 0)).toOption.map
      (fun r => (r.log.countP LogLine.isAte, r.ticksSurvived, r.finalHunger, r.finalHealth)) =
      some (10, 22, 0, 0) :=
  ⟨simulateFullCombatWithFood_balance none lowHealthBuild "Bread" { healthRegen := some 20 }
    (fun _ => 0), by decide!⟩

/-! ### No revival by the panic-eat step -/

/-- Rounding to one decimal place keeps a number of `[0, 10]` in `[0, 10]`. -/
theorem toFixed_one_mem_Icc (x : ℚ) (h0 : 0 ≤ x) (h10 : x ≤ 10) :
    0 ≤ toFixed 1 x ∧ toFixed 1 x ≤ 10 := by
  unfold toFixed
  rw [if_neg (not_lt.mpr h0)]
  have hfloor0 : (0 : ℤ) ≤ ⌊x * 10 ^ 1 + 1 / 2⌋ := Int.floor_nonneg.mpr (by linarith)
  have hfloor100 : ⌊x * 10 ^ 1 + 1 / 2⌋ ≤ (100 : ℤ) := by
    have : ⌊x * 10 ^ 1 + 1 / 2⌋ < (101 : ℤ) := by
      rw [Int.floor_lt]; push_cast; linarith
    omega
  have c0 : (0 : ℚ) ≤ (⌊x * 10 ^ 1 + 1 / 2⌋ : ℤ) := by exact_mod_cast hfloor0
  have c100 : ((⌊x * 10 ^ 1 + 1 / 2⌋ : ℤ) : ℚ) ≤ 100 := by exact_mod_cast hfloor100
  constructor
  · positivity
  · rw [div_le_iff₀ (by norm_num)]; linarith

/-- With an armor total in `[0, 100]`, a combat tick loses at most 10 health. -/
theorem simulateCombatTick_healthLost_le (sd : Option SkillsData) (ps : PlayerState)
    (r1 r2 r3 : ℚ)
    (h0 : 0 ≤ (calculateStatDetails sd ps "armor").total)
    (h100 : (calculateStatDetails sd ps "armor").total ≤ 100) :
    (simulateCombatTick sd ps r1 r2 r3).healthLost ≤ 10 := by
  simp only [simulateCombatTick, simulateCombatTickLocals]
  split
  · rw [toFixed_zero]; norm_num
  · exact (toFixed_one_mem_Icc _ (by linarith) (by linarith)).2

/-- With a positive `healthPerFood` and a `maxHealth` above 10, the panic-eat step
is left with the health above 10 or with no hunger left. -/
theorem panicEat_clears_or_starves (foodName : String) (healthPerFood maxHealth : ℚ)
    (s s' : FoodCombatState) (hregen : 0 < healthPerFood) (hmax : 10 < maxHealth)
    (h : panicEat foodName healthPerFood maxHealth s = some s') :
    10 < s'.tempCurrentHealth ∨ s'.tempCurrentHunger ≤ 0 := by
  unfold panicEat at h
  by_cases hg : s.tempCurrentHealth ≤ INCOMING_DAMAGE_PER_TICK ∧ s.tempCurrentHunger > 0 ∧
      healthPerFood > 0
  · simp only [hg, and_self, if_true] at h
    obtain ⟨s'', hs'', -, -, -, -, hex⟩ := eatLoop_returns foodName healthPerFood maxHealth
      (eatFuel s.tempCurrentHunger)
      { s with fullLog := s.fullLog ++ [LogLine.criticalHealth (toFixed 1 s.tempCurrentHealth)] }
      (by simp [eatFuel])
    rw [h, Option.some.injEq] at hs''
    subst hs''
    rcases hex with hex | hex
    · rcases not_and_or.mp hex with h1 | h1
      · exact Or.inr (not_lt.mp h1)
      · simp only [INCOMING_DAMAGE_PER_TICK] at h1
        exact Or.inl (not_le.mp h1)
    · exact Or.inl (lt_of_lt_of_le hmax hex)
  · simp only [hg, if_false, Option.some.injEq] at h
    subst h
    rcases not_and_or.mp hg with h1 | h1
    · simp only [INCOMING_DAMAGE_PER_TICK] at h1
      exact Or.inl (not_le.mp h1)
    · rcases not_and_or.mp h1 with h2 | h2
      · exact Or.inr (not_lt.mp h2)
      · exact absurd hregen h2

/-- The states at the heads of the iterations are the states the loop goes through:
from the head of iteration `i` the loop returns what it returns from its start,
with `i` units of fuel less. -/
theorem foodLoop_of_foodLoopHead (sd : Option SkillsData) (ps : PlayerState) (rand : ℕ → ℚ)
    (foodName : String) (healthPerFood maxHealth : ℚ) :
    ∀ (i : ℕ) (s si : FoodCombatState),
      foodLoopHead sd ps rand foodName healthPerFood maxHealth i s = some si →
      si.ticksSurvived = s.ticksSurvived + i ∧
      ∀ fuel, foodLoop sd ps rand foodName healthPerFood maxHealth (fuel + i) s =
        foodLoop sd ps rand foodName healthPerFood maxHealth fuel si := by
  intro i
  induction i with
  | zero =>
    intro s si h
    simp only [foodLoopHead, Option.some.injEq] at h
    subst h
    exact ⟨rfl, fun fuel => rfl⟩
  | succ i ih =>
    intro s si h
    unfold foodLoopHead at h
    cases hstep : foodLoopStep sd ps rand foodName healthPerFood maxHealth s with
    | none => simp [hstep] at h
    | some s1 =>
      simp only [hstep] at h
      obtain ⟨ht, hloop⟩ := ih s1 si h
      unfold foodLoopStep at hstep
      by_cases hc : s.ticksSurvived < MAX_TICKS
      · simp only [hc, if_true] at hstep
        cases hp : panicEat foodName healthPerFood maxHealth s with
        | none => simp [hp] at hstep
        | some s2 =>
          simp only [hp] at hstep
          by_cases hdead : s2.tempCurrentHealth ≤ 0
          · simp [hdead] at hstep
          · simp only [hdead, if_false, Option.some.injEq] at hstep
            obtain ⟨s2', hs2', ht2, -⟩ := panicEat_returns foodName healthPerFood maxHealth s
            rw [hp, Option.some.injEq] at hs2'
            subst hs2'
            refine ⟨?_, fun fuel => ?_⟩
            · rw [ht, ← hstep]
              simp only [foodTick, ht2]; omega
            · rw [← hloop fuel, show fuel + (i + 1) = (fuel + i) + 1 from by omega]
              conv_lhs => unfold foodLoop
              simp only [hc, if_true, hp, hdead, if_false, hstep]
      · simp [hc] at hstep

/-- With a positive `healthPerFood`, a `maxHealth` above 10 and an armor total in
`[0, 100]`, the property "the health is above 0 or no hunger is left" passes from
the head of an iteration of the outer loop to the head of the next one. -/
theorem foodLoopStep_safe (sd : Option SkillsData) (ps : PlayerState) (rand : ℕ → ℚ)
    (foodName : String) (healthPerFood maxHealth : ℚ) (s s1 : FoodCombatState)
    (hregen : 0 < healthPerFood) (hmax : 10 < maxHealth)
    (h0 : 0 ≤ (calculateStatDetails sd ps "armor").total)
    (h100 : (calculateStatDetails sd ps "armor").total ≤ 100)
    (hstep : foodLoopStep sd ps rand foodName healthPerFood maxHealth s = some s1) :
    0 < s1.tempCurrentHealth ∨ s1.tempCurrentHunger ≤ 0 := by
  unfold foodLoopStep at hstep
  by_cases hc : s.ticksSurvived < MAX_TICKS
  · simp only [hc, if_true] at hstep
    cases hp : panicEat foodName healthPerFood maxHealth s with
    | none => simp [hp] at hstep
    | some s2 =>
      simp only [hp] at hstep
      by_cases hdead : s2.tempCurrentHealth ≤ 0
      · simp [hdead] at hstep
      · simp only [hdead, if_false, Option.some.injEq] at hstep
        subst hstep
        have hlost := simulateCombatTick_healthLost_le sd ps (rand s2.drawsUsed)
          (rand (s2.drawsUsed + 1)) (rand (s2.drawsUsed + 2)) h0 h100
        rcases panicEat_clears_or_starves foodName healthPerFood maxHealth s s2 hregen hmax hp
          with hclear | hstarve
        · left
          simp only [foodTick]
          linarith
        · right
          exact hstarve
  · simp [hc] at hstep

/-- The property "the health is above 0 or no hunger is left" holds at the head of
every iteration of the outer loop when it holds at its start. -/
theorem foodLoopHead_safe (sd : Option SkillsData) (ps : PlayerState) (rand : ℕ → ℚ)
    (foodName : String) (healthPerFood maxHealth : ℚ)
    (hregen : 0 < healthPerFood) (hmax : 10 < maxHealth)
    (h0 : 0 ≤ (calculateStatDetails sd ps "armor").total)
    (h100 : (calculateStatDetails sd ps "armor").total ≤ 100) :
    ∀ (i : ℕ) (s si : FoodCombatState),
      (0 < s.tempCurrentHealth ∨ s.tempCurrentHunger ≤ 0) →
      foodLoopHead sd ps rand foodName healthPerFood maxHealth i s = some si →
      0 < si.tempCurrentHealth ∨ si.tempCurrentHunger ≤ 0 := by
  intro i
  induction i with
  | zero =>
    intro s si hsafe h
    simp only [foodLoopHead, Option.some.injEq] at h
    subst h
    exact hsafe
  | succ i ih =>
    intro s si hsafe h
    unfold foodLoopHead at h
    cases hstep : foodLoopStep sd ps rand foodName healthPerFood maxHealth s with
    | none => simp [hstep] at h
    | some s1 =>
      simp only [hstep] at h
      exact ih s1 si
        (foodLoopStep_safe sd ps rand foodName healthPerFood maxHealth s s1 hregen hmax h0 h100
          hstep) h

/-- Claim C26: with an initial health above 0, an armor total in `[0, 100]`, a
maximum health above 10 and a positive `healthRegen`, at the head of every
iteration of the outer loop of `simulateFullCombatWithFood` every food
consumption of the panic-eat step starts from a health above 0; a state with
health at most 0 is left as it is by the panic-eat step and ends the loop. -/
theorem simulateFullCombatWithFood_no_revival (sd : Option SkillsData) (ps : PlayerState)
    (foodName : String) (flatStats : FlatStats) (rand : ℕ → ℚ)
    (hhealth : 0 < ps.currentHealth)
    (harmor0 : 0 ≤ (calculateStatDetails sd ps "armor").total)
    (harmor100 : (calculateStatDetails sd ps "armor").total ≤ 100)
    (hmax : 10 < maxHealthFromSkills sd ps)
    (hregen : 0 < orZero flatStats.healthRegen) :
    ∀ (i : ℕ) (s : FoodCombatState),
      foodLoopHead sd ps rand foodName (orZero flatStats.healthRegen)
          (maxHealthFromSkills sd ps) i (foodCombatStart ps foodName flatStats) = some s →
      s.ticksSurvived = i ∧
      (∀ fuel, foodLoop sd ps rand foodName (orZero flatStats.healthRegen)
          (maxHealthFromSkills sd ps) (fuel + i) (foodCombatStart ps foodName flatStats) =
        foodLoop sd ps rand foodName (orZero flatStats.healthRegen)
          (maxHealthFromSkills sd ps) fuel s) ∧
      (∃ (s' : FoodCombatState) (k : ℕ),
        panicEat foodName (orZero flatStats.healthRegen) (maxHealthFromSkills sd ps) s =
          some s' ∧
        s'.tempCurrentHunger = s.tempCurrentHunger - k ∧
        s'.tempCurrentHealth = s.tempCurrentHealth + k * orZero flatStats.healthRegen ∧
        ∀ j : ℕ, j < k → 0 < s.tempCurrentHealth + j * orZero flatStats.healthRegen) ∧
      (s.tempCurrentHealth ≤ 0 →
        panicEat foodName (orZero flatStats.healthRegen) (maxHealthFromSkills sd ps) s =
          some s ∧
        foodLoopStep sd ps rand foodName (orZero flatStats.healthRegen)
          (maxHealthFromSkills sd ps) s = none) := by
  intro i s hhead
  obtain ⟨hticks, hloop⟩ := foodLoop_of_foodLoopHead sd ps rand foodName _ _ i _ s hhead
  have hsafe := foodLoopHead_safe sd ps rand foodName _ _ hregen hmax harmor0 harmor100 i
    (foodCombatStart ps foodName flatStats) s (Or.inl hhealth) hhead
  obtain ⟨s', k, hs', hk1, hk2, -, hk3⟩ := panicEat_events foodName
    (orZero flatStats.healthRegen) (maxHealthFromSkills sd ps) s
  refine ⟨by simpa [foodCombatStart] using hticks, hloop, ⟨s', k, hs', hk1, hk2, ?_⟩, ?_⟩
  · intro j hj
    obtain ⟨-, -, hhunger⟩ := hk3 j hj
    have hj0 : (0 : ℚ) ≤ j := Nat.cast_nonneg j
    have hpos : 0 < s.tempCurrentHealth := by
      rcases hsafe with h | h
      · exact h
      · linarith
    have : 0 ≤ (j : ℚ) * orZero flatStats.healthRegen := mul_nonneg hj0 (le_of_lt hregen)
    linarith
  · intro hdead
    have hstarve : s.tempCurrentHunger ≤ 0 := by
      rcases hsafe with h | h
      · exact absurd h (not_lt.mpr hdead)
      · exact h
    have hp : panicEat foodName (orZero flatStats.healthRegen) (maxHealthFromSkills sd ps) s =
        some s := by
      unfold panicEat
      have hg : ¬ (s.tempCurrentHealth ≤ INCOMING_DAMAGE_PER_TICK ∧ s.tempCurrentHunger > 0 ∧
          orZero flatStats.healthRegen > 0) := fun hg => absurd hg.2.1 (not_lt.mpr hstarve)
      simp only [hg, if_false]
    refine ⟨hp, ?_⟩
    unfold foodLoopStep
    simp only [hp, hdead, if_true, ite_self]

/-- Witness of C26 on `lowHealthBuild` (health 15, hunger 10, armor 0, maximum health
50) with 20 health per food: the head of iteration 1 has health 5, from which the
panic-eat step eats; the hypotheses hold there. -/
theorem simulateFullCombatWithFood_no_revival_witness :
    0 < lowHealthBuild.currentHealth ∧
    (10 : ℚ) < maxHealthFromSkills none lowHealthBuild ∧
    (foodLoopHead none lowHealthBuild (fun _ => 0) "Bread" 20 50 1
      (foodCombatStart lowHealthBuild "Bread" { healthRegen := some 20 })).map
      (fun s => (s.ticksSurvived, s.tempCurrentHealth, s.tempCurrentHunger)) = some (1, 5, 10) ∧
    ∀ s, foodLoopHead none lowHealthBuild (fun _ => 0) "Bread"
          (orZero (some (20 : ℚ))) (maxHealthFromSkills none lowHealthBuild) 1
          (foodCombatStart lowHealthBuild "Bread" { healthRegen := some 20 }) = some s →
      s.ticksSurvived = 1 ∧
      ∃ (s' : FoodCombatState) (k : ℕ),
        panicEat "Bread" (orZero (some (20 : ℚ))) (maxHealthFromSkills none lowHealthBuild) s =
          some s' ∧
        s'.tempCurrentHunger = s.tempCurrentHunger - k ∧
        s'.tempCurrentHealth = s.tempCurrentHealth + k * orZero (some (20 : ℚ)) ∧
        ∀ j : ℕ, j < k → 0 < s.tempCurrentHealth + j * orZero (some (20 : ℚ)) :=
  have hh : 0 < lowHealthBuild.currentHealth := by decide!
  have hm : (10 : ℚ) < maxHealthFromSkills none lowHealthBuild := by decide!
  ⟨hh, hm, by decide!, fun s hs =>
    have h := simulateFullCombatWithFood_no_revival none lowHealthBuild "Bread"
      { healthRegen := some 20 } (fun _ => 0) hh (by decide!) (by decide!) hm (by decide!) 1 s hs
    ⟨h.1, h.2.2.1⟩⟩

/-! ### Cumulative cost above the maximum level -/

/-- At every level of at least 10, `getSkillData` returns the level-10 entry. -/
theorem getSkillData_of_max_le (sd : Option SkillsData) (code : String) (level : Int)
    (h : 10 ≤ level) : getSkillData sd code level = getSkillData sd code 10 := by
  have hclamp : max MIN_SKILL_LEVEL (min MAX_SKILL_LEVEL level) =
      max MIN_SKILL_LEVEL (min MAX_SKILL_LEVEL 10) := by
    simp only [MIN_SKILL_LEVEL, MAX_SKILL_LEVEL]; omega
  unfold getSkillData
  simp only [hclamp]

/-- For a level of at least 1, the cumulative cost is the cumulative cost one level
below plus the contribution of the level. -/
theorem calculateCumulativeSkillCost_succ (sd : Option SkillsData) (code : String) (n : ℕ) :
    calculateCumulativeSkillCost sd code ((n : Int) + 1) =
      calculateCumulativeSkillCost sd code n + levelCost sd code ((n : Int) + 1) := by
  cases sd with
  | none => simp [calculateCumulativeSkillCost, levelCost, getSkillData]
  | some data =>
    cases hskills : data.skills with
    | none => simp [calculateCumulativeSkillCost, levelCost, getSkillData, hskills]
    | some skills =>
      cases hcode : skills code with
      | none => simp [calculateCumulativeSkillCost, levelCost, getSkillData, hskills, hcode]
      | some table =>
        have hnat : ((n : Int) + 1).toNat = n + 1 := by omega
        rw [calculateCumulativeSkillCost_of_known data skills table code _ hskills hcode
          (by omega), hnat, List.range_succ, List.foldl_append]
        simp only [List.foldl_cons, List.foldl_nil, cumulativeCostStep_eq]
        congr 1
        cases n with
        | zero =>
          simp [calculateCumulativeSkillCost, hskills, hcode, MIN_SKILL_LEVEL]
        | succ m =>
          rw [calculateCumulativeSkillCost_of_known data skills table code _ hskills hcode
            (by omega)]
          have : (((m + 1 : ℕ) : Int)).toNat = m + 1 := by omega
          rw [this]
          simp only [cumulativeCostStep_eq]

/-- The cumulative cost `m` levels above level 10 is the cumulative cost at level 10
plus `m` times the contribution of level 10. -/
theorem calculateCumulativeSkillCost_above_max (sd : Option SkillsData) (code : String) :
    ∀ m : ℕ, calculateCumulativeSkillCost sd code (10 + (m : Int)) =
      calculateCumulativeSkillCost sd code 10 + m * levelCost sd code 10 := by
  intro m
  induction m with
  | zero => simp
  | succ m ih =>
    have hstep := calculateCumulativeSkillCost_succ sd code (10 + m)
    have hlevel : levelCost sd code (((10 + m : ℕ) : Int) + 1) = levelCost sd code 10 := by
      unfold levelCost
      rw [getSkillData_of_max_le sd code _ (by omega)]
    have e1 : (10 : Int) + ((m + 1 : ℕ) : Int) = ((10 + m : ℕ) : Int) + 1 := by
      push_cast; ring
    have e2 : (((10 + m : ℕ)) : Int) = 10 + (m : Int) := by push_cast; ring
    rw [e1, hstep, hlevel, e2, ih]
    push_cast
    ring

/-- Claim C27: for every skill code and every integer level `N` above 10, the
cumulative cost at `N` is the cumulative cost at 10 plus `N − 10` times the cost
of the level-10 entry, each index above 10 being looked up as level 10. -/
theorem calculateCumulativeSkillCost_overflow (sd : Option SkillsData) (code : String)
    (N : Int) (hN : 10 < N) :
    calculateCumulativeSkillCost sd code N =
      calculateCumulativeSkillCost sd code 10 + ((N - 10 : Int) : ℚ) * levelCost sd code 10 ∧
    (∀ i : Int, 10 < i → getSkillData sd code i = getSkillData sd code 10) := by
  refine ⟨?_, fun i hi => getSkillData_of_max_le sd code i (le_of_lt hi)⟩
  obtain ⟨m, rfl⟩ : ∃ m : ℕ, N = 10 + (m : Int) := ⟨(N - 10).toNat, by omega⟩
  rw [calculateCumulativeSkillCost_above_max sd code m]
  congr 2
  push_cast
  ring

/-- Witness of C27 on `sampleCatalog`: the cumulative cost of `attack` is 55 at level
10, the level-10 entry costs 10, and the cumulative cost at level 12 is 75. -/
theorem calculateCumulativeSkillCost_overflow_witness :
    calculateCumulativeSkillCost sampleCatalog "attack" 12 =
      calculateCumulativeSkillCost sampleCatalog "attack" 10 +
        (((12 : Int) - 10 : Int) : ℚ) * levelCost sampleCatalog "attack" 10 ∧
    calculateCumulativeSkillCost sampleCatalog "attack" 10 = 55 ∧
    levelCost sampleCatalog "attack" 10 = 10 ∧
    calculateCumulativeSkillCost sampleCatalog "attack" 12 = 75 :=
  ⟨(calculateCumulativeSkillCost_overflow sampleCatalog "attack" 12 (by decide)).1,
    by decide!, by decide!, by decide!⟩

/-! ### The skill-point budget -/

/-- In a catalog with non-negative costs, the refund of a level is not negative. -/
theorem refund_nonneg (sd : Option SkillsData) (skillCode : String) (level : Int)
    (hcosts : nonNegativeCosts sd) :
    (0 : ℚ) ≤
      (match getSkillData sd skillCode level with
        | none => 0
        | some info => orZero info.cost) := by
  cases hget : getSkillData sd skillCode level with
  | none => simp
  | some info =>
    cases hcost : info.cost with
    | none => simp [orZero, hcost]
    | some cost => simpa [orZero, hcost] using hcosts skillCode level info cost hget hcost

/-- The budget part of the state after `handleSkillButtonClick`: the player level is
unchanged, the available and spent points keep their sum, and in a catalog with
non-negative costs the available points stay non-negative. -/
theorem handleSkillButtonClick_budget (sd : Option SkillsData) (skillCode action : String)
    (ps : PlayerState) :
    (handleSkillButtonClick sd skillCode action ps).playerLevel = ps.playerLevel ∧
    (handleSkillButtonClick sd skillCode action ps).skillPointsAvailable +
        (handleSkillButtonClick sd skillCode action ps).skillPointsSpent =
      ps.skillPointsAvailable + ps.skillPointsSpent ∧
    (nonNegativeCosts sd → 0 ≤ ps.skillPointsAvailable →
      0 ≤ (handleSkillButtonClick sd skillCode action ps).skillPointsAvailable) := by
  refine ⟨?_, ?_, ?_⟩
  · unfold handleSkillButtonClick
    simp only []
    repeat' split
    all_goals rfl
  · unfold handleSkillButtonClick
    simp only []
    repeat' split
    all_goals first | rfl | (simp only []; ring)
  · intro hcosts h0
    have hr := refund_nonneg sd skillCode (ps.assignedSkillLevels skillCode) hcosts
    unfold handleSkillButtonClick
    simp only []
    repeat' split
    all_goals first | exact h0 | (simp only []; linarith) | (simp_all; linarith)

/-- The function `handleLevelButtonClick` keeps the budget invariant. -/
theorem handleLevelButtonClick_budget (buttonId : String) (ps : PlayerState)
    (h : budgetInvariant ps) : budgetInvariant (handleLevelButtonClick buttonId ps) := by
  obtain ⟨h0, hsum, h1, h50⟩ := h
  simp only [SKILL_POINTS_PER_LEVEL] at hsum
  push_cast at hsum
  by_cases hplus : buttonId = "level-plus-btn"
  · by_cases hmax : ps.playerLevel = 50
    · have hnew : min (ps.playerLevel + 1) MAX_PLAYER_LEVEL = ps.playerLevel := by
        simp only [MAX_PLAYER_LEVEL]; omega
      simp only [handleLevelButtonClick, hplus, if_true, hnew, ne_eq, not_true_eq_false,
        if_false]
      exact ⟨h0, by simp only [SKILL_POINTS_PER_LEVEL]; push_cast; exact hsum, h1, h50⟩
    · have hnew : min (ps.playerLevel + 1) MAX_PLAYER_LEVEL = ps.playerLevel + 1 := by
        simp only [MAX_PLAYER_LEVEL]; omega
      have hne : ¬ ps.playerLevel + 1 = ps.playerLevel := by omega
      have hspent : ¬ ps.skillPointsSpent >
          (((ps.playerLevel + 1) * SKILL_POINTS_PER_LEVEL : Int) : ℚ) := by
        simp only [SKILL_POINTS_PER_LEVEL]; push_cast; linarith
      simp only [handleLevelButtonClick, hplus, if_true, hnew, ne_eq, hne, not_false_eq_true,
        hspent, if_false]
      refine ⟨?_, ?_, by show 1 ≤ ps.playerLevel + 1; omega,
        by show ps.playerLevel + 1 ≤ 50; omega⟩
      · show 0 ≤ ps.skillPointsAvailable +
          (((ps.playerLevel + 1) * SKILL_POINTS_PER_LEVEL -
            ps.playerLevel * SKILL_POINTS_PER_LEVEL : Int) : ℚ)
        simp only [SKILL_POINTS_PER_LEVEL]; push_cast; linarith
      · show ps.skillPointsAvailable +
          (((ps.playerLevel + 1) * SKILL_POINTS_PER_LEVEL -
            ps.playerLevel * SKILL_POINTS_PER_LEVEL : Int) : ℚ) + ps.skillPointsSpent =
          (((ps.playerLevel + 1) * SKILL_POINTS_PER_LEVEL : Int) : ℚ)
        simp only [SKILL_POINTS_PER_LEVEL]; push_cast; linarith
  · have haction : ¬ (if buttonId = "level-plus-btn" then "plus" else "minus") = "plus" := by
      simp only [hplus, if_false]; decide
    by_cases hmin : ps.playerLevel = 1
    · have hnew : max (ps.playerLevel - 1) MIN_PLAYER_LEVEL = ps.playerLevel := by
        simp only [MIN_PLAYER_LEVEL]; omega
      simp only [handleLevelButtonClick, haction, if_false, hnew, ne_eq, not_true_eq_false]
      exact ⟨h0, by simp only [SKILL_POINTS_PER_LEVEL]; push_cast; exact hsum, h1, h50⟩
    · have hnew : max (ps.playerLevel - 1) MIN_PLAYER_LEVEL = ps.playerLevel - 1 := by
        simp only [MIN_PLAYER_LEVEL]; omega
      have hne : ¬ ps.playerLevel - 1 = ps.playerLevel := by omega
      simp only [handleLevelButtonClick, haction, if_false, hnew, ne_eq, hne,
        not_false_eq_true, if_true]
      by_cases hspent : ps.skillPointsSpent >
          (((ps.playerLevel - 1) * SKILL_POINTS_PER_LEVEL : Int) : ℚ)
      · simp only [hspent, if_true]
        refine ⟨?_, ?_, by show 1 ≤ ps.playerLevel - 1; omega,
          by show ps.playerLevel - 1 ≤ 50; omega⟩
        · show (0 : ℚ) ≤ (((ps.playerLevel - 1) * SKILL_POINTS_PER_LEVEL : Int) : ℚ)
          simp only [SKILL_POINTS_PER_LEVEL]; push_cast
          have : (1 : ℚ) ≤ ps.playerLevel := by exact_mod_cast h1
          linarith
        · show (((ps.playerLevel - 1) * SKILL_POINTS_PER_LEVEL : Int) : ℚ) + 0 =
            (((ps.playerLevel - 1) * SKILL_POINTS_PER_LEVEL : Int) : ℚ)
          ring
      · simp only [hspent, if_false]
        have hspent' := not_lt.mp hspent
        simp only [SKILL_POINTS_PER_LEVEL] at hspent'
        push_cast at hspent'
        refine ⟨?_, ?_, by show 1 ≤ ps.playerLevel - 1; omega,
          by show ps.playerLevel - 1 ≤ 50; omega⟩
        · show 0 ≤ ps.skillPointsAvailable +
            (((ps.playerLevel - 1) * SKILL_POINTS_PER_LEVEL -
              ps.playerLevel * SKILL_POINTS_PER_LEVEL : Int) : ℚ)
          simp only [SKILL_POINTS_PER_LEVEL]; push_cast; linarith
        · show ps.skillPointsAvailable +
            (((ps.playerLevel - 1) * SKILL_POINTS_PER_LEVEL -
              ps.playerLevel * SKILL_POINTS_PER_LEVEL : Int) : ℚ) + ps.skillPointsSpent =
            (((ps.playerLevel - 1) * SKILL_POINTS_PER_LEVEL : Int) : ℚ)
          simp only [SKILL_POINTS_PER_LEVEL]; push_cast; linarith

/-- Every cost of `sampleCatalog` is a level number, so it is not negative. -/
theorem sampleCatalog_nonNegativeCosts : nonNegativeCosts sampleCatalog := by
  intro code level entry cost hget hcost
  have hlist : ∀ n ∈ (do let a ← List.range 11; pure (a : Int) : List Int), (0 : Int) ≤ n := by
    intro n hn
    simp only [List.bind_eq_flatMap, List.pure_def, List.mem_flatMap, List.mem_range,
      List.mem_singleton] at hn
    obtain ⟨a, -, rfl⟩ := hn
    exact Int.natCast_nonneg a
  have hentry : ∀ (f : Int → ℚ) (key : String) (l : List Int), (∀ n ∈ l, (0 : Int) ≤ n) →
      l.findSome? (fun n =>
        if key = toString n then
          some ({ value := f n, cost := some (n : ℚ), unlockAtLevel := some (n : ℚ) } :
            SkillLevelEntry)
        else none) = some entry → 0 ≤ cost := by
    intro f key l hl hfind
    obtain ⟨n, hmem, hn⟩ := List.exists_of_findSome?_eq_some hfind
    split at hn
    · simp only [Option.some.injEq] at hn
      rw [← hn] at hcost
      simp only [Option.some.injEq] at hcost
      rw [← hcost]
      exact_mod_cast hl n hmem
    · simp at hn
  simp only [sampleCatalog, getSkillData] at hget
  split at hget
  · simp at hget
  · rename_i table htable
    split at htable
    · simp only [Option.some.injEq] at htable
      rw [← htable] at hget
      exact hentry (fun n => 10 * n) _ _ hlist hget
    · split at htable
      · simp only [Option.some.injEq] at htable
        rw [← htable] at hget
        exact hentry (fun n => 50 + 10 * n) _ _ hlist hget
      · simp at htable

/-- Claim C28: the skill-point budget invariant holds after `initialize` has loaded a
catalog into the initial state and after `handleResetGame`, and it is kept by
`handleSkillButtonClick`, for every skill and action and every catalog with
non-negative costs, and by `handleLevelButtonClick`, for every button. -/
theorem budgetInvariant_preserved :
    (∀ (loaded : SkillsData),
      budgetInvariant (initializeApp (some loaded) none INITIAL_PLAYER_STATE).2) ∧
    (∀ (sd : Option SkillsData) (ps : PlayerState), budgetInvariant (handleResetGame sd ps)) ∧
    (∀ (sd : Option SkillsData) (skillCode action : String) (ps : PlayerState),
      nonNegativeCosts sd → budgetInvariant ps →
      budgetInvariant (handleSkillButtonClick sd skillCode action ps)) ∧
    (∀ (buttonId : String) (ps : PlayerState),
      budgetInvariant ps → budgetInvariant (handleLevelButtonClick buttonId ps)) := by
  refine ⟨?_, ?_, ?_, handleLevelButtonClick_budget⟩
  · intro loaded
    simp only [initializeApp, budgetInvariant, INITIAL_PLAYER_STATE, SKILL_POINTS_PER_LEVEL]
    norm_num
  · intro sd ps
    simp only [handleResetGame, resetPlayerState, budgetInvariant, INITIAL_PLAYER_STATE,
      SKILL_POINTS_PER_LEVEL]
    norm_num
  · intro sd skillCode action ps hcosts hinv
    obtain ⟨h0, hsum, h1, h50⟩ := hinv
    obtain ⟨hlevel, hkeep, hnonneg⟩ := handleSkillButtonClick_budget sd skillCode action ps
    exact ⟨hnonneg hcosts h0, by rw [hkeep, hlevel]; exact hsum, by rw [hlevel]; exact h1,
      by rw [hlevel]; exact h50⟩

/-- Witness of C28 on `sampleCatalog` and `maxedBuild` (level 50, 145 points available,
55 spent): the invariant holds there and after a click on the minus button of the
attack skill, which refunds 10 points, and after a click on the level minus
button, which leaves 141 points available. -/
theorem budgetInvariant_preserved_witness :
    nonNegativeCosts sampleCatalog ∧ budgetInvariant maxedBuild ∧
    budgetInvariant (handleSkillButtonClick sampleCatalog "attack" "minus" maxedBuild) ∧
    (handleSkillButtonClick sampleCatalog "attack" "minus" maxedBuild).skillPointsAvailable =
      155 ∧
    budgetInvariant (handleLevelButtonClick "level-minus-btn" maxedBuild) ∧
    (handleLevelButtonClick "level-minus-btn" maxedBuild).skillPointsAvailable = 141 :=
  have hinv : budgetInvariant maxedBuild := by decide!
  ⟨sampleCatalog_nonNegativeCosts, hinv,
    budgetInvariant_preserved.2.2.1 sampleCatalog "attack" "minus" maxedBuild
      sampleCatalog_nonNegativeCosts hinv,
    by decide!,
    budgetInvariant_preserved.2.2.2 "level-minus-btn" maxedBuild hinv,
    by decide!⟩

/-- Claim C29: a `plus` click on a skill that is at level 10, when the available
points cover the cost of the level-10 entry and the player level reaches its
`unlockAtLevel`, leaves the assigned level at 10 and moves the level-10 cost from
the available to the spent points; so there is a state in which the spent points
equal the sum of the cumulative costs of the assigned levels before the click
and differ from it after the click. -/
theorem handleSkillButtonClick_plus_at_max (sd : Option SkillsData) (skillCode : String)
    (ps : PlayerState) (entry : SkillLevelEntry) (cost unlockAtLevel : ℚ)
    (hlevel : ps.assignedSkillLevels skillCode = MAX_SKILL_LEVEL)
    (hentry : getSkillData sd skillCode 10 = some entry)
    (hcost : entry.cost = some cost) (hunlock : entry.unlockAtLevel = some unlockAtLevel)
    (havailable : ps.skillPointsAvailable ≥ cost)
    (hplayer : (ps.playerLevel : ℚ) ≥ unlockAtLevel) :
    (handleSkillButtonClick sd skillCode "plus" ps).assignedSkillLevels skillCode = 10 ∧
    (handleSkillButtonClick sd skillCode "plus" ps).skillPointsAvailable =
      ps.skillPointsAvailable - cost ∧
    (handleSkillButtonClick sd skillCode "plus" ps).skillPointsSpent =
      ps.skillPointsSpent + cost ∧
    (∃ (sd0 : Option SkillsData) (ps0 : PlayerState) (code : String),
      ps0.skillPointsSpent = totalCumulativeCost sd0 ps0 ∧
      (handleSkillButtonClick sd0 code "plus" ps0).skillPointsSpent ≠
        totalCumulativeCost sd0 (handleSkillButtonClick sd0 code "plus" ps0)) := by
  have hnext : min (ps.assignedSkillLevels skillCode + 1) MAX_SKILL_LEVEL = 10 := by
    rw [hlevel]; simp [MAX_SKILL_LEVEL]
  have hcond : ps.skillPointsAvailable ≥ cost ∧ (ps.playerLevel : ℚ) ≥ unlockAtLevel :=
    ⟨havailable, hplayer⟩
  refine ⟨?_, ?_, ?_, ⟨sampleCatalog, maxedBuild, "attack", by decide!, by decide!⟩⟩
  · unfold handleSkillButtonClick
    simp only [hnext, hentry, hcost, hunlock, hcond, and_self, if_true]
    repeat' split
    all_goals simp
  · unfold handleSkillButtonClick
    simp only [hnext, hentry, hcost, hunlock, hcond, and_self, if_true]
    repeat' split
    all_goals rfl
  · unfold handleSkillButtonClick
    simp only [hnext, hentry, hcost, hunlock, hcond, and_self, if_true]
    repeat' split
    all_goals rfl

/-- Witness of C29 on `sampleCatalog` and `maxedBuild` (attack at level 10, 145 points
available, 55 spent, which is the cumulative cost of level 10): after the click
the level is 10, 135 points are available and 65 are spent. -/
theorem handleSkillButtonClick_plus_at_max_witness :
    maxedBuild.skillPointsSpent = totalCumulativeCost sampleCatalog maxedBuild ∧
    (handleSkillButtonClick sampleCatalog "attack" "plus" maxedBuild).assignedSkillLevels
      "attack" = 10 ∧
    (handleSkillButtonClick sampleCatalog "attack" "plus" maxedBuild).skillPointsAvailable =
      maxedBuild.skillPointsAvailable - 10 ∧
    (handleSkillButtonClick sampleCatalog "attack" "plus" maxedBuild).skillPointsSpent =
      maxedBuild.skillPointsSpent + 10 ∧
    (handleSkillButtonClick sampleCatalog "attack" "plus" maxedBuild).skillPointsSpent = 65 ∧
    totalCumulativeCost sampleCatalog
      (handleSkillButtonClick sampleCatalog "attack" "plus" maxedBuild) = 55 :=
  have h := handleSkillButtonClick_plus_at_max sampleCatalog "attack" maxedBuild
    { value := 100, cost := some 10, unlockAtLevel := some 10 } 10 10
    (by decide!) (by decide!) rfl rfl (by decide!) (by decide!)
  ⟨by decide!, h.1, h.2.1, h.2.2.1, by decide!, by decide!⟩

/-! ## Binary64 arithmetic: the computed numbers -/

/-! ### Binary64 rounding -/

/-- The halving count `bitLengthAux fuel n` is the number of binary digits of `n` when
the fuel is at least `n`: `n < 2^k`, and `2^(k−1) ≤ n` for `n` other than 0. -/
theorem bitLengthAux_spec : ∀ (fuel n : ℕ), n ≤ fuel →
    n < 2 ^ bitLengthAux fuel n ∧ (n ≠ 0 → 2 ^ (bitLengthAux fuel n - 1) ≤ n ∧
      1 ≤ bitLengthAux fuel n) := by
  intro fuel
  induction fuel with
  | zero =>
    intro n hn
    have : n = 0 := by omega
    subst this
    simp [bitLengthAux]
  | succ fuel ih =>
    intro n hn
    unfold bitLengthAux
    by_cases h0 : n = 0
    · subst h0; simp
    · simp only [h0, if_false]
      have hhalf : n / 2 ≤ fuel := by omega
      obtain ⟨hlt, hge⟩ := ih (n / 2) hhalf
      refine ⟨?_, fun _ => ⟨?_, by omega⟩⟩
      · rw [pow_succ]; omega
      · simp only [Nat.add_sub_cancel]
        by_cases h1 : n / 2 = 0
        · have : bitLengthAux fuel (n / 2) = 0 := by
            rw [h1]; cases fuel <;> simp [bitLengthAux]
          rw [this]; simp; omega
        · obtain ⟨hle, hpos⟩ := hge h1
          have : 2 ^ bitLengthAux fuel (n / 2) = 2 ^ (bitLengthAux fuel (n / 2) - 1) * 2 := by
            rw [← pow_succ]; congr 1; omega
          rw [this]; omega

/-- The number of binary digits `k` of a positive `n`: `2^(k−1) ≤ n < 2^k`. -/
theorem bitLength_spec (n : ℕ) (hn : n ≠ 0) :
    2 ^ (bitLength n - 1) ≤ n ∧ n < 2 ^ bitLength n ∧ 1 ≤ bitLength n := by
  obtain ⟨h1, h2⟩ := bitLengthAux_spec n n le_rfl
  exact ⟨(h2 hn).1, h1, (h2 hn).2⟩

/-- `floorLog2 x` is the exponent of the binade of a positive `x`. -/
theorem floorLog2_spec (x : ℚ) (hx : 0 < x) :
    (2 : ℚ) ^ floorLog2 x ≤ x ∧ x < (2 : ℚ) ^ (floorLog2 x + 1) := by
  have hnum : 0 < x.num := Rat.num_pos.mpr hx
  have hden : x.den ≠ 0 := x.den_nz
  have hnat : x.num.natAbs ≠ 0 := by omega
  obtain ⟨a1, a2, a3⟩ := bitLength_spec x.num.natAbs hnat
  obtain ⟨b1, b2, b3⟩ := bitLength_spec x.den hden
  have hxeq : x = (x.num.natAbs : ℚ) / (x.den : ℚ) := by
    have : ((x.num.natAbs : ℤ) : ℚ) = (x.num : ℚ) := by
      rw [Int.natAbs_of_nonneg hnum.le]
    rw [← Int.cast_natCast, this]
    exact (Rat.num_div_den x).symm
  have hdpos : (0 : ℚ) < (x.den : ℚ) := by exact_mod_cast Nat.pos_of_ne_zero hden
  have ha1 : ((2 : ℚ) ^ (bitLength x.num.natAbs - 1)) ≤ (x.num.natAbs : ℚ) := by exact_mod_cast a1
  have ha2 : (x.num.natAbs : ℚ) < (2 : ℚ) ^ (bitLength x.num.natAbs) := by exact_mod_cast a2
  have hb1 : ((2 : ℚ) ^ (bitLength x.den - 1)) ≤ (x.den : ℚ) := by exact_mod_cast b1
  have hb2 : (x.den : ℚ) < (2 : ℚ) ^ (bitLength x.den) := by exact_mod_cast b2
  set a := bitLength x.num.natAbs with ha
  set b := bitLength x.den with hb
  have h2 : (0 : ℚ) < 2 := by norm_num
  -- x < 2 ^ (a - b + 1)
  have hup : x < (2 : ℚ) ^ ((a : ℤ) - b + 1) := by
    have e : (2 : ℚ) ^ ((a : ℤ) - b + 1) = (2 : ℚ) ^ a / (2 : ℚ) ^ (b - 1) := by
      rw [show ((a : ℤ) - b + 1) = (a : ℤ) - ((b - 1 : ℕ) : ℤ) by omega, zpow_sub₀ h2.ne']
      simp
    rw [e, hxeq, div_lt_div_iff₀ hdpos (by positivity)]
    calc (x.num.natAbs : ℚ) * 2 ^ (b - 1) < 2 ^ a * 2 ^ (b - 1) := by
          apply mul_lt_mul_of_pos_right ha2 (by positivity)
      _ ≤ 2 ^ a * (x.den : ℚ) := by
          apply mul_le_mul_of_nonneg_left hb1 (by positivity)
  -- 2 ^ (a - b - 1) ≤ x
  have hlow : (2 : ℚ) ^ ((a : ℤ) - b - 1) ≤ x := by
    have e : (2 : ℚ) ^ ((a : ℤ) - b - 1) = (2 : ℚ) ^ (a - 1) / (2 : ℚ) ^ b := by
      rw [show ((a : ℤ) - b - 1) = ((a - 1 : ℕ) : ℤ) - (b : ℤ) by omega, zpow_sub₀ h2.ne']
      simp
    rw [e, hxeq, div_le_div_iff₀ (by positivity) hdpos]
    calc (2 : ℚ) ^ (a - 1) * (x.den : ℚ) ≤ (x.num.natAbs : ℚ) * (x.den : ℚ) := by
          apply mul_le_mul_of_nonneg_right ha1 hdpos.le
      _ ≤ (x.num.natAbs : ℚ) * 2 ^ b := by
          apply mul_le_mul_of_nonneg_left hb2.le (by positivity)
  unfold floorLog2
  simp only []
  split
  · rename_i hle
    exact ⟨hle, hup⟩
  · rename_i hnle
    refine ⟨hlow, ?_⟩
    rw [show ((a : ℤ) - b - 1 + 1) = (a : ℤ) - b by ring]
    exact not_le.mp hnle

/-- The nearest integer is within one half of the number rounded. -/
theorem roundHalfEven_sub_le (q : ℚ) : |(roundHalfEven q : ℚ) - q| ≤ 1 / 2 := by
  have h1 : ((⌊q⌋ : ℤ) : ℚ) ≤ q := Int.floor_le q
  have h2 : q < ((⌊q⌋ : ℤ) : ℚ) + 1 := Int.lt_floor_add_one q
  unfold roundHalfEven
  simp only []
  rw [abs_le]
  split_ifs with a b c
  · constructor <;> linarith
  · push_cast; constructor <;> linarith
  · constructor <;> linarith
  · push_cast; constructor <;> linarith

/-- An integer is its own nearest integer. -/
theorem roundHalfEven_intCast (n : ℤ) : roundHalfEven (n : ℚ) = n := by
  unfold roundHalfEven
  simp

/-- The nearest integer of a number at most `N` is at most `N`. -/
theorem roundHalfEven_le (q : ℚ) (N : ℤ) (h : q ≤ N) : roundHalfEven q ≤ N := by
  have h1 : ((⌊q⌋ : ℤ) : ℚ) ≤ q := Int.floor_le q
  have hfl : ⌊q⌋ ≤ N := by exact_mod_cast (le_trans h1 h)
  unfold roundHalfEven
  simp only []
  by_cases heq : ⌊q⌋ = N
  · have hq : q = N := le_antisymm h (by rw [← heq]; exact h1)
    subst hq
    simp
  · have hlt : ⌊q⌋ + 1 ≤ N := by omega
    split_ifs <;> omega

/-- The nearest integer of a number at least `N` is at least `N`. -/
theorem le_roundHalfEven (q : ℚ) (N : ℤ) (h : (N : ℚ) ≤ q) : N ≤ roundHalfEven q := by
  have hfl : N ≤ ⌊q⌋ := Int.le_floor.mpr h
  unfold roundHalfEven
  simp only []
  split_ifs <;> omega

/-- A natural power of 2 times an integer power of 2. -/
theorem natCast_two_pow_mul_zpow (n : ℕ) (a : ℤ) :
    ((2 ^ n : ℕ) : ℚ) * (2 : ℚ) ^ a = (2 : ℚ) ^ (a + n) := by
  rw [Nat.cast_pow, Nat.cast_ofNat, ← zpow_natCast, ← zpow_add₀ (by norm_num : (2 : ℚ) ≠ 0),
    add_comm]

/-- The rounding of `x` moves it by at most half a unit in the last place,
`2^(e − 53)` for the exponent `e` that `roundDoublePos` gives to `x`. -/
theorem roundDoublePos_sub_le (x : ℚ) :
    |roundDoublePos x - x| ≤ (2 : ℚ) ^ (max (floorLog2 x) (-1022) - 53) := by
  unfold roundDoublePos
  simp only []
  set e := max (floorLog2 x) (-1022) with he
  have hu : (0 : ℚ) < (2 : ℚ) ^ (e - 52) := by positivity
  have hr := roundHalfEven_sub_le (x / (2 : ℚ) ^ (e - 52))
  have e1 : (roundHalfEven (x / (2 : ℚ) ^ (e - 52)) : ℚ) * (2 : ℚ) ^ (e - 52) - x =
      ((roundHalfEven (x / (2 : ℚ) ^ (e - 52)) : ℚ) - x / (2 : ℚ) ^ (e - 52)) *
        (2 : ℚ) ^ (e - 52) := by
    field_simp
  have e2 : (2 : ℚ) ^ (e - 53) = 1 / 2 * (2 : ℚ) ^ (e - 52) := by
    rw [show e - 53 = (e - 52) - 1 by ring, zpow_sub₀ (by norm_num : (2 : ℚ) ≠ 0)]
    simp; ring
  rw [e1, abs_mul, abs_of_pos hu, e2]
  exact mul_le_mul_of_nonneg_right hr hu.le

/-- The rounding of a non-negative number is non-negative. -/
theorem roundDoublePos_nonneg (x : ℚ) (hx : 0 ≤ x) : 0 ≤ roundDoublePos x := by
  unfold roundDoublePos
  simp only []
  apply mul_nonneg _ (by positivity)
  have : (0 : ℤ) ≤ roundHalfEven (x / (2 : ℚ) ^ (max (floorLog2 x) (-1022) - 52)) :=
    le_roundHalfEven _ 0 (by simp only [Int.cast_zero]; positivity)
  exact_mod_cast this

/-- A positive number `M · 2^(g − 52)` with `M < 2^53` and `g ≥ −1022` is left
unchanged by the rounding. -/
theorem roundDoublePos_of_repr (M : ℕ) (g : ℤ) (hg : -1022 ≤ g) (hM : 0 < M)
    (hM' : M < 2 ^ 53) :
    roundDoublePos ((M : ℚ) * (2 : ℚ) ^ (g - 52)) = (M : ℚ) * (2 : ℚ) ^ (g - 52) := by
  set y := (M : ℚ) * (2 : ℚ) ^ (g - 52) with hy
  have h2 : (2 : ℚ) ≠ 0 := by norm_num
  have hMq : (0 : ℚ) < (M : ℚ) := by exact_mod_cast hM
  have hypos : 0 < y := by positivity
  have hylt : y < (2 : ℚ) ^ (g + 1) := by
    have : (2 : ℚ) ^ (g + 1) = ((2 ^ 53 : ℕ) : ℚ) * (2 : ℚ) ^ (g - 52) := by
      rw [natCast_two_pow_mul_zpow]; congr 1; push_cast; ring
    rw [this, hy]
    apply mul_lt_mul_of_pos_right _ (by positivity)
    exact_mod_cast hM'
  have hfl : floorLog2 y ≤ g := by
    have h1 := (floorLog2_spec y hypos).1
    have h3 : (2 : ℚ) ^ floorLog2 y < (2 : ℚ) ^ (g + 1) := lt_of_le_of_lt h1 hylt
    have := (zpow_lt_zpow_iff_right₀ (by norm_num : (1 : ℚ) < 2)).mp h3
    omega
  have he : max (floorLog2 y) (-1022) ≤ g := max_le hfl hg
  unfold roundDoublePos
  simp only []
  set e := max (floorLog2 y) (-1022) with hedef
  obtain ⟨k, hk⟩ : ∃ k : ℕ, g - e = k := ⟨(g - e).toNat, by omega⟩
  have hq : y / (2 : ℚ) ^ (e - 52) = (((M * 2 ^ k : ℕ) : ℤ) : ℚ) := by
    rw [hy, mul_div_assoc, ← zpow_sub₀ h2]
    rw [show g - 52 - (e - 52) = (k : ℤ) by omega]
    push_cast
    rw [zpow_natCast]
  rw [hq, roundHalfEven_intCast]
  push_cast
  rw [hy, mul_assoc, ← zpow_natCast, ← zpow_add₀ h2]
  congr 2
  omega

/-- A positive result of `roundDoublePos` is left unchanged by it. -/
theorem roundDoublePos_idem (x : ℚ) (hx : 0 < x) (hy : 0 < roundDoublePos x) :
    roundDoublePos (roundDoublePos x) = roundDoublePos x := by
  have h2 : (2 : ℚ) ≠ 0 := by norm_num
  obtain ⟨hlo, hhi⟩ := floorLog2_spec x hx
  set e := max (floorLog2 x) (-1022) with he
  have hge : -1022 ≤ e := le_max_right _ _
  have hu : (0 : ℚ) < (2 : ℚ) ^ (e - 52) := by positivity
  have hxu : x / (2 : ℚ) ^ (e - 52) < (((2 ^ 53 : ℕ) : ℤ) : ℚ) := by
    rw [div_lt_iff₀ hu]
    have : ((((2 ^ 53 : ℕ) : ℤ) : ℚ)) * (2 : ℚ) ^ (e - 52) = (2 : ℚ) ^ (e + 1) := by
      rw [Int.cast_natCast, natCast_two_pow_mul_zpow]; congr 1; push_cast; ring
    rw [this]
    refine lt_of_lt_of_le hhi ?_
    apply zpow_le_zpow_right₀ (by norm_num)
    have := le_max_left (floorLog2 x) (-1022)
    omega
  have hm1 : roundHalfEven (x / (2 : ℚ) ^ (e - 52)) ≤ ((2 ^ 53 : ℕ) : ℤ) :=
    roundHalfEven_le _ _ hxu.le
  have hm0 : 0 ≤ roundHalfEven (x / (2 : ℚ) ^ (e - 52)) :=
    le_roundHalfEven _ 0 (by simp only [Int.cast_zero]; positivity)
  have hdef : roundDoublePos x =
      (roundHalfEven (x / (2 : ℚ) ^ (e - 52)) : ℚ) * (2 : ℚ) ^ (e - 52) := rfl
  obtain ⟨M, hMeq⟩ : ∃ M : ℕ, roundHalfEven (x / (2 : ℚ) ^ (e - 52)) = M :=
    ⟨(roundHalfEven (x / (2 : ℚ) ^ (e - 52))).toNat, by omega⟩
  rw [hMeq] at hdef hm1
  have hMle : M ≤ 2 ^ 53 := by exact_mod_cast hm1
  have hdef' : roundDoublePos x = (M : ℚ) * (2 : ℚ) ^ (e - 52) := by
    rw [hdef]; push_cast; rfl
  have hMpos : 0 < M := by
    rcases Nat.eq_zero_or_pos M with h0 | h0
    · rw [hdef', h0] at hy; simp at hy
    · exact h0
  rw [hdef']
  rcases Nat.lt_or_ge M (2 ^ 53) with hlt | hge53
  · exact roundDoublePos_of_repr M e hge hMpos hlt
  · have hM53 : M = 2 ^ 53 := le_antisymm hMle hge53
    have : (M : ℚ) * (2 : ℚ) ^ (e - 52) = ((2 ^ 52 : ℕ) : ℚ) * (2 : ℚ) ^ ((e + 1) - 52) := by
      rw [hM53, natCast_two_pow_mul_zpow, natCast_two_pow_mul_zpow]
      congr 1; push_cast; ring
    rw [this]
    exact roundDoublePos_of_repr (2 ^ 52) (e + 1) (by omega) (by positivity) (by norm_num)

/-- Rounding a number twice is rounding it once. -/
theorem roundDouble_idem (x : ℚ) : roundDouble (roundDouble x) = roundDouble x := by
  unfold roundDouble
  by_cases h0 : x = 0
  · simp [h0]
  · simp only [h0, if_false]
    by_cases hneg : x < 0
    · simp only [hneg, if_true]
      have hnn := roundDoublePos_nonneg (-x) (by linarith)
      rcases hnn.eq_or_lt with hz | hpos
      · simp [← hz]
      · have hne : -roundDoublePos (-x) ≠ 0 := by linarith
        have hlt : -roundDoublePos (-x) < 0 := by linarith
        simp only [hne, if_false, hlt, if_true, neg_neg]
        rw [roundDoublePos_idem (-x) (by linarith) hpos]
    · simp only [hneg, if_false]
      have hx : 0 < x := lt_of_le_of_ne (not_lt.mp hneg) (Ne.symm h0)
      have hnn := roundDoublePos_nonneg x hx.le
      rcases hnn.eq_or_lt with hz | hpos
      · simp [← hz]
      · have hne : roundDoublePos x ≠ 0 := by linarith
        have hlt : ¬ roundDoublePos x < 0 := by linarith
        simp only [hne, if_false, hlt]
        exact roundDoublePos_idem x hx hpos

/-- The rounding error: at most `B / 2^53` for a number of magnitude at most `B`,
when `B` is at least 1 (so that it is not below the smallest normal number). -/
theorem roundDouble_sub_le (x B : ℚ) (hx : |x| ≤ B) (hB : 1 ≤ B) :
    |roundDouble x - x| ≤ B / 2 ^ 53 := by
  have h2 : (2 : ℚ) ≠ 0 := by norm_num
  have key : ∀ y : ℚ, 0 < y → y ≤ B → |roundDoublePos y - y| ≤ B / 2 ^ 53 := by
    intro y hy hyB
    refine le_trans (roundDoublePos_sub_le y) ?_
    have hexp : (2 : ℚ) ^ (max (floorLog2 y) (-1022) - 53) =
        (2 : ℚ) ^ (max (floorLog2 y) (-1022)) / 2 ^ 53 := by
      rw [zpow_sub₀ h2]; norm_cast
    rw [hexp]
    apply div_le_div_of_nonneg_right _ (by positivity)
    rcases le_total (floorLog2 y) (-1022) with hle | hle
    · rw [max_eq_right hle]
      refine le_trans ?_ hB
      exact zpow_le_one_of_nonpos₀ (by norm_num) (by norm_num)
    · rw [max_eq_left hle]
      exact le_trans (floorLog2_spec y hy).1 hyB
  unfold roundDouble
  by_cases h0 : x = 0
  · simp only [h0, if_true, sub_self, abs_zero]
    have : (0 : ℚ) ≤ B := le_trans (abs_nonneg x) hx
    positivity
  · simp only [h0, if_false]
    by_cases hneg : x < 0
    · simp only [hneg, if_true]
      have := key (-x) (by linarith) (by rw [abs_of_neg hneg] at hx; exact hx)
      rw [show -roundDoublePos (-x) - x = -(roundDoublePos (-x) - -x) by ring, abs_neg]
      exact this
    · simp only [hneg, if_false]
      have hxpos : 0 < x := lt_of_le_of_ne (not_lt.mp hneg) (Ne.symm h0)
      exact key x hxpos (by rw [abs_of_pos hxpos] at hx; exact hx)

/-- The decimal rounding `toFixed` moves a number by at most half a unit of the
last digit kept. -/
theorem toFixed_sub_le (d : ℕ) (x : ℚ) : |toFixed d x - x| ≤ 1 / (2 * 10 ^ d) := by
  have hp : (0 : ℚ) < 10 ^ d := by positivity
  have key : ∀ y : ℚ, |((⌊y * 10 ^ d + 1 / 2⌋ : ℤ) : ℚ) / 10 ^ d - y| ≤ 1 / (2 * 10 ^ d) := by
    intro y
    have h1 : ((⌊y * 10 ^ d + 1 / 2⌋ : ℤ) : ℚ) ≤ y * 10 ^ d + 1 / 2 := Int.floor_le _
    have h2 : y * 10 ^ d + 1 / 2 < ((⌊y * 10 ^ d + 1 / 2⌋ : ℤ) : ℚ) + 1 := Int.lt_floor_add_one _
    have e : ((⌊y * 10 ^ d + 1 / 2⌋ : ℤ) : ℚ) / 10 ^ d - y =
        (((⌊y * 10 ^ d + 1 / 2⌋ : ℤ) : ℚ) - y * 10 ^ d) / 10 ^ d := by
      field_simp; ring
    rw [e, abs_div, abs_of_pos hp, div_le_iff₀ hp]
    have e2 : 1 / (2 * (10 : ℚ) ^ d) * 10 ^ d = 1 / 2 := by field_simp; ring
    rw [e2, abs_le]
    constructor <;> linarith
  unfold toFixed
  split
  · have := key (-x)
    rw [show -((⌊-x * 10 ^ d + 1 / 2⌋ : ℤ) : ℚ) / 10 ^ d - x =
      -(((⌊-x * 10 ^ d + 1 / 2⌋ : ℤ) : ℚ) / 10 ^ d - -x) by ring, abs_neg]
    exact this
  · exact key x

/-- One rounded operation in a chain: when the exact result `x` has magnitude at
most `B` and is within `ε` of a reference value `y`, the rounded result is within
`ε + B / 2^53` of `y`. -/
theorem roundDouble_near (x y B ε : ℚ) (hB : 1 ≤ B) (hx : |x| ≤ B) (hxy : |x - y| ≤ ε) :
    |roundDouble x - y| ≤ ε + B / 2 ^ 53 := by
  have h := roundDouble_sub_le x B hx hB
  have : roundDouble x - y = (roundDouble x - x) + (x - y) := by ring
  rw [this]
  exact le_trans (abs_add _ _) (by linarith)

/-- The magnitude of a rounded number of magnitude at most `B`. -/
theorem roundDouble_abs_le (x B : ℚ) (hB : 1 ≤ B) (hx : |x| ≤ B) :
    |roundDouble x| ≤ B + B / 2 ^ 53 := by
  have h := roundDouble_sub_le x B hx hB
  have : roundDouble x = (roundDouble x - x) + x := by ring
  rw [this]
  exact le_trans (abs_add _ _) (by linarith)

/-- The error of a product of two approximations. -/
theorem mul_sub_mul_le (a a' m m' A M α μ : ℚ) (ha : |a| ≤ A) (hm' : |m'| ≤ M)
    (hα : |a' - a| ≤ α) (hμ : |m' - m| ≤ μ) :
    |a' * m' - a * m| ≤ α * M + A * μ := by
  have e : a' * m' - a * m = (a' - a) * m' + a * (m' - m) := by ring
  rw [e]
  refine le_trans (abs_add _ _) ?_
  rw [abs_mul, abs_mul]
  have hα0 : 0 ≤ α := le_trans (abs_nonneg _) hα
  have hA0 : 0 ≤ A := le_trans (abs_nonneg _) ha
  have h1 : |a' - a| * |m'| ≤ α * M :=
    mul_le_mul hα hm' (abs_nonneg _) hα0
  have h2 : |a| * |m' - m| ≤ A * μ :=
    mul_le_mul ha hμ (abs_nonneg _) hA0
  linarith

/-- The magnitude of a rounded number, in whole units. -/
theorem roundDouble_abs_le_succ (x B : ℚ) (hB : 1 ≤ B) (hB' : B ≤ 2 ^ 53) (hx : |x| ≤ B) :
    |roundDouble x| ≤ B + 1 := by
  have h := roundDouble_abs_le x B hB hx
  have : B / 2 ^ 53 ≤ 1 := by
    rw [div_le_iff₀ (by positivity)]; linarith
  linarith

/-- The expression `parseFloat(x.toFixed(d))` in a chain: when `x` has magnitude at
most `B − 1` and is within `ε` of a reference value `y`, the result is within
`1 / (2·10^d) + ε + B / 2^53` of `y`. -/
theorem parseFloatToFixed_near (d : ℕ) (x y B ε : ℚ) (hx : |x| + 1 ≤ B)
    (hxy : |x - y| ≤ ε) :
    |parseFloatToFixed d x - y| ≤ 1 / (2 * 10 ^ d) + ε + B / 2 ^ 53 := by
  unfold parseFloatToFixed
  have t := toFixed_sub_le d x
  have hd : (1 : ℚ) / (2 * 10 ^ d) ≤ 1 := by
    rw [div_le_iff₀ (by positivity)]
    have : (1 : ℚ) ≤ 10 ^ d := one_le_pow₀ (by norm_num)
    linarith
  have hB : 1 ≤ B := by linarith [abs_nonneg x]
  have h3 : |toFixed d x| ≤ B := by
    have : toFixed d x = (toFixed d x - x) + x := by ring
    rw [this]
    exact le_trans (abs_add _ _) (by linarith)
  have e3 : |toFixed d x - y| ≤ 1 / (2 * 10 ^ d) + ε := by
    have : toFixed d x - y = (toFixed d x - x) + (x - y) := by ring
    rw [this]
    exact le_trans (abs_add _ _) (by linarith)
  exact roundDouble_near (toFixed d x) y B _ hB h3 e3

/-- The error of `10 − 10·(a / 100)` computed in binary64 arithmetic and rounded to
one decimal, for `a` of magnitude at most 1000. -/
theorem armorLoss_near (a : ℚ) (ha : |a| ≤ 1000) :
    |parseFloatToFixed 1 (fsub 10 (fmul 10 (fdiv a 100))) - (10 - 10 * (a / 100))| ≤
      1 / 20 + 1 / 10 ^ 9 := by
  unfold parseFloatToFixed fsub fmul fdiv
  have h0 : |a / 100| ≤ 10 := by
    rw [abs_div, abs_of_pos (by norm_num : (0 : ℚ) < 100)]
    rw [div_le_iff₀ (by norm_num)]; linarith
  have d1 := roundDouble_near (a / 100) (a / 100) 10 0 (by norm_num) h0 (by simp)
  have b1 := roundDouble_abs_le (a / 100) 10 (by norm_num) h0
  set x1 := roundDouble (a / 100) with hx1
  have h1 : |10 * x1| ≤ 101 := by
    rw [abs_mul, abs_of_pos (by norm_num : (0 : ℚ) < 10)]
    norm_num at b1; linarith
  have e1 : |10 * x1 - 10 * (a / 100)| ≤ 10 * (10 / 2 ^ 53) := by
    rw [← mul_sub, abs_mul, abs_of_pos (by norm_num : (0 : ℚ) < 10)]
    linarith
  have d2 := roundDouble_near (10 * x1) (10 * (a / 100)) 101 _ (by norm_num) h1 e1
  have b2 := roundDouble_abs_le (10 * x1) 101 (by norm_num) h1
  set x2 := roundDouble (10 * x1) with hx2
  have h2 : |10 - x2| ≤ 112 := by
    have := abs_sub (10 : ℚ) x2
    norm_num at b2 this ⊢
    have h10 : |(10 : ℚ)| = 10 := abs_of_pos (by norm_num)
    linarith
  have e2 : |(10 - x2) - (10 - 10 * (a / 100))| ≤ 10 * (10 / 2 ^ 53) + 101 / 2 ^ 53 := by
    rw [show (10 - x2) - (10 - 10 * (a / 100)) = -(x2 - 10 * (a / 100)) by ring, abs_neg]
    exact d2
  have d3 := roundDouble_near (10 - x2) (10 - 10 * (a / 100)) 112 _ (by norm_num) h2 e2
  have b3 := roundDouble_abs_le (10 - x2) 112 (by norm_num) h2
  set x3 := roundDouble (10 - x2) with hx3
  have t := toFixed_sub_le 1 x3
  have h3 : |toFixed 1 x3| ≤ 114 := by
    have : toFixed 1 x3 = (toFixed 1 x3 - x3) + x3 := by ring
    rw [this]
    refine le_trans (abs_add _ _) ?_
    norm_num at b3 t ⊢
    linarith
  have e3 : |toFixed 1 x3 - (10 - 10 * (a / 100))| ≤
      1 / (2 * 10 ^ 1) + (10 * (10 / 2 ^ 53) + 101 / 2 ^ 53 + 112 / 2 ^ 53) := by
    have : toFixed 1 x3 - (10 - 10 * (a / 100)) =
        (toFixed 1 x3 - x3) + (x3 - (10 - 10 * (a / 100))) := by ring
    rw [this]
    exact le_trans (abs_add _ _) (by linarith)
  have d4 := roundDouble_near (toFixed 1 x3) (10 - 10 * (a / 100)) 114 _ (by norm_num) h3 e3
  refine le_trans d4 ?_
  norm_num

/-! ### Health lost to an undodged attack -/

/-- Counterexample to C4 as stated.  With an armor total of 0.5 the exact value of
`10 − 10·(armor total / 100)` is 9.95, whose rounding to one decimal place is 10.0,
and the undodged tick returns 9.9: the three binary64 operations give
9.949999999999999…  With an armor total of 2.5 the exact value is 9.75 and the tick
returns 9.8, so the ties are not broken in one direction either. -/
theorem simulateCombatTick64_armor_ties :
    (simulateCombatTick64 none (chestArmorBuild (1 / 2)) 0 0 0).wasDodge = false ∧
    (calculateStatDetails64 none (chestArmorBuild (1 / 2)) "armor").total = 1 / 2 ∧
    (10 : ℚ) - 10 * ((1 / 2) / 100) = 199 / 20 ∧
    parseFloatToFixed 1 (10 - 10 * ((1 / 2) / 100)) = 10 ∧
    (simulateCombatTick64 none (chestArmorBuild (1 / 2)) 0 0 0).healthLost =
      roundDouble (99 / 10) ∧
    toFixed 1 (simulateCombatTick64 none (chestArmorBuild (1 / 2)) 0 0 0).healthLost = 99 / 10 ∧
    (simulateCombatTick64 none (chestArmorBuild (1 / 2)) 0 0 0).healthLost ≠
      parseFloatToFixed 1
        (10 - 10 * ((calculateStatDetails64 none (chestArmorBuild (1 / 2)) "armor").total / 100)) ∧
    (simulateCombatTick64 none (chestArmorBuild (5 / 2)) 0 0 0).wasDodge = false ∧
    (calculateStatDetails64 none (chestArmorBuild (5 / 2)) "armor").total = 5 / 2 ∧
    (10 : ℚ) - 10 * ((5 / 2) / 100) = 39 / 4 ∧
    (simulateCombatTick64 none (chestArmorBuild (5 / 2)) 0 0 0).healthLost =
      roundDouble (98 / 10) := by
  refine ⟨by decide!, by decide!, by norm_num, by decide!, by decide!, by decide!, by decide!,
    by decide!, by decide!, by norm_num, by decide!⟩

/-- Claim C4, amended: when the attack is not dodged, `healthLost` is
`10 − 10·(armor total / 100)` evaluated in binary64 arithmetic (a division, a
multiplication and a subtraction, each rounded to the nearest double) and then
rounded to one decimal place by `toFixed(1)`; for an armor total of magnitude at
most 1000 it is within `0.05 + 10⁻⁹` of the exact value of
`10 − 10·(armor total / 100)`. -/
theorem simulateCombatTick64_armor (sd : Option SkillsData) (ps : PlayerState) (r1 r2 r3 : ℚ)
    (h : (simulateCombatTick64 sd ps r1 r2 r3).wasDodge = false) :
    (simulateCombatTick64 sd ps r1 r2 r3).healthLost =
      parseFloatToFixed 1
        (fsub 10 (fmul 10 (fdiv (calculateStatDetails64 sd ps "armor").total 100))) ∧
    (|(calculateStatDetails64 sd ps "armor").total| ≤ 1000 →
      |(simulateCombatTick64 sd ps r1 r2 r3).healthLost -
          (10 - 10 * ((calculateStatDetails64 sd ps "armor").total / 100))| ≤
        1 / 20 + 1 / 10 ^ 9) := by
  have heq : (simulateCombatTick64 sd ps r1 r2 r3).healthLost =
      parseFloatToFixed 1
        (fsub 10 (fmul 10 (fdiv (calculateStatDetails64 sd ps "armor").total 100))) := by
    simp only [simulateCombatTick64, simulateCombatTickLocals64] at h ⊢
    simp [h]
  refine ⟨heq, fun ha => ?_⟩
  rw [heq]
  exact armorLoss_near _ ha

/-- Witness of C4 on `armorBuild` (armor total 15), where an undodged tick loses
8.5, and on an armor total of 0.5, where it loses 9.9, within `0.05 + 10⁻⁹` of
9.95. -/
theorem simulateCombatTick64_armor_witness :
    (simulateCombatTick64 none armorBuild 0 0 0).wasDodge = false ∧
    (simulateCombatTick64 none armorBuild 0 0 0).healthLost = 17 / 2 ∧
    (simulateCombatTick64 none (chestArmorBuild (1 / 2)) 0 0 0).wasDodge = false ∧
    |(calculateStatDetails64 none (chestArmorBuild (1 / 2)) "armor").total| ≤ 1000 ∧
    |(simulateCombatTick64 none (chestArmorBuild (1 / 2)) 0 0 0).healthLost -
        (10 - 10 * ((calculateStatDetails64 none (chestArmorBuild (1 / 2)) "armor").total / 100))| ≤
      1 / 20 + 1 / 10 ^ 9 :=
  have hd : (simulateCombatTick64 none (chestArmorBuild (1 / 2)) 0 0 0).wasDodge = false := by
    decide!
  have ht : |(calculateStatDetails64 none (chestArmorBuild (1 / 2)) "armor").total| ≤ 1000 := by
    have : (calculateStatDetails64 none (chestArmorBuild (1 / 2)) "armor").total = 1 / 2 := by
      decide!
    rw [this]; norm_num [abs_le]
  ⟨by decide!, by decide!, hd, ht,
    (simulateCombatTick64_armor none (chestArmorBuild (1 / 2)) 0 0 0 hd).2 ht⟩

/-! ### Damage dealt by a tick -/

/-- The error of `base·(1 + cd/100)` computed in binary64 arithmetic and rounded to
one decimal, when `base` approximates `B`. -/
theorem criticalDamage_near (base B cd : ℚ) (hB : |B| ≤ 10000)
    (hbase : |base - B| ≤ 5000 / 2 ^ 53) (hcd : |cd| ≤ 1000) :
    |parseFloatToFixed 1 (fmul base (fadd 1 (fdiv cd 100))) - B * (1 + cd / 100)| ≤
      1 / 20 + 1 / 10 ^ 9 := by
  unfold fmul fadd fdiv
  have hb1 : |base| ≤ 10001 := by
    have : base = (base - B) + B := by ring
    rw [this]
    refine le_trans (abs_add _ _) ?_
    have : (5000 : ℚ) / 2 ^ 53 ≤ 1 := by norm_num
    linarith
  have h0 : |cd / 100| ≤ 10 := by
    rw [abs_div, abs_of_pos (by norm_num : (0 : ℚ) < 100), div_le_iff₀ (by norm_num)]
    linarith
  have dp1 := roundDouble_near (cd / 100) (cd / 100) 10 0 (by norm_num) h0 (by simp)
  have bp1 := roundDouble_abs_le_succ (cd / 100) 10 (by norm_num) (by norm_num) h0
  set p1 := roundDouble (cd / 100) with hp1
  have hq1 : |1 + p1| ≤ 12 := by
    refine le_trans (abs_add _ _) ?_
    rw [abs_one]; linarith
  have eq1 : |(1 + p1) - (1 + cd / 100)| ≤ 0 + 10 / 2 ^ 53 := by
    rw [show (1 + p1) - (1 + cd / 100) = p1 - cd / 100 by ring]; exact dp1
  have dq1 := roundDouble_near (1 + p1) (1 + cd / 100) 12 _ (by norm_num) hq1 eq1
  have bq1 := roundDouble_abs_le_succ (1 + p1) 12 (by norm_num) (by norm_num) hq1
  set m' := roundDouble (1 + p1) with hm'
  have hprod := mul_sub_mul_le B base (1 + cd / 100) m' 10000 13 _ _ hB (by linarith)
    hbase dq1
  have hP : |base * m'| ≤ 130013 := by
    rw [abs_mul]
    calc |base| * |m'| ≤ 10001 * 13 :=
          mul_le_mul hb1 (by linarith) (abs_nonneg _) (by norm_num)
      _ = 130013 := by norm_num
  have dP := roundDouble_near (base * m') (B * (1 + cd / 100)) 130013 _ (by norm_num) hP hprod
  have bP := roundDouble_abs_le_succ (base * m') 130013 (by norm_num) (by norm_num) hP
  have hfin := parseFloatToFixed_near 1 (roundDouble (base * m')) (B * (1 + cd / 100)) 130015 _
    (by linarith) dP
  refine le_trans hfin ?_
  norm_num

/-- The error of a base damage rounded to one decimal, when `base` approximates `B`. -/
theorem normalDamage_near (base B : ℚ) (hB : |B| ≤ 10000)
    (hbase : |base - B| ≤ 5000 / 2 ^ 53) :
    |parseFloatToFixed 1 base - B| ≤ 1 / 20 + 1 / 10 ^ 9 := by
  have hb1 : |base| ≤ 10001 := by
    have : base = (base - B) + B := by ring
    rw [this]
    refine le_trans (abs_add _ _) ?_
    have : (5000 : ℚ) / 2 ^ 53 ≤ 1 := by norm_num
    linarith
  have hfin := parseFloatToFixed_near 1 base B 10002 _ (by linarith) hbase
  refine le_trans hfin ?_
  norm_num

/-- Counterexample to C6 as stated.  With an attack total of 3 and a criticalDamages
total of 15 the exact value of `3·(1 + 15/100)` is 3.45, whose rounding to one
decimal place is 3.5, and a critical hit returns 3.4: the binary64 product is
3.4499999999999997.  With an attack total of 0.6 (a double below 3/5) and a
criticalDamages total of 25 the exact product is below 0.75, so that it rounds to
0.7, and the tick returns 0.8: the binary64 product is 0.75. -/
theorem simulateCombatTick64_critical_rounding :
    (simulateCombatTick64 none (criticalBuild 3 15) 0 0 0).wasHit = true ∧
    (simulateCombatTick64 none (criticalBuild 3 15) 0 0 0).wasCritical = true ∧
    (calculateStatDetails64 none (criticalBuild 3 15) "attack").total = 3 ∧
    (calculateStatDetails64 none (criticalBuild 3 15) "criticalDamages").total = 15 ∧
    (3 : ℚ) * (1 + 15 / 100) = 69 / 20 ∧
    parseFloatToFixed 1 ((3 : ℚ) * (1 + 15 / 100)) = 7 / 2 ∧
    (simulateCombatTick64 none (criticalBuild 3 15) 0 0 0).finalDamageDealt =
      roundDouble (17 / 5) ∧
    toFixed 1 (simulateCombatTick64 none (criticalBuild 3 15) 0 0 0).finalDamageDealt = 17 / 5 ∧
    (simulateCombatTick64 none (criticalBuild 3 15) 0 0 0).finalDamageDealt ≠
      parseFloatToFixed 1
        ((calculateStatDetails64 none (criticalBuild 3 15) "attack").total *
          (1 + (calculateStatDetails64 none (criticalBuild 3 15) "criticalDamages").total / 100)) ∧
    (simulateCombatTick64 none (criticalBuild (roundDouble (3 / 5)) 25) 0 0 0).wasHit = true ∧
    (simulateCombatTick64 none (criticalBuild (roundDouble (3 / 5)) 25) 0 0 0).wasCritical =
      true ∧
    (calculateStatDetails64 none (criticalBuild (roundDouble (3 / 5)) 25) "attack").total =
      roundDouble (3 / 5) ∧
    (calculateStatDetails64 none (criticalBuild (roundDouble (3 / 5)) 25)
      "criticalDamages").total = 25 ∧
    roundDouble (3 / 5) * (1 + 25 / 100) < 3 / 4 ∧
    toFixed 1 (roundDouble (3 / 5) * (1 + 25 / 100)) = 7 / 10 ∧
    (simulateCombatTick64 none (criticalBuild (roundDouble (3 / 5)) 25) 0 0 0).finalDamageDealt =
      roundDouble (4 / 5) := by
  refine ⟨by decide!, by decide!, by decide!, by decide!, by norm_num, by decide!, by decide!,
    by decide!, by decide!, by decide!, by decide!, by decide!, by decide!, by decide!,
    by decide!, by decide!⟩

/-- Claim C6, amended: `wasCritical` holds exactly when the third draw, scaled to
`[0,100)` by a binary64 multiplication, is strictly below the criticalChance
total; the base damage is the attack total, halved on a miss; `finalDamageDealt`
is the base damage times `1 + criticalDamages total / 100` on a critical,
evaluated in binary64 arithmetic, and the base damage otherwise, rounded to one
decimal place by `toFixed(1)`.  For an attack total of magnitude at most 10000 and
a criticalDamages total of magnitude at most 1000 it is within `0.05 + 10⁻⁹` of the
exact value of the formula. -/
theorem simulateCombatTick64_critical (sd : Option SkillsData) (ps : PlayerState)
    (r1 r2 r3 : ℚ) :
    ((simulateCombatTick64 sd ps r1 r2 r3).wasCritical = true ↔
      fmul r3 100 < (calculateStatDetails64 sd ps "criticalChance").total) ∧
    (simulateCombatTickLocals64 sd ps r1 r2 r3).baseDamage =
      (if (simulateCombatTick64 sd ps r1 r2 r3).wasHit = true
        then (calculateStatDetails64 sd ps "attack").total
        else fdiv (calculateStatDetails64 sd ps "attack").total 2) ∧
    (simulateCombatTick64 sd ps r1 r2 r3).finalDamageDealt =
      (if (simulateCombatTick64 sd ps r1 r2 r3).wasCritical = true
        then parseFloatToFixed 1 (fmul (simulateCombatTickLocals64 sd ps r1 r2 r3).baseDamage
          (fadd 1 (fdiv (calculateStatDetails64 sd ps "criticalDamages").total 100)))
        else parseFloatToFixed 1 (simulateCombatTickLocals64 sd ps r1 r2 r3).baseDamage) ∧
    (|(calculateStatDetails64 sd ps "attack").total| ≤ 10000 →
      |(calculateStatDetails64 sd ps "criticalDamages").total| ≤ 1000 →
      |(simulateCombatTick64 sd ps r1 r2 r3).finalDamageDealt -
          (if (simulateCombatTick64 sd ps r1 r2 r3).wasCritical = true
            then
              (if (simulateCombatTick64 sd ps r1 r2 r3).wasHit = true
                then (calculateStatDetails64 sd ps "attack").total
                else (calculateStatDetails64 sd ps "attack").total / 2) *
              (1 + (calculateStatDetails64 sd ps "criticalDamages").total / 100)
            else
              (if (simulateCombatTick64 sd ps r1 r2 r3).wasHit = true
                then (calculateStatDetails64 sd ps "attack").total
                else (calculateStatDetails64 sd ps "attack").total / 2))| ≤
        1 / 20 + 1 / 10 ^ 9) := by
  have hbase : (simulateCombatTickLocals64 sd ps r1 r2 r3).baseDamage =
      (if (simulateCombatTick64 sd ps r1 r2 r3).wasHit = true
        then (calculateStatDetails64 sd ps "attack").total
        else fdiv (calculateStatDetails64 sd ps "attack").total 2) := by
    simp only [simulateCombatTick64, simulateCombatTickLocals64]
    by_cases h : fmul r2 100 < (calculateStatDetails64 sd ps "precision").total <;> simp [h]
  have hfinal : (simulateCombatTick64 sd ps r1 r2 r3).finalDamageDealt =
      (if (simulateCombatTick64 sd ps r1 r2 r3).wasCritical = true
        then parseFloatToFixed 1 (fmul (simulateCombatTickLocals64 sd ps r1 r2 r3).baseDamage
          (fadd 1 (fdiv (calculateStatDetails64 sd ps "criticalDamages").total 100)))
        else parseFloatToFixed 1 (simulateCombatTickLocals64 sd ps r1 r2 r3).baseDamage) := by
    simp only [simulateCombatTick64, simulateCombatTickLocals64]
    by_cases h : fmul r3 100 < (calculateStatDetails64 sd ps "criticalChance").total <;>
      simp [h]
  refine ⟨?_, hbase, hfinal, ?_⟩
  · simp [simulateCombatTick64, simulateCombatTickLocals64]
  · intro ha hcd
    set t := (calculateStatDetails64 sd ps "attack").total with ht
    set B : ℚ := if (simulateCombatTick64 sd ps r1 r2 r3).wasHit = true then t else t / 2
      with hBdef
    have hB : |B| ≤ 10000 := by
      rw [hBdef]
      split
      · exact ha
      · rw [abs_div, abs_of_pos (by norm_num : (0 : ℚ) < 2), div_le_iff₀ (by norm_num)]
        linarith
    have hnear : |(simulateCombatTickLocals64 sd ps r1 r2 r3).baseDamage - B| ≤
        5000 / 2 ^ 53 := by
      rw [hbase, hBdef]
      split
      · simp only [sub_self, abs_zero]; positivity
      · unfold fdiv
        have h2 : |t / 2| ≤ 5000 := by
          rw [abs_div, abs_of_pos (by norm_num : (0 : ℚ) < 2), div_le_iff₀ (by norm_num)]
          linarith
        exact roundDouble_sub_le _ 5000 h2 (by norm_num)
    rw [hfinal]
    split
    · exact criticalDamage_near _ B _ hB hnear hcd
    · exact normalDamage_near _ B hB hnear

/-- Witness of C6 on `criticalBuild 3 15` with all draws 0: the tick hits and is
critical, and the 3.4 it returns is within `0.05 + 10⁻⁹` of `3·1.15 = 3.45`. -/
theorem simulateCombatTick64_critical_witness :
    |(calculateStatDetails64 none (criticalBuild 3 15) "attack").total| ≤ 10000 ∧
    |(calculateStatDetails64 none (criticalBuild 3 15) "criticalDamages").total| ≤ 1000 ∧
    (simulateCombatTick64 none (criticalBuild 3 15) 0 0 0).wasCritical = true ∧
    (simulateCombatTick64 none (criticalBuild 3 15) 0 0 0).wasHit = true ∧
    |(simulateCombatTick64 none (criticalBuild 3 15) 0 0 0).finalDamageDealt -
        (if (simulateCombatTick64 none (criticalBuild 3 15) 0 0 0).wasCritical = true
          then
            (if (simulateCombatTick64 none (criticalBuild 3 15) 0 0 0).wasHit = true
              then (calculateStatDetails64 none (criticalBuild 3 15) "attack").total
              else (calculateStatDetails64 none (criticalBuild 3 15) "attack").total / 2) *
            (1 + (calculateStatDetails64 none (criticalBuild 3 15) "criticalDamages").total / 100)
          else
            (if (simulateCombatTick64 none (criticalBuild 3 15) 0 0 0).wasHit = true
              then (calculateStatDetails64 none (criticalBuild 3 15) "attack").total
              else (calculateStatDetails64 none (criticalBuild 3 15) "attack").total / 2))| ≤
      1 / 20 + 1 / 10 ^ 9 :=
  have ha : |(calculateStatDetails64 none (criticalBuild 3 15) "attack").total| ≤ 10000 := by
    have : (calculateStatDetails64 none (criticalBuild 3 15) "attack").total = 3 := by decide!
    rw [this]; norm_num [abs_le]
  have hcd : |(calculateStatDetails64 none (criticalBuild 3 15) "criticalDamages").total| ≤
      1000 := by
    have : (calculateStatDetails64 none (criticalBuild 3 15) "criticalDamages").total = 15 := by
      decide!
    rw [this]; norm_num [abs_le]
  ⟨ha, hcd, by decide!, by decide!,
    (simulateCombatTick64_critical none (criticalBuild 3 15) 0 0 0).2.2.2 ha hcd⟩

/-! ### Stat totals -/

/-- The error of `(s + e)·(1 + a/100 + b/100)` computed in binary64 arithmetic and
rounded to one decimal, for inputs of magnitude at most 1000. -/
theorem attackTotal_near (s e a b : ℚ) (hs : |s| ≤ 1000) (he : |e| ≤ 1000)
    (ha : |a| ≤ 1000) (hb : |b| ≤ 1000) :
    |parseFloatToFixed 1 (fmul (fadd s e) (fadd (fadd 1 (fdiv a 100)) (fdiv b 100))) -
        (s + e) * (1 + a / 100 + b / 100)| ≤ 1 / 20 + 1 / 10 ^ 9 := by
  unfold fmul fadd fdiv
  have hdiv : ∀ t : ℚ, |t| ≤ 1000 → |t / 100| ≤ 10 := by
    intro t ht
    rw [abs_div, abs_of_pos (by norm_num : (0 : ℚ) < 100), div_le_iff₀ (by norm_num)]
    linarith
  -- the sum of the skill and equipment values
  have hse : |s + e| ≤ 2000 := le_trans (abs_add _ _) (by linarith)
  have d1 := roundDouble_near (s + e) (s + e) 2000 0 (by norm_num) hse (by simp)
  have b1 := roundDouble_abs_le_succ (s + e) 2000 (by norm_num) (by norm_num) hse
  set x1 := roundDouble (s + e) with hx1
  -- the ammo percentage
  have dp1 := roundDouble_near (a / 100) (a / 100) 10 0 (by norm_num) (hdiv a ha) (by simp)
  have bp1 := roundDouble_abs_le_succ (a / 100) 10 (by norm_num) (by norm_num) (hdiv a ha)
  set p1 := roundDouble (a / 100) with hp1
  have hq1 : |1 + p1| ≤ 12 := by
    refine le_trans (abs_add _ _) ?_
    rw [abs_one]; linarith
  have eq1 : |(1 + p1) - (1 + a / 100)| ≤ 0 + 10 / 2 ^ 53 := by
    rw [show (1 + p1) - (1 + a / 100) = p1 - a / 100 by ring]; exact dp1
  have dq1 := roundDouble_near (1 + p1) (1 + a / 100) 12 _ (by norm_num) hq1 eq1
  have bq1 := roundDouble_abs_le_succ (1 + p1) 12 (by norm_num) (by norm_num) hq1
  set q1 := roundDouble (1 + p1) with hq1def
  -- the buff percentage
  have dp2 := roundDouble_near (b / 100) (b / 100) 10 0 (by norm_num) (hdiv b hb) (by simp)
  have bp2 := roundDouble_abs_le_succ (b / 100) 10 (by norm_num) (by norm_num) (hdiv b hb)
  set p2 := roundDouble (b / 100) with hp2
  have hm : |q1 + p2| ≤ 24 := le_trans (abs_add _ _) (by linarith)
  have em : |(q1 + p2) - (1 + a / 100 + b / 100)| ≤
      (0 + 10 / 2 ^ 53 + 12 / 2 ^ 53) + (0 + 10 / 2 ^ 53) := by
    rw [show (q1 + p2) - (1 + a / 100 + b / 100) = (q1 - (1 + a / 100)) + (p2 - b / 100) by ring]
    exact le_trans (abs_add _ _) (by linarith)
  have dm := roundDouble_near (q1 + p2) (1 + a / 100 + b / 100) 24 _ (by norm_num) hm em
  have bm := roundDouble_abs_le_succ (q1 + p2) 24 (by norm_num) (by norm_num) hm
  set m' := roundDouble (q1 + p2) with hm'
  -- the product
  have hprod := mul_sub_mul_le (s + e) x1 (1 + a / 100 + b / 100) m' 2000 25 _ _ hse
    (by linarith) d1 dm
  have hP : |x1 * m'| ≤ 50025 := by
    rw [abs_mul]
    calc |x1| * |m'| ≤ 2001 * 25 :=
          mul_le_mul (by linarith) (by linarith) (abs_nonneg _) (by norm_num)
      _ = 50025 := by norm_num
  have dP := roundDouble_near (x1 * m') ((s + e) * (1 + a / 100 + b / 100)) 50025 _
    (by norm_num) hP hprod
  have bP := roundDouble_abs_le_succ (x1 * m') 50025 (by norm_num) (by norm_num) hP
  set P := roundDouble (x1 * m') with hPdef
  have hfin := parseFloatToFixed_near 1 P ((s + e) * (1 + a / 100 + b / 100)) 50027 _
    (by linarith) dP
  refine le_trans hfin ?_
  norm_num

/-- The error of `s + e` computed in binary64 arithmetic and rounded to one decimal,
when `e` approximates `y`. -/
theorem sumTotal_near (s e y : ℚ) (hs : |s| ≤ 1000) (he : |e| ≤ 2001)
    (hey : |e - y| ≤ 1 / 10 ^ 10) :
    |parseFloatToFixed 1 (fadd s e) - (s + y)| ≤ 1 / 20 + 1 / 10 ^ 9 := by
  unfold fadd
  have hse : |s + e| ≤ 3001 := le_trans (abs_add _ _) (by linarith)
  have e1 : |(s + e) - (s + y)| ≤ 1 / 10 ^ 10 := by
    rw [show (s + e) - (s + y) = e - y by ring]; exact hey
  have d1 := roundDouble_near (s + e) (s + y) 3001 _ (by norm_num) hse e1
  have b1 := roundDouble_abs_le_succ (s + e) 3001 (by norm_num) (by norm_num) hse
  have hfin := parseFloatToFixed_near 1 (roundDouble (s + e)) (s + y) 3003 _ (by linarith) d1
  refine le_trans hfin ?_
  norm_num

/-- Counterexample to C8 as stated.  With a weapon attack of 7 and an ammo buff of
15 % the exact value of `(0 + 7)·(1 + 15/100 + 0/100)` is 8.05, whose rounding to
one decimal place is 8.1, and `calculateStatDetails` returns 8.0: the binary64
product is 8.049999999999999…  With a weapon attack of 1 and an ammo buff of 5 %
the exact value is 1.05 and the total returned is 1.1. -/
theorem calculateStatDetails64_attack_ties :
    (calculateStatDetails64 none (ammoBuild 7 15) "attack").skillValue = 0 ∧
    (calculateStatDetails64 none (ammoBuild 7 15) "attack").equipmentValue = 7 ∧
    (calculateStatDetails64 none (ammoBuild 7 15) "attack").ammoPercent = 15 ∧
    (calculateStatDetails64 none (ammoBuild 7 15) "attack").buffPercent = 0 ∧
    ((0 : ℚ) + 7) * (1 + 15 / 100 + 0 / 100) = 161 / 20 ∧
    parseFloatToFixed 1 (((0 : ℚ) + 7) * (1 + 15 / 100 + 0 / 100)) = roundDouble (81 / 10) ∧
    (calculateStatDetails64 none (ammoBuild 7 15) "attack").total = 8 ∧
    (calculateStatDetails64 none (ammoBuild 7 15) "attack").total ≠
      parseFloatToFixed 1
        (((calculateStatDetails64 none (ammoBuild 7 15) "attack").skillValue +
            (calculateStatDetails64 none (ammoBuild 7 15) "attack").equipmentValue) *
          (1 + (calculateStatDetails64 none (ammoBuild 7 15) "attack").ammoPercent / 100 +
            (calculateStatDetails64 none (ammoBuild 7 15) "attack").buffPercent / 100)) ∧
    ((0 : ℚ) + 1) * (1 + 5 / 100 + 0 / 100) = 21 / 20 ∧
    (calculateStatDetails64 none (ammoBuild 1 5) "attack").total = roundDouble (11 / 10) := by
  refine ⟨by decide!, by decide!, by decide!, by decide!, by norm_num, by decide!, by decide!,
    by decide!, by norm_num, by decide!⟩

/-- Claim C8, amended: for the attack stat, `total` is
`(skillValue + equipmentValue)·(1 + ammoPercent/100 + buffPercent/100)` evaluated
in binary64 arithmetic (each operation rounded to the nearest double) and then
rounded to one decimal place by `toFixed(1)`, where `equipmentValue` is the weapon's
`attack` stat (0 without a weapon), `ammoPercent` and `buffPercent` are the
`percentAttack` of the active ammo and consumable buffs (0 without one).  For
values of magnitude at most 1000 the total is within `0.05 + 10⁻⁹` of the exact
value of the formula; the values 20, 10, 50, 10 give 48. -/
theorem calculateStatDetails64_attack (sd : Option SkillsData) (ps : PlayerState) :
    (calculateStatDetails64 sd ps "attack").total =
      parseFloatToFixed 1
        (fmul (fadd (calculateStatDetails64 sd ps "attack").skillValue
            (calculateStatDetails64 sd ps "attack").equipmentValue)
          (fadd (fadd 1 (fdiv (calculateStatDetails64 sd ps "attack").ammoPercent 100))
            (fdiv (calculateStatDetails64 sd ps "attack").buffPercent 100))) ∧
    (calculateStatDetails64 sd ps "attack").skillValue =
      (match getSkillData sd "attack" (ps.assignedSkillLevels "attack") with
        | some info => info.value
        | none => 0) ∧
    (calculateStatDetails64 sd ps "attack").equipmentValue =
      statOrZero ps.equippedItems.weapon "attack" ∧
    (calculateStatDetails64 sd ps "attack").ammoPercent =
      statOrZero ps.activeBuffs.ammo "percentAttack" ∧
    (calculateStatDetails64 sd ps "attack").buffPercent =
      statOrZero ps.activeBuffs.consumable "percentAttack" ∧
    (ps.equippedItems.weapon = none →
      (calculateStatDetails64 sd ps "attack").equipmentValue = 0) ∧
    (ps.activeBuffs.ammo = none → (calculateStatDetails64 sd ps "attack").ammoPercent = 0) ∧
    (ps.activeBuffs.consumable = none →
      (calculateStatDetails64 sd ps "attack").buffPercent = 0) ∧
    (|(calculateStatDetails64 sd ps "attack").skillValue| ≤ 1000 →
      |(calculateStatDetails64 sd ps "attack").equipmentValue| ≤ 1000 →
      |(calculateStatDetails64 sd ps "attack").ammoPercent| ≤ 1000 →
      |(calculateStatDetails64 sd ps "attack").buffPercent| ≤ 1000 →
      |(calculateStatDetails64 sd ps "attack").total -
          ((calculateStatDetails64 sd ps "attack").skillValue +
              (calculateStatDetails64 sd ps "attack").equipmentValue) *
            (1 + (calculateStatDetails64 sd ps "attack").ammoPercent / 100 +
              (calculateStatDetails64 sd ps "attack").buffPercent / 100)| ≤
        1 / 20 + 1 / 10 ^ 9) ∧
    ((calculateStatDetails64 sd ps "attack").skillValue = 20 →
      (calculateStatDetails64 sd ps "attack").equipmentValue = 10 →
      (calculateStatDetails64 sd ps "attack").ammoPercent = 50 →
      (calculateStatDetails64 sd ps "attack").buffPercent = 10 →
      (calculateStatDetails64 sd ps "attack").total = 48) := by
  have htotal : (calculateStatDetails64 sd ps "attack").total =
      parseFloatToFixed 1
        (fmul (fadd (calculateStatDetails64 sd ps "attack").skillValue
            (calculateStatDetails64 sd ps "attack").equipmentValue)
          (fadd (fadd 1 (fdiv (calculateStatDetails64 sd ps "attack").ammoPercent 100))
            (fdiv (calculateStatDetails64 sd ps "attack").buffPercent 100))) := by
    simp [calculateStatDetails64]
  refine ⟨htotal, ?_, ?_, ?_, ?_, ?_, ?_, ?_, ?_, ?_⟩
  · cases hgs : getSkillData sd "attack" (ps.assignedSkillLevels "attack") <;>
      simp [calculateStatDetails64, hgs]
  · simp [calculateStatDetails64]
  · simp [calculateStatDetails64]
  · simp [calculateStatDetails64]
  · intro h; simp [calculateStatDetails64, h, statOrZero]
  · intro h; simp [calculateStatDetails64, h, statOrZero]
  · intro h; simp [calculateStatDetails64, h, statOrZero]
  · intro hs he ha hb
    rw [htotal]
    exact attackTotal_near _ _ _ _ hs he ha hb
  · intro hs he ha hb
    rw [htotal, hs, he, ha, hb]
    decide!

/-- Witness of C8 on `attackBuild` with `sampleCatalog`: skill value 20, weapon
attack 10, ammo 50 %, buff 10 %, total 48, within `0.05 + 10⁻⁹` of the exact value;
and on the initial build, where the weapon and both buffs are absent. -/
theorem calculateStatDetails64_attack_witness :
    (calculateStatDetails64 sampleCatalog attackBuild "attack").skillValue = 20 ∧
    (calculateStatDetails64 sampleCatalog attackBuild "attack").equipmentValue = 10 ∧
    (calculateStatDetails64 sampleCatalog attackBuild "attack").ammoPercent = 50 ∧
    (calculateStatDetails64 sampleCatalog attackBuild "attack").buffPercent = 10 ∧
    (calculateStatDetails64 sampleCatalog attackBuild "attack").total = 48 ∧
    |(calculateStatDetails64 sampleCatalog attackBuild "attack").total -
        ((calculateStatDetails64 sampleCatalog attackBuild "attack").skillValue +
            (calculateStatDetails64 sampleCatalog attackBuild "attack").equipmentValue) *
          (1 + (calculateStatDetails64 sampleCatalog attackBuild "attack").ammoPercent / 100 +
            (calculateStatDetails64 sampleCatalog attackBuild "attack").buffPercent / 100)| ≤
      1 / 20 + 1 / 10 ^ 9 ∧
    (calculateStatDetails64 sampleCatalog INITIAL_PLAYER_STATE "attack").equipmentValue = 0 ∧
    (calculateStatDetails64 sampleCatalog INITIAL_PLAYER_STATE "attack").ammoPercent = 0 ∧
    (calculateStatDetails64 sampleCatalog INITIAL_PLAYER_STATE "attack").buffPercent = 0 :=
  have h := (calculateStatDetails64_attack sampleCatalog attackBuild).2.2.2.2.2.2.2.2
  have h0 := (calculateStatDetails64_attack sampleCatalog INITIAL_PLAYER_STATE).2.2.2.2.2
  have hs : (calculateStatDetails64 sampleCatalog attackBuild "attack").skillValue = 20 := by
    decide!
  have he : (calculateStatDetails64 sampleCatalog attackBuild "attack").equipmentValue = 10 := by
    decide!
  have ha : (calculateStatDetails64 sampleCatalog attackBuild "attack").ammoPercent = 50 := by
    decide!
  have hb : (calculateStatDetails64 sampleCatalog attackBuild "attack").buffPercent = 10 := by
    decide!
  ⟨hs, he, ha, hb, h.2 hs he ha hb,
    h.1 (by rw [hs]; norm_num [abs_le]) (by rw [he]; norm_num [abs_le])
      (by rw [ha]; norm_num [abs_le]) (by rw [hb]; norm_num [abs_le]),
    h0.1 rfl, h0.2.1 rfl, h0.2.2.1 rfl⟩

/-- Counterexample to C9 as stated.  With a chest armor of 2.04 and a pants armor of
0.01 (the binary64 values of these decimals) the exact sum of the two stats is
above 2.05, so that `skillValue + equipmentValue` rounded to one decimal place is
2.1, and `calculateStatDetails` returns 2.0: the binary64 sum is the double below
2.05. -/
theorem calculateStatDetails64_armor_sum :
    (calculateStatDetails64 none smallArmorBuild "armor").skillValue = 0 ∧
    statOrZero smallArmorBuild.equippedItems.chest "armor" = roundDouble (51 / 25) ∧
    statOrZero smallArmorBuild.equippedItems.pants "armor" = roundDouble (1 / 100) ∧
    (41 / 20 : ℚ) < 0 + (roundDouble (51 / 25) + roundDouble (1 / 100)) ∧
    toFixed 1 (0 + (roundDouble (51 / 25) + roundDouble (1 / 100))) = 21 / 10 ∧
    (calculateStatDetails64 none smallArmorBuild "armor").equipmentValue =
      roundDouble (41 / 20) ∧
    roundDouble (41 / 20) < 41 / 20 ∧
    (calculateStatDetails64 none smallArmorBuild "armor").total = 2 ∧
    (calculateStatDetails64 none smallArmorBuild "armor").total ≠
      parseFloatToFixed 1
        ((calculateStatDetails64 none smallArmorBuild "armor").skillValue +
          (statOrZero smallArmorBuild.equippedItems.chest "armor" +
            statOrZero smallArmorBuild.equippedItems.pants "armor")) := by
  refine ⟨by decide!, by decide!, by decide!, by decide!, by decide!, by decide!, by decide!,
    by decide!, by decide!⟩

/-- Claim C9, amended: for precision, criticalChance, criticalDamages, armor and
dodge, `total` is `skillValue + equipmentValue` evaluated in binary64 arithmetic and
then rounded to one decimal place by `toFixed(1)`, and for lootChance it is
`skillValue` rounded to one decimal place; `equipmentValue` is the matching stat of
the item in the stat's slot (gloves, weapon, helmet, boots, none), and for armor
the binary64 sum of the chest and pants stats, an empty slot contributing 0.  For
values of magnitude at most 1000 the total is within `0.05 + 10⁻⁹` of the exact sum
of the skill value and the slot stats; a skill value 0 with chest armor 10 and
pants armor 5 gives 15. -/
theorem calculateStatDetails64_others (sd : Option SkillsData) (ps : PlayerState) :
    (∀ code ∈ ["precision", "criticalChance", "criticalDamages", "armor", "dodge"],
      (calculateStatDetails64 sd ps code).total =
        parseFloatToFixed 1 (fadd (calculateStatDetails64 sd ps code).skillValue
          (calculateStatDetails64 sd ps code).equipmentValue)) ∧
    (calculateStatDetails64 sd ps "lootChance").total =
      parseFloatToFixed 1 (calculateStatDetails64 sd ps "lootChance").skillValue ∧
    (∀ code ∈ ["precision", "criticalChance", "criticalDamages", "armor", "dodge", "lootChance"],
      (calculateStatDetails64 sd ps code).skillValue =
        (match getSkillData sd code (ps.assignedSkillLevels code) with
          | some info => info.value
          | none => 0)) ∧
    (calculateStatDetails64 sd ps "precision").equipmentValue =
      statOrZero ps.equippedItems.gloves "precision" ∧
    (calculateStatDetails64 sd ps "criticalChance").equipmentValue =
      statOrZero ps.equippedItems.weapon "criticalChance" ∧
    (calculateStatDetails64 sd ps "criticalDamages").equipmentValue =
      statOrZero ps.equippedItems.helmet "criticalDamages" ∧
    (calculateStatDetails64 sd ps "armor").equipmentValue =
      fadd (statOrZero ps.equippedItems.chest "armor")
        (statOrZero ps.equippedItems.pants "armor") ∧
    (calculateStatDetails64 sd ps "dodge").equipmentValue =
      statOrZero ps.equippedItems.boots "dodge" ∧
    (calculateStatDetails64 sd ps "lootChance").equipmentValue = 0 ∧
    (∀ key, statOrZero none key = 0) ∧
    (∀ code ∈ ["precision", "criticalChance", "criticalDamages", "dodge", "lootChance"],
      |(calculateStatDetails64 sd ps code).skillValue| ≤ 1000 →
      |(calculateStatDetails64 sd ps code).equipmentValue| ≤ 1000 →
      |(calculateStatDetails64 sd ps code).total -
          ((calculateStatDetails64 sd ps code).skillValue +
            (calculateStatDetails64 sd ps code).equipmentValue)| ≤ 1 / 20 + 1 / 10 ^ 9) ∧
    (|(calculateStatDetails64 sd ps "armor").skillValue| ≤ 1000 →
      |statOrZero ps.equippedItems.chest "armor"| ≤ 1000 →
      |statOrZero ps.equippedItems.pants "armor"| ≤ 1000 →
      |(calculateStatDetails64 sd ps "armor").total -
          ((calculateStatDetails64 sd ps "armor").skillValue +
            (statOrZero ps.equippedItems.chest "armor" +
              statOrZero ps.equippedItems.pants "armor"))| ≤ 1 / 20 + 1 / 10 ^ 9) ∧
    ((calculateStatDetails64 sd ps "armor").skillValue = 0 →
      statOrZero ps.equippedItems.chest "armor" = 10 →
      statOrZero ps.equippedItems.pants "armor" = 5 →
      (calculateStatDetails64 sd ps "armor").equipmentValue = 15 ∧
      (calculateStatDetails64 sd ps "armor").total = 15) := by
  have htot : ∀ code ∈ ["precision", "criticalChance", "criticalDamages", "armor", "dodge"],
      (calculateStatDetails64 sd ps code).total =
        parseFloatToFixed 1 (fadd (calculateStatDetails64 sd ps code).skillValue
          (calculateStatDetails64 sd ps code).equipmentValue) := by
    intro code hcode
    simp only [List.mem_cons, List.mem_singleton, List.not_mem_nil, or_false] at hcode
    rcases hcode with h | h | h | h | h <;> subst h <;> simp [calculateStatDetails64]
  have hloot : (calculateStatDetails64 sd ps "lootChance").total =
      parseFloatToFixed 1 (calculateStatDetails64 sd ps "lootChance").skillValue := by
    simp [calculateStatDetails64]
  have hlootE : (calculateStatDetails64 sd ps "lootChance").equipmentValue = 0 := by
    simp [calculateStatDetails64]
  have harmorE : (calculateStatDetails64 sd ps "armor").equipmentValue =
      fadd (statOrZero ps.equippedItems.chest "armor")
        (statOrZero ps.equippedItems.pants "armor") := by
    simp [calculateStatDetails64]
  have hnear : ∀ s e : ℚ, |s| ≤ 1000 → |e| ≤ 1000 →
      |parseFloatToFixed 1 (fadd s e) - (s + e)| ≤ 1 / 20 + 1 / 10 ^ 9 := by
    intro s e hs he
    exact sumTotal_near s e e hs (by linarith) (by simp)
  refine ⟨htot, hloot, ?_, ?_, ?_, ?_, harmorE, ?_, hlootE, ?_, ?_, ?_, ?_⟩
  · intro code hcode
    simp only [List.mem_cons, List.mem_singleton, List.not_mem_nil, or_false] at hcode
    rcases hcode with h | h | h | h | h | h <;> subst h <;>
      cases hgs : getSkillData sd _ (ps.assignedSkillLevels _) <;>
      simp [calculateStatDetails64, hgs]
  · simp [calculateStatDetails64]
  · simp [calculateStatDetails64]
  · simp [calculateStatDetails64]
  · simp [calculateStatDetails64]
  · intro key; rfl
  · intro code hcode hs he
    simp only [List.mem_cons, List.mem_singleton, List.not_mem_nil, or_false] at hcode
    rcases hcode with h | h | h | h | h
    · subst h; rw [htot _ (by simp)]; exact hnear _ _ hs he
    · subst h; rw [htot _ (by simp)]; exact hnear _ _ hs he
    · subst h; rw [htot _ (by simp)]; exact hnear _ _ hs he
    · subst h; rw [htot _ (by simp)]; exact hnear _ _ hs he
    · subst h
      rw [hloot, hlootE, add_zero]
      have := parseFloatToFixed_near 1 (calculateStatDetails64 sd ps "lootChance").skillValue
        (calculateStatDetails64 sd ps "lootChance").skillValue 1001 0 (by linarith) (by simp)
      refine le_trans this ?_
      norm_num
  · intro hs hc hp
    rw [htot "armor" (by simp), harmorE]
    have hcp : |statOrZero ps.equippedItems.chest "armor" +
        statOrZero ps.equippedItems.pants "armor"| ≤ 2000 :=
      le_trans (abs_add _ _) (by linarith)
    have d := roundDouble_near _ (statOrZero ps.equippedItems.chest "armor" +
      statOrZero ps.equippedItems.pants "armor") 2000 0 (by norm_num) hcp (by simp)
    have b := roundDouble_abs_le_succ _ 2000 (by norm_num) (by norm_num) hcp
    refine sumTotal_near _ _ _ hs (by unfold fadd; linarith) ?_
    unfold fadd
    refine le_trans d ?_
    norm_num
  · intro hs hc hp
    have he : (calculateStatDetails64 sd ps "armor").equipmentValue = 15 := by
      rw [harmorE, hc, hp]; decide!
    refine ⟨he, ?_⟩
    rw [htot "armor" (by simp), hs, he]
    decide!

/-- Witness of C9 on `armorBuild` without a catalog: chest armor 10 and pants
armor 5 give an equipment value and a total of 15, the exact sum. -/
theorem calculateStatDetails64_others_witness :
    (calculateStatDetails64 none armorBuild "armor").skillValue = 0 ∧
    statOrZero armorBuild.equippedItems.chest "armor" = 10 ∧
    statOrZero armorBuild.equippedItems.pants "armor" = 5 ∧
    (calculateStatDetails64 none armorBuild "armor").equipmentValue = 15 ∧
    (calculateStatDetails64 none armorBuild "armor").total = 15 ∧
    |(calculateStatDetails64 none armorBuild "armor").total -
        ((calculateStatDetails64 none armorBuild "armor").skillValue +
          (statOrZero armorBuild.equippedItems.chest "armor" +
            statOrZero armorBuild.equippedItems.pants "armor"))| ≤ 1 / 20 + 1 / 10 ^ 9 ∧
    |(calculateStatDetails64 none dodgeBuild "dodge").total -
        ((calculateStatDetails64 none dodgeBuild "dodge").skillValue +
          (calculateStatDetails64 none dodgeBuild "dodge").equipmentValue)| ≤
      1 / 20 + 1 / 10 ^ 9 :=
  have hs : (calculateStatDetails64 none armorBuild "armor").skillValue = 0 := by decide!
  have hc : statOrZero armorBuild.equippedItems.chest "armor" = 10 := by decide!
  have hp : statOrZero armorBuild.equippedItems.pants "armor" = 5 := by decide!
  have h := (calculateStatDetails64_others none armorBuild).2.2.2.2.2.2.2.2.2.2.2
  have hd := (calculateStatDetails64_others none dodgeBuild).2.2.2.2.2.2.2.2.2.2.1
  have hds : (calculateStatDetails64 none dodgeBuild "dodge").skillValue = 0 := by decide!
  have hde : (calculateStatDetails64 none dodgeBuild "dodge").equipmentValue = 100 := by decide!
  ⟨hs, hc, hp, (h.2 hs hc hp).1, (h.2 hs hc hp).2,
    h.1 (by rw [hs]; norm_num) (by rw [hc]; norm_num [abs_le]) (by rw [hp]; norm_num [abs_le]),
    hd "dodge" (by simp) (by rw [hds]; norm_num) (by rw [hde]; norm_num [abs_le])⟩

/-! ### The run without food -/

/-- With more fuel than the ticks left before the cap, the loop of
`simulateFullCombat` over binary64 arithmetic is left, with health at most 0 or
the cap reached, and never beyond the cap. -/
theorem fullCombatLoop64_returns (sd : Option SkillsData) (ps : PlayerState) (rand : ℕ → ℚ) :
    ∀ (fuel : ℕ) (s : FullCombatState), simulateFullCombat.MAX_TICKS - s.ticksSurvived < fuel →
      ∃ s', fullCombatLoop64 sd ps rand fuel s = some s' ∧
        (s'.tempCurrentHealth ≤ 0 ∨ simulateFullCombat.MAX_TICKS ≤ s'.ticksSurvived) ∧
        (s.ticksSurvived ≤ simulateFullCombat.MAX_TICKS →
          s'.ticksSurvived ≤ simulateFullCombat.MAX_TICKS) := by
  intro fuel
  induction fuel with
  | zero => intro s h; omega
  | succ fuel ih =>
    intro s hfuel
    unfold fullCombatLoop64
    by_cases hg : s.tempCurrentHealth > 0 ∧ s.ticksSurvived < simulateFullCombat.MAX_TICKS
    · simp only [hg, and_self, if_true]
      have hticks : (fullCombatBody64 sd ps rand s).ticksSurvived = s.ticksSurvived + 1 := rfl
      obtain ⟨s', hs', hex, hle⟩ := ih (fullCombatBody64 sd ps rand s) (by rw [hticks]; omega)
      exact ⟨s', hs', hex, fun _ => hle (by rw [hticks]; omega)⟩
    · simp only [hg, if_false]
      refine ⟨s, rfl, ?_, id⟩
      rcases not_and_or.mp hg with h | h
      · exact Or.inl (not_lt.mp h)
      · exact Or.inr (not_lt.mp h)

/-- The result object that `simulateFullCombat` builds from the values of its local
variables at the end of the loop, over binary64 arithmetic. -/
theorem simulateFullCombat64_of_run (sd : Option SkillsData) (ps : PlayerState)
    (rand : ℕ → ℚ) (s : FullCombatState)
    (h : simulateFullCombatRun64 sd ps rand = some s) :
    simulateFullCombat64 sd ps rand =
      some
        { totalDamageDealt := parseFloatToFixed 1 s.totalDamageDealt,
          ticksSurvived := s.ticksSurvived,
          log := if s.ticksSurvived ≥ simulateFullCombat.MAX_TICKS
                 then s.fullLog ++ [LogLine.maxTicks] else s.fullLog,
          finalHealth := max 0 s.tempCurrentHealth } := by
  simp only [simulateFullCombat64, h]

/-- Invariant of the loop of `simulateFullCombat` over binary64 arithmetic: three
draws are consumed per tick counted, the health is the result of subtracting the
losses of the ticks resolved one after the other, the damage total is the counted
damage of these ticks, and every tick but the last one left the health above 0. -/
theorem fullCombatLoop64_totals (sd : Option SkillsData) (ps : PlayerState) (rand : ℕ → ℚ) :
    ∀ (fuel : ℕ) (s s' : FullCombatState),
      fullCombatLoop64 sd ps rand fuel s = some s' →
      s.drawsUsed = 3 * s.ticksSurvived →
      s.tempCurrentHealth = healthAfterTicks64 sd ps rand s.ticksSurvived →
      s.totalDamageDealt = countedDamage64 sd ps rand s.ticksSurvived →
      (∀ k, k + 1 < s.ticksSurvived → 0 < healthAfterTicks64 sd ps rand (k + 1)) →
      s'.drawsUsed = 3 * s'.ticksSurvived ∧
      s'.tempCurrentHealth = healthAfterTicks64 sd ps rand s'.ticksSurvived ∧
      s'.totalDamageDealt = countedDamage64 sd ps rand s'.ticksSurvived ∧
      (∀ k, k + 1 < s'.ticksSurvived → 0 < healthAfterTicks64 sd ps rand (k + 1)) := by
  intro fuel
  induction fuel with
  | zero => intro s s' h; simp [fullCombatLoop64] at h
  | succ fuel ih =>
    intro s s' h hd hh ht hprev
    unfold fullCombatLoop64 at h
    by_cases hg : s.tempCurrentHealth > 0 ∧ s.ticksSurvived < simulateFullCombat.MAX_TICKS
    · simp only [hg, and_self, if_true] at h
      have htick : simulateCombatTick64 sd ps (rand s.drawsUsed) (rand (s.drawsUsed + 1))
          (rand (s.drawsUsed + 2)) = tickAt64 sd ps rand s.ticksSurvived := by
        simp only [tickAt64, hd]
      have hh' : (fullCombatBody64 sd ps rand s).tempCurrentHealth =
          healthAfterTicks64 sd ps rand (s.ticksSurvived + 1) := by
        simp only [fullCombatBody64, htick, hh, healthAfterTicks64]
      have hticks : (fullCombatBody64 sd ps rand s).ticksSurvived = s.ticksSurvived + 1 := rfl
      refine ih _ s' h ?_ hh' ?_ ?_
      · simp only [fullCombatBody64, hd]; ring
      · have hbody : (fullCombatBody64 sd ps rand s).totalDamageDealt =
            if (fullCombatBody64 sd ps rand s).tempCurrentHealth ≥ 0 ∨
                ((fullCombatBody64 sd ps rand s).tempCurrentHealth < 0 ∧ s.ticksSurvived = 0) then
              fadd s.totalDamageDealt (tickAt64 sd ps rand s.ticksSurvived).finalDamageDealt
            else s.totalDamageDealt := by
          simp only [fullCombatBody64, htick]
        rw [hbody, hh', ht, hticks]
        simp only [countedDamage64]
        by_cases hcond : 0 ≤ healthAfterTicks64 sd ps rand (s.ticksSurvived + 1) ∨
            s.ticksSurvived = 0
        · have hc' : healthAfterTicks64 sd ps rand (s.ticksSurvived + 1) ≥ 0 ∨
              (healthAfterTicks64 sd ps rand (s.ticksSurvived + 1) < 0 ∧
                s.ticksSurvived = 0) := by
            rcases hcond with h0 | h0
            · exact Or.inl h0
            · by_cases hpos : 0 ≤ healthAfterTicks64 sd ps rand (s.ticksSurvived + 1)
              · exact Or.inl hpos
              · exact Or.inr ⟨not_le.mp hpos, h0⟩
          rw [if_pos hc', if_pos hcond]
        · have hc' : ¬ (healthAfterTicks64 sd ps rand (s.ticksSurvived + 1) ≥ 0 ∨
              (healthAfterTicks64 sd ps rand (s.ticksSurvived + 1) < 0 ∧
                s.ticksSurvived = 0)) := by
            rintro (h0 | ⟨-, h0⟩)
            · exact hcond (Or.inl h0)
            · exact hcond (Or.inr h0)
          rw [if_neg hc', if_neg hcond]
      · intro k hk
        have hk' : k + 1 < s.ticksSurvived ∨ k + 1 = s.ticksSurvived := by
          rw [hticks] at hk; omega
        rcases hk' with hk' | hk'
        · exact hprev k hk'
        · rw [hk', ← hh]; exact hg.1
    · simp only [hg, if_false, Option.some.injEq] at h
      subst h
      exact ⟨hd, hh, ht, hprev⟩

/-- Claim C19: `simulateFullCombat`, over binary64 arithmetic, returns after at most
1000 ticks; its health after each tick is the health before it minus the
`healthLost` of the tick (a binary64 subtraction); a tick after which this health
is at most 0 is the last one resolved and is counted in `ticksSurvived`; the loop
stops below the cap only with health at most 0; and `totalDamageDealt` is the
sum, rounded to one decimal place, to which the `finalDamageDealt` of a tick is
added exactly when the health after that tick is at least 0 or the tick is the
very first one. -/
theorem simulateFullCombat64_ticks (sd : Option SkillsData) (ps : PlayerState)
    (rand : ℕ → ℚ) :
    ∃ r s, simulateFullCombatRun64 sd ps rand = some s ∧
      simulateFullCombat64 sd ps rand = some r ∧
      r.ticksSurvived = s.ticksSurvived ∧
      r.ticksSurvived ≤ 1000 ∧
      s.drawsUsed = 3 * r.ticksSurvived ∧
      s.tempCurrentHealth = healthAfterTicks64 sd ps rand r.ticksSurvived ∧
      healthAfterTicks64 sd ps rand 0 = ps.currentHealth ∧
      (∀ n, healthAfterTicks64 sd ps rand (n + 1) =
        fsub (healthAfterTicks64 sd ps rand n) (tickAt64 sd ps rand n).healthLost) ∧
      (∀ k, k < r.ticksSurvived → healthAfterTicks64 sd ps rand (k + 1) ≤ 0 →
        k + 1 = r.ticksSurvived) ∧
      (r.ticksSurvived < 1000 → healthAfterTicks64 sd ps rand r.ticksSurvived ≤ 0) ∧
      r.finalHealth = max 0 (healthAfterTicks64 sd ps rand r.ticksSurvived) ∧
      r.totalDamageDealt = parseFloatToFixed 1 (countedDamage64 sd ps rand r.ticksSurvived) ∧
      countedDamage64 sd ps rand 0 = 0 ∧
      (∀ n, countedDamage64 sd ps rand (n + 1) =
        if 0 ≤ healthAfterTicks64 sd ps rand (n + 1) ∨ n = 0
          then fadd (countedDamage64 sd ps rand n) (tickAt64 sd ps rand n).finalDamageDealt
          else countedDamage64 sd ps rand n) := by
  obtain ⟨s', hs', hex, hle⟩ := fullCombatLoop64_returns sd ps rand
    (simulateFullCombat.MAX_TICKS + 1)
    { totalDamageDealt := 0, ticksSurvived := 0, fullLog := [],
      tempCurrentHealth := ps.currentHealth, drawsUsed := 0 }
    (by simp)
  obtain ⟨hd, hh, ht, hprev⟩ := fullCombatLoop64_totals sd ps rand _ _ s' hs' rfl
    (by simp [healthAfterTicks64]) (by simp [countedDamage64]) (fun k hk => by simp at hk)
  have hcap : s'.ticksSurvived ≤ 1000 := hle (by simp)
  refine ⟨_, s', hs', simulateFullCombat64_of_run sd ps rand s' hs', rfl, hcap, hd, hh, rfl,
    fun n => rfl, ?_, ?_, by simp only [hh], by simp only [ht], rfl, fun n => rfl⟩
  · intro k hk hdead
    have hk' : k < s'.ticksSurvived := hk
    show k + 1 = s'.ticksSurvived
    by_contra hne
    have hlt : k + 1 < s'.ticksSurvived := by omega
    exact absurd (hprev k hlt) (not_lt.mpr hdead)
  · intro hlt
    have hlt' : s'.ticksSurvived < 1000 := hlt
    show healthAfterTicks64 sd ps rand s'.ticksSurvived ≤ 0
    rcases hex with hdead | hcap'
    · rw [← hh]; exact hdead
    · simp only [simulateFullCombat.MAX_TICKS] at hcap'
      omega

/-- Witness of C19 on `lowHealthBuild` (health 15, 10 lost and 10 dealt per tick):
the health is 5 after the first tick and −5 after the second, which is the last;
two ticks are counted and only the damage of the first is.  On `heavyArmorBuild`
(health 50, 0.4 lost per tick) the binary64 health after 125 ticks is still above
0, so that 126 ticks are resolved. -/
theorem simulateFullCombat64_ticks_witness :
    healthAfterTicks64 none lowHealthBuild (fun _ => 0) 1 = 5 ∧
    healthAfterTicks64 none lowHealthBuild (fun _ => 0) 2 = -5 ∧
    countedDamage64 none lowHealthBuild (fun _ => 0) 2 = 10 ∧
    (simulateFullCombat64 none lowHealthBuild (fun _ => 0)).map
      (fun r => (r.ticksSurvived, r.totalDamageDealt, r.finalHealth)) = some (2, 10, 0) ∧
    (∃ r, simulateFullCombat64 none lowHealthBuild (fun _ => 0) = some r ∧
      1 + 1 = r.ticksSurvived) ∧
    (tickAt64 none heavyArmorBuild (fun _ => 0) 0).healthLost = roundDouble (2 / 5) ∧
    0 < healthAfterTicks64 none heavyArmorBuild (fun _ => 0) 125 ∧
    healthAfterTicks64 none heavyArmorBuild (fun _ => 0) 126 ≤ 0 ∧
    (simulateFullCombat64 none heavyArmorBuild (fun _ => 0)).map
      (fun r => (r.ticksSurvived, r.finalHealth)) = some (126, 0) :=
  have h2 : healthAfterTicks64 none lowHealthBuild (fun _ => 0) (1 + 1) ≤ 0 := by decide!
  have hr : (simulateFullCombat64 none lowHealthBuild (fun _ => 0)).map
      (fun r => (r.ticksSurvived, r.totalDamageDealt, r.finalHealth)) = some (2, 10, 0) := by
    decide!
  match simulateFullCombat64_ticks none lowHealthBuild (fun _ => 0) with
  | ⟨r, _, _, hsim, _, _, _, _, _, _, hlast, _⟩ =>
    have hticks : r.ticksSurvived = 2 := by
      rw [hsim] at hr
      simp only [Option.map_some', Option.some.injEq, Prod.mk.injEq] at hr
      exact hr.1
    ⟨by decide!, by decide!, by decide!, hr,
      ⟨r, hsim, hlast 1 (by rw [hticks]; decide) h2⟩,
      by decide!, by decide!, by decide!, by decide!⟩

/-! ### The death check at every iteration -/

/-- The outer loop of `simulateFullCombatWithFood` never lowers the tick count. -/
theorem foodLoop_ticks_mono (sd : Option SkillsData) (ps : PlayerState) (rand : ℕ → ℚ)
    (foodName : String) (healthPerFood maxHealth : ℚ) :
    ∀ (fuel : ℕ) (s s' : FoodCombatState),
      foodLoop sd ps rand foodName healthPerFood maxHealth fuel s = some s' →
      s.ticksSurvived ≤ s'.ticksSurvived := by
  intro fuel
  induction fuel with
  | zero => intro s s' h; simp [foodLoop] at h
  | succ fuel ih =>
    intro s s' h
    unfold foodLoop at h
    by_cases hc : s.ticksSurvived < MAX_TICKS
    · obtain ⟨s1, hs1, ht1, -, -, -⟩ := panicEat_returns foodName healthPerFood maxHealth s
      simp only [hc, if_true, hs1] at h
      by_cases hdead : s1.tempCurrentHealth ≤ 0
      · simp only [hdead, if_true, Option.some.injEq] at h
        subst h
        simp only [ht1, le_refl]
      · simp only [hdead, if_false] at h
        have := ih _ s' h
        have hticks : (foodTick sd ps rand s1).ticksSurvived = s.ticksSurvived + 1 := by
          simp [foodTick, ht1]
        omega
    · simp only [hc, if_false, Option.some.injEq] at h
      subst h
      exact le_refl _

/-- Claim C21, amended: at every iteration of the outer loop of
`simulateFullCombatWithFood` below the cap, if the health after the panic-eat
attempt is at most 0 the combat ends there, with the defeat line and no further
tick (`ticksSurvived` is the number of ticks resolved before); if it is above 0,
also when it is at most 10 and so not enough to survive a full hit, the next tick
is resolved. -/
theorem simulateFullCombatWithFood_ends_at_zero (sd : Option SkillsData) (ps : PlayerState)
    (foodName : String) (flatStats : FlatStats) (rand : ℕ → ℚ) :
    ∀ (i : ℕ) (s s1 : FoodCombatState),
      foodLoopHead sd ps rand foodName (orZero flatStats.healthRegen)
          (maxHealthFromSkills sd ps) i (foodCombatStart ps foodName flatStats) = some s →
      s.ticksSurvived < MAX_TICKS →
      panicEat foodName (orZero flatStats.healthRegen) (maxHealthFromSkills sd ps) s =
        some s1 →
      (s1.tempCurrentHealth ≤ 0 →
        ∃ r, simulateFullCombatWithFood sd ps
              (some { name := foodName, flatStats := some flatStats }) rand = Except.ok r ∧
          r.ticksSurvived = i ∧ r.finalHealth = 0 ∧
          r.log = s1.fullLog ++ [LogLine.defeated]) ∧
      (0 < s1.tempCurrentHealth →
        foodLoopHead sd ps rand foodName (orZero flatStats.healthRegen)
            (maxHealthFromSkills sd ps) (i + 1) (foodCombatStart ps foodName flatStats) =
          some (foodTick sd ps rand s1) ∧
        (foodTick sd ps rand s1).ticksSurvived = i + 1 ∧
        ∃ r, simulateFullCombatWithFood sd ps
              (some { name := foodName, flatStats := some flatStats }) rand = Except.ok r ∧
          i + 1 ≤ r.ticksSurvived) := by
  intro i s s1 hhead hcap heat
  obtain ⟨hticks, hloop⟩ := foodLoop_of_foodLoopHead sd ps rand foodName _ _ i _ s hhead
  have hi : s.ticksSurvived = i := by simpa [foodCombatStart] using hticks
  obtain ⟨s1', hs1', ht1, -, -, -⟩ := panicEat_returns foodName
    (orZero flatStats.healthRegen) (maxHealthFromSkills sd ps) s
  rw [heat, Option.some.injEq] at hs1'
  subst hs1'
  have hile : i < MAX_TICKS := by omega
  obtain ⟨f, hf⟩ : ∃ f, MAX_TICKS + 1 = (f + 1) + i := ⟨MAX_TICKS - i, by omega⟩
  have hrun0 : simulateFullCombatWithFoodRun sd ps foodName flatStats rand =
      foodLoop sd ps rand foodName (orZero flatStats.healthRegen)
        (maxHealthFromSkills sd ps) (f + 1) s := by
    have := hloop (f + 1)
    rw [← hf] at this
    exact this
  refine ⟨fun hdead => ?_, fun halive => ?_⟩
  · have hrun : simulateFullCombatWithFoodRun sd ps foodName flatStats rand =
        some { s1 with fullLog := s1.fullLog ++ [LogLine.defeated] } := by
      rw [hrun0]
      conv_lhs => unfold foodLoop
      simp only [hcap, if_true, heat, hdead]
    refine ⟨_, simulateFullCombatWithFood_of_run sd ps foodName flatStats rand _ hrun,
      ?_, ?_, ?_⟩
    · show s1.ticksSurvived = i
      rw [ht1, hi]
    · exact max_eq_left hdead
    · have : ¬ (s1.ticksSurvived ≥ MAX_TICKS) := by rw [ht1]; omega
      simp only [this, if_false]
  · have hstep : foodLoopStep sd ps rand foodName (orZero flatStats.healthRegen)
        (maxHealthFromSkills sd ps) s = some (foodTick sd ps rand s1) := by
      unfold foodLoopStep
      simp only [hcap, if_true, heat, not_le.mpr halive, if_false]
    have htk : (foodTick sd ps rand s1).ticksSurvived = i + 1 := by
      simp [foodTick, ht1, hi]
    have hnext : ∀ (j : ℕ) (a b : FoodCombatState),
        foodLoopHead sd ps rand foodName (orZero flatStats.healthRegen)
          (maxHealthFromSkills sd ps) j a = some b →
        foodLoopHead sd ps rand foodName (orZero flatStats.healthRegen)
          (maxHealthFromSkills sd ps) (j + 1) a =
        foodLoopStep sd ps rand foodName (orZero flatStats.healthRegen)
          (maxHealthFromSkills sd ps) b := by
      intro j
      induction j with
      | zero =>
        intro a b hab
        simp only [foodLoopHead, Option.some.injEq] at hab
        subst hab
        simp only [foodLoopHead]
        cases foodLoopStep sd ps rand foodName (orZero flatStats.healthRegen)
          (maxHealthFromSkills sd ps) a <;> rfl
      | succ j ih =>
        intro a b hab
        unfold foodLoopHead at hab ⊢
        cases hst : foodLoopStep sd ps rand foodName (orZero flatStats.healthRegen)
            (maxHealthFromSkills sd ps) a with
        | none => simp [hst] at hab
        | some a1 =>
          simp only [hst] at hab ⊢
          exact ih a1 b hab
    have hrun1 : simulateFullCombatWithFoodRun sd ps foodName flatStats rand =
        foodLoop sd ps rand foodName (orZero flatStats.healthRegen)
          (maxHealthFromSkills sd ps) f (foodTick sd ps rand s1) := by
      rw [hrun0]
      conv_lhs => unfold foodLoop
      simp only [hcap, if_true, heat, not_le.mpr halive, if_false]
    obtain ⟨s', hs', -, -⟩ := foodLoop_returns sd ps rand foodName
      (orZero flatStats.healthRegen) (maxHealthFromSkills sd ps) f (foodTick sd ps rand s1)
      (by rw [htk]; omega)
    have hmono := foodLoop_ticks_mono sd ps rand foodName _ _ f _ s' hs'
    refine ⟨by rw [hnext i _ s hhead, hstep], htk, _,
      simulateFullCombatWithFood_of_run sd ps foodName flatStats rand s' (by rw [hrun1, hs']),
      ?_⟩
    show i + 1 ≤ s'.ticksSurvived
    omega

/-- Witness of C21 on `starvedBuild` (health 5, hunger 0) with `breadFood`: at the
first iteration the panic-eat attempt leaves the health at 5, which is above 0, and
the tick is resolved; at the second iteration the health is −5 and the combat ends
with one tick resolved. -/
theorem simulateFullCombatWithFood_ends_at_zero_witness :
    (0 : ℚ) < (foodCombatStart starvedBuild "Bread" { healthRegen := some 20 }).tempCurrentHealth ∧
    (foodCombatStart starvedBuild "Bread" { healthRegen := some 20 }).tempCurrentHealth ≤ 10 ∧
    (foodLoopHead none starvedBuild (fun _ => 0) "Bread" (orZero (some (20 : ℚ)))
        (maxHealthFromSkills none starvedBuild) (0 + 1)
        (foodCombatStart starvedBuild "Bread" { healthRegen := some 20 }) =
      some (foodTick none starvedBuild (fun _ => 0)
        (foodCombatStart starvedBuild "Bread" { healthRegen := some 20 }))) ∧
    (foodTick none starvedBuild (fun _ => 0)
      (foodCombatStart starvedBuild "Bread" { healthRegen := some 20 })).tempCurrentHealth ≤ 0 ∧
    (∃ r, simulateFullCombatWithFood none starvedBuild
        (some { name := "Bread", flatStats := some { healthRegen := some 20 } })
        (fun _ => 0) = Except.ok r ∧ r.ticksSurvived = 1 ∧ r.finalHealth = 0) :=
  have hstart : foodLoopHead none starvedBuild (fun _ => 0) "Bread" (orZero (some (20 : ℚ)))
      (maxHealthFromSkills none starvedBuild) 0
      (foodCombatStart starvedBuild "Bread" { healthRegen := some 20 }) =
      some (foodCombatStart starvedBuild "Bread" { healthRegen := some 20 }) := rfl
  have heat0 : panicEat "Bread" (orZero (some (20 : ℚ))) (maxHealthFromSkills none starvedBuild)
      (foodCombatStart starvedBuild "Bread" { healthRegen := some 20 }) =
      some (foodCombatStart starvedBuild "Bread" { healthRegen := some 20 }) := by decide!
  have hpos : (0 : ℚ) <
      (foodCombatStart starvedBuild "Bread" { healthRegen := some 20 }).tempCurrentHealth := by
    decide!
  have h0 := (simulateFullCombatWithFood_ends_at_zero none starvedBuild "Bread"
    { healthRegen := some 20 } (fun _ => 0) 0 _ _ hstart (by decide) heat0).2 hpos
  have heat1 : panicEat "Bread" (orZero (some (20 : ℚ))) (maxHealthFromSkills none starvedBuild)
      (foodTick none starvedBuild (fun _ => 0)
        (foodCombatStart starvedBuild "Bread" { healthRegen := some 20 })) =
      some (foodTick none starvedBuild (fun _ => 0)
        (foodCombatStart starvedBuild "Bread" { healthRegen := some 20 })) := by decide!
  have hdead : (foodTick none starvedBuild (fun _ => 0)
      (foodCombatStart starvedBuild "Bread" { healthRegen := some 20 })).tempCurrentHealth ≤ 0 := by
    decide!
  have h1 := (simulateFullCombatWithFood_ends_at_zero none starvedBuild "Bread"
    { healthRegen := some 20 } (fun _ => 0) 1 _ _ h0.1 (by decide) heat1).1 hdead
  match h1 with
  | ⟨r, hr, ht, hh, _⟩ => ⟨hpos, by decide!, h0.1, hdead, r, hr, ht, hh⟩

end Combate

namespace Mercado

open Combate

/-! ### Profit per unit of work -/

/-- The error of `L·(1 + b/100) / T` computed in binary64 arithmetic and rounded to
six decimals, for `|L| ≤ 100000`, `|b| ≤ 1000` and `T ≥ 1`. -/
theorem profitPerWork_near (L b T : ℚ) (hL : |L| ≤ 100000) (hb : |b| ≤ 1000) (hT : 1 ≤ T) :
    |parseFloatToFixed 6 (fdiv (fmul L (fadd 1 (fdiv b 100))) T) - L * (1 + b / 100) / T| ≤
      1 / (2 * 10 ^ 6) + 1 / 10 ^ 9 := by
  unfold fmul fadd fdiv
  have hTpos : (0 : ℚ) < T := by linarith
  have h0 : |b / 100| ≤ 10 := by
    rw [abs_div, abs_of_pos (by norm_num : (0 : ℚ) < 100), div_le_iff₀ (by norm_num)]
    linarith
  have dp1 := roundDouble_near (b / 100) (b / 100) 10 0 (by norm_num) h0 (by simp)
  have bp1 := roundDouble_abs_le_succ (b / 100) 10 (by norm_num) (by norm_num) h0
  set p1 := roundDouble (b / 100) with hp1
  have hq1 : |1 + p1| ≤ 12 := by
    refine le_trans (abs_add _ _) ?_
    rw [abs_one]; linarith
  have eq1 : |(1 + p1) - (1 + b / 100)| ≤ 0 + 10 / 2 ^ 53 := by
    rw [show (1 + p1) - (1 + b / 100) = p1 - b / 100 by ring]; exact dp1
  have dq1 := roundDouble_near (1 + p1) (1 + b / 100) 12 _ (by norm_num) hq1 eq1
  have bq1 := roundDouble_abs_le_succ (1 + p1) 12 (by norm_num) (by norm_num) hq1
  set m' := roundDouble (1 + p1) with hm'
  have hprod := mul_sub_mul_le L L (1 + b / 100) m' 100000 13 0 _ hL (by linarith)
    (by simp) dq1
  have hP : |L * m'| ≤ 1300000 := by
    rw [abs_mul]
    calc |L| * |m'| ≤ 100000 * 13 :=
          mul_le_mul hL (by linarith) (abs_nonneg _) (by norm_num)
      _ = 1300000 := by norm_num
  have dP := roundDouble_near (L * m') (L * (1 + b / 100)) 1300000 _ (by norm_num) hP hprod
  have bP := roundDouble_abs_le_succ (L * m') 1300000 (by norm_num) (by norm_num) hP
  set P := roundDouble (L * m') with hPdef
  have hdivle : ∀ z : ℚ, |z / T| ≤ |z| := by
    intro z
    rw [abs_div, abs_of_pos hTpos, div_le_iff₀ hTpos]
    nlinarith [abs_nonneg z]
  have hQ : |P / T| ≤ 1300001 := le_trans (hdivle P) (by linarith)
  have eQ : |P / T - L * (1 + b / 100) / T| ≤
      0 * 13 + 100000 * (0 + 10 / 2 ^ 53 + 12 / 2 ^ 53) + 1300000 / 2 ^ 53 := by
    rw [← sub_div]
    exact le_trans (hdivle _) dP
  have dQ := roundDouble_near (P / T) (L * (1 + b / 100) / T) 1300001 _ (by norm_num) hQ eQ
  have bQ := roundDouble_abs_le_succ (P / T) 1300001 (by norm_num) (by norm_num) hQ
  have hfin := parseFloatToFixed_near 6 (roundDouble (P / T)) (L * (1 + b / 100) / T) 1300003 _
    (by linarith) dQ
  refine le_trans hfin ?_
  norm_num

/-- With a bonus of 0 the multiplication by `1 + 0/100` leaves a binary64 value as it
is. -/
theorem fmul_one_add_zero (x : ℚ) :
    fmul (roundDouble x) (fadd 1 (fdiv 0 100)) = roundDouble x := by
  have h0 : fdiv 0 100 = 0 := by simp [fdiv, roundDouble]
  have h1 : fadd 1 0 = 1 := by decide!
  rw [h0, h1]
  simp only [fmul, mul_one]
  exact roundDouble_idem x

/-- Counterexample to C30 as stated.  Bread sells at 2.25 and takes 8 production
points and no ingredient, so the gross profit is 2.25; with a bonus of 15 % the
exact value of `2.25·(1 + 15/100) / 8` is 0.3234375, whose rounding to 6 decimals is
0.323438, and the row holds 0.323437: the binary64 product `2.25·1.15` is
2.5874999999999995. -/
theorem processItem_bonus_tie :
    (processItem tiePrices tieConfig 15 sampleKey sampleKey sampleCapitalize
      "Bread").lucroBruto = some (9 / 4) ∧
    (processItem tiePrices tieConfig 15 sampleKey sampleKey sampleCapitalize
      "Bread").trabalho = some 8 ∧
    (9 / 4 : ℚ) * (1 + 15 / 100) / 8 = 207 / 640 ∧
    toFixed 6 ((9 / 4 : ℚ) * (1 + 15 / 100) / 8) = 323438 / 1000000 ∧
    (processItem tiePrices tieConfig 15 sampleKey sampleKey sampleCapitalize
      "Bread").lucroPorTrabalhoComBonus = some (roundDouble (323437 / 1000000)) ∧
    (processItem tiePrices tieConfig 15 sampleKey sampleKey sampleCapitalize
      "Bread").lucroPorTrabalhoComBonus ≠
        some (parseFloatToFixed 6 ((9 / 4 : ℚ) * (1 + 15 / 100) / 8)) := by
  refine ⟨by decide!, by decide!, by norm_num, by decide!, by decide!, by decide!⟩

/-- Claim C30, amended: for every item whose row has a gross profit and positive
production points (the item has a price, production points, and a price for every
ingredient), `lucroPorTrabalhoComBonus` is `lucroBruto·(1 + bonusPercent/100)`
divided by `trabalho`, evaluated in binary64 arithmetic and then rounded to 6
decimals by `toFixed(6)`, and `lucroPorTrabalhoBase` is `lucroBruto / trabalho`
treated the same way; for a gross profit of magnitude at most 100000, a bonus of
magnitude at most 1000 and at least one production point the former is within
`0.0000005 + 10⁻⁹` of the exact value of the formula; with `bonusPercent = 0` the two
are equal for every item. -/
theorem processItem_bonus (marketData : String → Option ℚ)
    (configData : String → Option ConfigItem) (bonusPercent : ℚ)
    (toKey toCamelCase capitalize : String → String) (itemName : String) :
    (∀ lucroBruto trabalho : ℚ,
      (processItem marketData configData bonusPercent toKey toCamelCase capitalize
        itemName).lucroBruto = some lucroBruto →
      (processItem marketData configData bonusPercent toKey toCamelCase capitalize
        itemName).trabalho = some trabalho →
      0 < trabalho →
      (processItem marketData configData bonusPercent toKey toCamelCase capitalize
        itemName).lucroPorTrabalhoComBonus =
          some (parseFloatToFixed 6
            (fdiv (fmul lucroBruto (fadd 1 (fdiv bonusPercent 100))) trabalho)) ∧
      (processItem marketData configData bonusPercent toKey toCamelCase capitalize
        itemName).lucroPorTrabalhoBase =
          some (parseFloatToFixed 6 (fdiv lucroBruto trabalho)) ∧
      (|lucroBruto| ≤ 100000 → |bonusPercent| ≤ 1000 → 1 ≤ trabalho →
        |parseFloatToFixed 6 (fdiv (fmul lucroBruto (fadd 1 (fdiv bonusPercent 100))) trabalho) -
            lucroBruto * (1 + bonusPercent / 100) / trabalho| ≤
          1 / (2 * 10 ^ 6) + 1 / 10 ^ 9)) ∧
    (processItem marketData configData 0 toKey toCamelCase capitalize
        itemName).lucroPorTrabalhoComBonus =
      (processItem marketData configData 0 toKey toCamelCase capitalize
        itemName).lucroPorTrabalhoBase ∧
    (∀ row ∈ processData marketData configData 0 toKey toCamelCase capitalize,
      row.lucroPorTrabalhoComBonus = row.lucroPorTrabalhoBase) := by
  have hzero : ∀ name, (processItem marketData configData 0 toKey toCamelCase capitalize
        name).lucroPorTrabalhoComBonus =
      (processItem marketData configData 0 toKey toCamelCase capitalize
        name).lucroPorTrabalhoBase := by
    intro name
    unfold processItem
    simp only []
    repeat' split
    all_goals first | rfl | simp only [parseFloatToFixed, fmul_one_add_zero]
  refine ⟨?_, hzero itemName, ?_⟩
  · intro lucroBruto trabalho hl ht hpos
    refine ⟨?_, ?_, fun h1 h2 h3 => profitPerWork_near _ _ _ h1 h2 h3⟩
    · unfold processItem at hl ht ⊢
      simp only [] at hl ht ⊢
      repeat' split at hl
      all_goals simp_all
    · unfold processItem at hl ht ⊢
      simp only [] at hl ht ⊢
      repeat' split at hl
      all_goals simp_all
  · intro row hrow
    simp only [processData, List.mem_map] at hrow
    obtain ⟨name, -, rfl⟩ := hrow
    exact hzero name

/-- Witness of C30 on the example: bread sells at 12.5 and takes 4 production points
and 3 grain at 1.25, so the gross profit is 8.75; with a bonus of 10 % the profit
per unit of work is 2.40625, within the bound of `8.75·1.1 / 4`, and without bonus
2.1875. -/
theorem processItem_bonus_witness :
    (processItem samplePrices sampleConfig 10 sampleKey sampleKey sampleCapitalize
      "Bread").lucroBruto = some (35 / 4) ∧
    (processItem samplePrices sampleConfig 10 sampleKey sampleKey sampleCapitalize
      "Bread").trabalho = some 4 ∧
    (processItem samplePrices sampleConfig 10 sampleKey sampleKey sampleCapitalize
      "Bread").lucroPorTrabalhoComBonus =
        some (parseFloatToFixed 6 (fdiv (fmul (35 / 4) (fadd 1 (fdiv 10 100))) 4)) ∧
    |parseFloatToFixed 6 (fdiv (fmul (35 / 4) (fadd 1 (fdiv 10 100))) 4) -
        (35 / 4 : ℚ) * (1 + 10 / 100) / 4| ≤ 1 / (2 * 10 ^ 6) + 1 / 10 ^ 9 ∧
    (processItem samplePrices sampleConfig 10 sampleKey sampleKey sampleCapitalize
      "Bread").lucroPorTrabalhoComBonus = some (77 / 32) ∧
    (processItem samplePrices sampleConfig 0 sampleKey sampleKey sampleCapitalize
      "Bread").lucroPorTrabalhoComBonus = some (35 / 16) :=
  have hl : (processItem samplePrices sampleConfig 10 sampleKey sampleKey sampleCapitalize
      "Bread").lucroBruto = some (35 / 4) := by decide!
  have ht : (processItem samplePrices sampleConfig 10 sampleKey sampleKey sampleCapitalize
      "Bread").trabalho = some 4 := by decide!
  have h := (processItem_bonus samplePrices sampleConfig 10 sampleKey sampleKey
    sampleCapitalize "Bread").1 (35 / 4) 4 hl ht (by norm_num)
  ⟨hl, ht, h.1, h.2.2 (by norm_num [abs_le]) (by norm_num [abs_le]) (by norm_num),
    by decide!, by decide!⟩

end Mercado
